import Mathlib

/-!
Verification of the object pool (src/src/core/memory_pool.c) and the uniform
spatial grid (src/src/systems/spatial_grid.c) of the playdate-engine repository.

Modelling conventions:
* Machine integers (`uint32_t`) become `Nat`; counters that the structure keeps
  bounded (capacity, freeCount, freeHead, objectCount, totalObjects) never reach
  `2^32` along the paths the theorems talk about, so plain `Nat` arithmetic agrees
  with the C arithmetic there; pure statistics counters that grow without bound
  (totalAllocations, totalDeallocations, queriesPerFrame) are reduced modulo `2^32`
  exactly as the hardware does.
* `float` world coordinates become `Rat`.  All position arithmetic in the source
  (subtraction, comparison, multiplication, division by the cell size followed by
  truncation to `uint32_t`) is modelled exactly over `Rat`.
* Pointers become explicit values: a pool object pointer is its byte offset from
  the pool base (`index * elementSize`); a `GridObjectEntry*` is the index of the
  entry's slot in the entry pool's backing array; a nullable pointer argument is
  an `Option`.  Pool memory is readable even when a slot is free (stale data), so
  the entry arena is a total array and reads of never-written slots yield the
  `default` record, mirroring reads of uninitialised memory.
* C functions that take a possibly-null pointer and guard it are translated as
  functions over `Option` whose `none` branch is the guard's early return.  The
  two inline helpers in spatial_grid.h read `grid->gridWidth` without a null
  check; their `none` case is `Except.error ()`, marking the undefined null
  dereference.
* `malloc`/`calloc`/`aligned_alloc` are modelled as always succeeding: their
  failure depends on the environment, not on the arguments, so the
  `POOL_ERROR_OUT_OF_MEMORY` paths are never taken in the model.
-/

/-- MEMORY_ALIGNMENT from memory_pool.h. -/
def MEMORY_ALIGNMENT : Nat := 16

/-- ALIGN_SIZE from memory_pool.h: round up to a multiple of 16.  The C macro is
a bitmask round-up, which for the power-of-two alignment equals this arithmetic
round-up. -/
def ALIGN_SIZE (size : Nat) : Nat :=
  (size + MEMORY_ALIGNMENT - 1) / MEMORY_ALIGNMENT * MEMORY_ALIGNMENT

/-- 2^32, the modulus of `uint32_t` arithmetic. -/
def UINT32_MOD : Nat := 2 ^ 32

/-- UINT32_MAX, returned by object_pool_get_object_index on null arguments. -/
def UINT32_MAX : Nat := 2 ^ 32 - 1

/-- PoolResult from memory_pool.h. -/
inductive PoolResult where
  | POOL_OK
  | POOL_ERROR_NULL_POINTER
  | POOL_ERROR_OUT_OF_MEMORY
  | POOL_ERROR_INVALID_SIZE
  | POOL_ERROR_POOL_FULL
  | POOL_ERROR_INVALID_INDEX
  | POOL_ERROR_DOUBLE_FREE
deriving Repr, DecidableEq, Inhabited

/-- ObjectPool from memory_pool.h.  The `memory` block is represented by the
address space `[0, capacity * elementSize)` of offsets; `debugName` carries no
behaviour and is omitted.  `objectStates` bytes are 0/1 in the source, here
`Bool`. -/
structure ObjectPool where
  freeList : Array Nat
  objectStates : Array Bool
  elementSize : Nat
  capacity : Nat
  freeCount : Nat
  freeHead : Nat
  totalAllocations : Nat
  totalDeallocations : Nat
  peakUsage : Nat
deriving Repr, DecidableEq, Inhabited

/-- Embeds object_pool_init (memory_pool.c:6-53).  `poolGiven` models whether the
`pool` out-pointer is non-null.  Returns the written pool (if any) and the
`PoolResult`. -/
def object_pool_init (poolGiven : Bool) (elementSize capacity : Nat) :
    Option ObjectPool × PoolResult :=
  if poolGiven = false ∨ elementSize = 0 ∨ capacity = 0 then
    (none, .POOL_ERROR_NULL_POINTER)
  else
    let alignedSize := ALIGN_SIZE elementSize
    (some
      { freeList := Array.ofFn (n := capacity) fun i => capacity - 1 - i.val
        objectStates := Array.mkArray capacity false
        elementSize := alignedSize
        capacity := capacity
        freeCount := capacity
        freeHead := 0
        totalAllocations := 0
        totalDeallocations := 0
        peakUsage := 0 },
     .POOL_OK)

/-- Embeds object_pool_alloc (memory_pool.c:64-88).  The returned `Option Nat`
is the object pointer as a byte offset from the pool base, `none` for C's NULL. -/
def object_pool_alloc : Option ObjectPool → Option ObjectPool × Option Nat
  | none => (none, none)
  | some pool =>
    if pool.freeCount = 0 then (some pool, none)
    else
      let index := pool.freeList.getD pool.freeHead 0
      let pool1 := { pool with freeHead := pool.freeHead + 1, freeCount := pool.freeCount - 1 }
      let object := index * pool1.elementSize
      let pool2 := { pool1 with objectStates := pool1.objectStates.setD index true }
      let pool3 := { pool2 with
        totalAllocations := (pool2.totalAllocations + 1) % UINT32_MOD }
      let currentUsage := pool3.capacity - pool3.freeCount
      let pool4 :=
        if pool3.peakUsage < currentUsage then { pool3 with peakUsage := currentUsage }
        else pool3
      (some pool4, some object)

/-- Embeds object_pool_owns_object (memory_pool.c:139-148).  `object` is a byte
offset from the pool base; C pointers below the pool base are not representable
as offsets, but they fail the same range test this function performs, so every
rejected pointer is modelled by some rejected offset. -/
def object_pool_owns_object : Option ObjectPool → Option Nat → Bool
  | none, _ => false
  | _, none => false
  | some pool, some objectAddr =>
    decide (objectAddr < pool.capacity * pool.elementSize) &&
      decide (objectAddr % pool.elementSize = 0)

/-- Embeds object_pool_get_object_index (memory_pool.c:150-157). -/
def object_pool_get_object_index : Option ObjectPool → Option Nat → Nat
  | none, _ => UINT32_MAX
  | _, none => UINT32_MAX
  | some pool, some objectAddr => objectAddr / pool.elementSize

/-- Embeds object_pool_free (memory_pool.c:90-122). -/
def object_pool_free : Option ObjectPool → Option Nat → Option ObjectPool × PoolResult
  | none, _ => (none, .POOL_ERROR_NULL_POINTER)
  | some pool, none => (some pool, .POOL_ERROR_NULL_POINTER)
  | some pool, some object =>
    if object_pool_owns_object (some pool) (some object) = false then
      (some pool, .POOL_ERROR_INVALID_INDEX)
    else
      let index := object_pool_get_object_index (some pool) (some object)
      if pool.objectStates.getD index false = false then
        (some pool, .POOL_ERROR_DOUBLE_FREE)
      else
        let pool1 := { pool with objectStates := pool.objectStates.setD index false }
        if pool1.freeHead = 0 then (some pool1, .POOL_ERROR_POOL_FULL)
        else
          let pool2 := { pool1 with freeHead := pool1.freeHead - 1 }
          let pool3 := { pool2 with freeList := pool2.freeList.setD pool2.freeHead index }
          let pool4 := { pool3 with freeCount := pool3.freeCount + 1 }
          let pool5 := { pool4 with
            totalDeallocations := (pool4.totalDeallocations + 1) % UINT32_MOD }
          (some pool5, .POOL_OK)

/-- Embeds object_pool_get_used_count (memory_pool.c:124-127). -/
def object_pool_get_used_count : Option ObjectPool → Nat
  | none => 0
  | some pool => pool.capacity - pool.freeCount

/-- Embeds object_pool_get_free_count (memory_pool.c:129-132). -/
def object_pool_get_free_count : Option ObjectPool → Nat
  | none => 0
  | some pool => pool.freeCount

/-- Embeds object_pool_get_usage_percent (memory_pool.c:134-137), with the float
computation carried out over `Rat`. -/
def object_pool_get_usage_percent : Option ObjectPool → Rat
  | none => 0
  | some pool =>
    if pool.capacity = 0 then 0
    else ((pool.capacity : Rat) - (pool.freeCount : Rat)) / (pool.capacity : Rat) * 100

/-- Embeds object_pool_destroy (memory_pool.c:55-62): frees the backing arrays
and memsets the record to zero. -/
def object_pool_destroy : Option ObjectPool → Option ObjectPool
  | none => none
  | some _ =>
    some { freeList := #[], objectStates := #[], elementSize := 0, capacity := 0,
           freeCount := 0, freeHead := 0, totalAllocations := 0,
           totalDeallocations := 0, peakUsage := 0 }

/-- One pool call: an `object_pool_alloc`, or an `object_pool_free` of the object
at the given byte offset. -/
inductive PoolOp where
  | allocOp : PoolOp
  | freeOp : Nat → PoolOp
deriving Repr, DecidableEq

/-- Applies one pool call to a (non-null) pool. -/
def poolStep (pool : ObjectPool) : PoolOp → ObjectPool
  | .allocOp => ((object_pool_alloc (some pool)).1).getD pool
  | .freeOp o => ((object_pool_free (some pool) (some o)).1).getD pool

/-- Applies a sequence of pool calls in order. -/
def runPool (pool : ObjectPool) (ops : List PoolOp) : ObjectPool :=
  ops.foldl poolStep pool

/-- The free-list stack: the indices `freeList[freeHead .. capacity)`, the slots
currently available for allocation (top of stack first). -/
def poolStack (pool : ObjectPool) : List Nat :=
  pool.freeList.toList.drop pool.freeHead

/-- Structural well-formedness of a pool, established by `object_pool_init` and
preserved by `object_pool_alloc` / `object_pool_free`. -/
structure PoolWF (pool : ObjectPool) : Prop where
  freeList_size : pool.freeList.size = pool.capacity
  states_size : pool.objectStates.size = pool.capacity
  head_count : pool.freeHead + pool.freeCount = pool.capacity
  stack_nodup : (poolStack pool).Nodup
  stack_valid : ∀ i ∈ poolStack pool, i < pool.capacity
  stack_free : ∀ k, k < pool.capacity →
    (pool.objectStates.getD k false = false ↔ k ∈ poolStack pool)
  elem_pos : 0 < pool.elementSize

example : (object_pool_init true 4 3).2 = .POOL_OK := by decide

example :
    (object_pool_alloc ((object_pool_init true 4 3).1)).2 = some (2 * 16) := by decide

example :
    object_pool_get_free_count (object_pool_alloc ((object_pool_init true 4 3).1)).1 = 2 := by
  decide

/-! ### Array bridge lemmas -/

theorem agetD_def {α : Type _} (a : Array α) (i : Nat) (d : α) :
    a.getD i d = if h : i < a.size then a[i] else d := rfl

theorem agetD_setD_self {α : Type _} (a : Array α) (i : Nat) (v d : α) (h : i < a.size) :
    (a.setD i v).getD i d = v := by
  simp [agetD_def, h]

theorem agetD_setD_ne {α : Type _} (a : Array α) (i j : Nat) (v d : α) (h : i ≠ j) :
    (a.setD i v).getD j d = a.getD j d := by
  by_cases hj : j < a.size
  · simp [Array.getD, hj, Array.setD]
    split <;> simp [hj, Array.getElem_set, h]
  · rw [agetD_def, agetD_def, dif_neg (by simpa using hj), dif_neg hj]

theorem toList_setD {α : Type _} (a : Array α) (i : Nat) (v : α) :
    (a.setD i v).toList = a.toList.set i v := by
  by_cases h : i < a.size
  · simp [Array.setD, h, Array.toList_set]
  · rw [List.set_eq_of_length_le (by simpa using Nat.le_of_not_lt h)]
    simp [Array.setD, h]

theorem mem_of_nodup_full (l : List Nat) (n : Nat) (hn : l.Nodup) (hlen : l.length = n)
    (hv : ∀ x ∈ l, x < n) (k : Nat) (hk : k < n) : k ∈ l := by
  have hfin : l.toFinset = Finset.range n := by
    apply Finset.eq_of_subset_of_card_le
    · intro x hx; simp only [List.mem_toFinset] at hx
      simp only [Finset.mem_range]; exact hv x hx
    · simp [List.toFinset_card_of_nodup hn, hlen]
  have : k ∈ l.toFinset := by rw [hfin]; simp [hk]
  simpa using this

/-! ### Pool invariant lemmas -/

theorem ALIGN_SIZE_pos (es : Nat) (h : es ≠ 0) : 0 < ALIGN_SIZE es := by
  have h16 : 16 ≤ es + MEMORY_ALIGNMENT - 1 := by simp [MEMORY_ALIGNMENT]; omega
  have : 1 ≤ (es + MEMORY_ALIGNMENT - 1) / MEMORY_ALIGNMENT := by
    rw [Nat.le_div_iff_mul_le (by simp [MEMORY_ALIGNMENT])]
    simpa [MEMORY_ALIGNMENT] using h16
  calc 0 < 1 * MEMORY_ALIGNMENT := by simp [MEMORY_ALIGNMENT]
    _ ≤ (es + MEMORY_ALIGNMENT - 1) / MEMORY_ALIGNMENT * MEMORY_ALIGNMENT :=
        Nat.mul_le_mul_right _ this

theorem object_pool_init_characterized (es cap : Nat) (p : ObjectPool)
    (h : (object_pool_init true es cap).1 = some p) :
    es ≠ 0 ∧ cap ≠ 0 ∧
      p = { freeList := Array.ofFn (n := cap) fun i => cap - 1 - i.val
            objectStates := Array.mkArray cap false
            elementSize := ALIGN_SIZE es, capacity := cap, freeCount := cap
            freeHead := 0, totalAllocations := 0, totalDeallocations := 0
            peakUsage := 0 } := by
  by_cases hes : es = 0
  · simp [object_pool_init, hes] at h
  by_cases hcap : cap = 0
  · simp [object_pool_init, hcap] at h
  refine ⟨hes, hcap, ?_⟩
  simp only [object_pool_init, hes, hcap, false_or, or_self, if_false] at h
  simp at h
  exact h.symm

theorem poolWF_init (es cap : Nat) (p : ObjectPool)
    (h : (object_pool_init true es cap).1 = some p) : PoolWF p := by
  obtain ⟨hes, hcap, hp⟩ := object_pool_init_characterized es cap p h
  subst hp
  have hstack : poolStack
      { freeList := Array.ofFn (n := cap) fun i => cap - 1 - i.val
        objectStates := Array.mkArray cap false
        elementSize := ALIGN_SIZE es, capacity := cap, freeCount := cap
        freeHead := 0, totalAllocations := 0, totalDeallocations := 0
        peakUsage := 0 } = List.ofFn (n := cap) fun i => cap - 1 - i.val := by
    simp [poolStack, Array.toList_ofFn]
  constructor
  · simp
  · simp
  · simp
  · rw [hstack]
    exact List.nodup_ofFn.2 (by intro a b hab; simp at hab; omega)
  · intro i hi
    rw [hstack] at hi
    obtain ⟨j, hj⟩ := (List.mem_ofFn _ _).1 hi
    simp only at hj
    show i < cap
    have := j.isLt
    omega
  · intro k hk
    replace hk : k < cap := hk
    simp only [hstack]
    constructor
    · intro _
      refine (List.mem_ofFn _ _).2 ⟨⟨cap - 1 - k, by omega⟩, ?_⟩
      simp; omega
    · intro _
      show (Array.mkArray cap false).getD k false = false
      rw [agetD_def]
      split
      · simp [Array.getElem_mkArray]
      · rfl
  · exact ALIGN_SIZE_pos es hes

theorem alloc_fields (p : ObjectPool) (hc : ¬ p.freeCount = 0) :
    ∃ q, object_pool_alloc (some p) =
        (some q, some (p.freeList.getD p.freeHead 0 * p.elementSize))
      ∧ q.freeList = p.freeList ∧ q.freeHead = p.freeHead + 1
      ∧ q.freeCount = p.freeCount - 1
      ∧ q.capacity = p.capacity ∧ q.elementSize = p.elementSize
      ∧ q.objectStates = p.objectStates.setD (p.freeList.getD p.freeHead 0) true := by
  simp only [object_pool_alloc, if_neg hc]
  split <;> exact ⟨_, rfl, rfl, rfl, rfl, rfl, rfl, rfl⟩

theorem poolStack_cons (p : ObjectPool) (hwf : PoolWF p) (hc : ¬ p.freeCount = 0) :
    poolStack p = p.freeList.getD p.freeHead 0 :: p.freeList.toList.drop (p.freeHead + 1) := by
  have hlt : p.freeHead < p.freeList.size := by
    have h1 := hwf.head_count; have h2 := hwf.freeList_size; omega
  rw [poolStack, List.drop_eq_getElem_cons (by simpa using hlt)]
  congr 1
  rw [agetD_def]
  simp only [hlt, dif_pos]
  exact (Array.getElem_eq_getElem_toList hlt).symm

theorem poolWF_alloc_aux (p q : ObjectPool) (hwf : PoolWF p) (hc : ¬ p.freeCount = 0)
    (hfl : q.freeList = p.freeList) (hfh : q.freeHead = p.freeHead + 1)
    (hfc : q.freeCount = p.freeCount - 1) (hcap : q.capacity = p.capacity)
    (hes : q.elementSize = p.elementSize)
    (hst : q.objectStates = p.objectStates.setD (p.freeList.getD p.freeHead 0) true) :
    PoolWF q := by
  have hi := poolStack_cons p hwf hc
  have hstackq : poolStack q = p.freeList.toList.drop (p.freeHead + 1) := by
    rw [poolStack, hfl, hfh]
  have hmem : p.freeList.getD p.freeHead 0 ∈ poolStack p := by
    rw [hi]; exact List.mem_cons_self _ _
  have hivalid : p.freeList.getD p.freeHead 0 < p.capacity := hwf.stack_valid _ hmem
  have hnodup := hwf.stack_nodup
  rw [hi] at hnodup
  constructor
  · rw [hfl, hcap]; exact hwf.freeList_size
  · rw [hst, hcap]; simpa using hwf.states_size
  · rw [hfh, hfc, hcap]; have := hwf.head_count; omega
  · rw [hstackq]; exact (List.nodup_cons.1 hnodup).2
  · intro x hx
    rw [hcap]
    exact hwf.stack_valid x (by rw [hi]; exact List.mem_cons_of_mem _ (hstackq ▸ hx))
  · intro k hk
    rw [hcap] at hk
    rw [hstackq, hst]
    by_cases hki : k = p.freeList.getD p.freeHead 0
    · subst hki
      rw [agetD_setD_self _ _ _ _ (by rw [hwf.states_size]; exact hivalid)]
      simp only [Bool.true_eq_false, false_iff]
      exact (List.nodup_cons.1 hnodup).1
    · rw [agetD_setD_ne _ _ _ _ _ (fun h => hki h.symm)]
      have := hwf.stack_free k hk
      rw [hi] at this
      rw [this, List.mem_cons]
      exact or_iff_right hki
  · rw [hes]; exact hwf.elem_pos

theorem pool_freeHead_ne_zero (p : ObjectPool) (hwf : PoolWF p) (idx : Nat)
    (hidx : idx < p.capacity) (hstate : p.objectStates.getD idx false = true) :
    ¬ p.freeHead = 0 := by
  intro h0
  have hstack : poolStack p = p.freeList.toList := by simp [poolStack, h0]
  have hmem : idx ∈ poolStack p := by
    apply mem_of_nodup_full _ p.capacity hwf.stack_nodup _ hwf.stack_valid _ hidx
    rw [hstack]
    simpa using hwf.freeList_size
  have := (hwf.stack_free idx hidx).2 hmem
  rw [hstate] at this
  exact Bool.true_eq_false.mp this

theorem pool_owns_slot (p : ObjectPool) (hpos : 0 < p.elementSize) (idx : Nat)
    (hidx : idx < p.capacity) :
    object_pool_owns_object (some p) (some (idx * p.elementSize)) = true := by
  simp only [object_pool_owns_object, Bool.and_eq_true, decide_eq_true_eq]
  exact ⟨Nat.mul_lt_mul_of_lt_of_le hidx (Nat.le_refl _) hpos, by simp [Nat.mul_mod_left]⟩

theorem free_success_fields (p : ObjectPool) (hwf : PoolWF p) (idx : Nat)
    (hidx : idx < p.capacity) (hstate : p.objectStates.getD idx false = true) :
    ∃ q, object_pool_free (some p) (some (idx * p.elementSize)) = (some q, .POOL_OK)
      ∧ q.freeList = p.freeList.setD (p.freeHead - 1) idx
      ∧ q.freeHead = p.freeHead - 1 ∧ q.freeCount = p.freeCount + 1
      ∧ q.capacity = p.capacity ∧ q.elementSize = p.elementSize
      ∧ q.objectStates = p.objectStates.setD idx false := by
  have howns := pool_owns_slot p hwf.elem_pos idx hidx
  have hdiv : idx * p.elementSize / p.elementSize = idx :=
    Nat.mul_div_cancel idx hwf.elem_pos
  have hh0 := pool_freeHead_ne_zero p hwf idx hidx hstate
  refine ⟨{ p with
              objectStates := p.objectStates.setD idx false
              freeHead := p.freeHead - 1
              freeList := p.freeList.setD (p.freeHead - 1) idx
              freeCount := p.freeCount + 1
              totalDeallocations := (p.totalDeallocations + 1) % UINT32_MOD },
    ?_, rfl, rfl, rfl, rfl, rfl, rfl⟩
  simp only [object_pool_free, howns, Bool.true_eq_false, if_false,
    object_pool_get_object_index, hdiv, hstate, if_neg hh0]

theorem poolWF_free_aux (p q : ObjectPool) (hwf : PoolWF p) (idx : Nat)
    (hidx : idx < p.capacity) (hstate : p.objectStates.getD idx false = true)
    (hfl : q.freeList = p.freeList.setD (p.freeHead - 1) idx)
    (hfh : q.freeHead = p.freeHead - 1) (hfc : q.freeCount = p.freeCount + 1)
    (hcap : q.capacity = p.capacity) (hes : q.elementSize = p.elementSize)
    (hst : q.objectStates = p.objectStates.setD idx false) :
    PoolWF q := by
  have hh0 := pool_freeHead_ne_zero p hwf idx hidx hstate
  have hhle : p.freeHead ≤ p.capacity := by have := hwf.head_count; omega
  have hlen : p.freeList.toList.length = p.capacity := by
    rw [Array.length_toList]; exact hwf.freeList_size
  have hhlt : p.freeHead - 1 < p.freeList.toList.length := by omega
  have hstackq : poolStack q = idx :: poolStack p := by
    rw [poolStack, hfl, hfh, toList_setD]
    rw [List.drop_eq_getElem_cons (by simpa using hhlt)]
    rw [List.drop_set_of_lt _ _ (Nat.lt_succ_self _)]
    rw [poolStack]
    congr 1
    · simp [List.getElem_set]
    · have h11 : (p.freeHead - 1).succ = p.freeHead := by omega
      rw [h11]
  have hnotmem : idx ∉ poolStack p := by
    intro hmem
    have := (hwf.stack_free idx hidx).2 hmem
    rw [hstate] at this
    exact Bool.true_eq_false.mp this
  constructor
  · rw [hfl, hcap]; simpa using hwf.freeList_size
  · rw [hst, hcap]; simpa using hwf.states_size
  · rw [hfh, hfc, hcap]; have := hwf.head_count; omega
  · rw [hstackq]; exact List.nodup_cons.2 ⟨hnotmem, hwf.stack_nodup⟩
  · intro x hx
    rw [hstackq] at hx
    rw [hcap]
    rcases List.mem_cons.1 hx with h | h
    · rw [h]; exact hidx
    · exact hwf.stack_valid x h
  · intro k hk
    rw [hcap] at hk
    rw [hstackq, hst]
    by_cases hki : k = idx
    · subst hki
      rw [agetD_setD_self _ _ _ _ (by rw [hwf.states_size]; exact hidx)]
      simp
    · rw [agetD_setD_ne _ _ _ _ _ (fun h => hki h.symm)]
      rw [hwf.stack_free k hk]
      simp [List.mem_cons, hki]
  · rw [hes]; exact hwf.elem_pos

theorem free_cases (p : ObjectPool) (hwf : PoolWF p) (o : Nat) :
    (object_pool_free (some p) (some o)).1 = some p
    ∨ ∃ q, (object_pool_free (some p) (some o)).1 = some q ∧ PoolWF q
        ∧ q.capacity = p.capacity := by
  by_cases howns : object_pool_owns_object (some p) (some o) = false
  · left; simp [object_pool_free, howns]
  · have hb : o < p.capacity * p.elementSize ∧ o % p.elementSize = 0 := by
      simpa [object_pool_owns_object] using howns
    have ho : o = o / p.elementSize * p.elementSize :=
      (Nat.div_mul_cancel (Nat.dvd_of_mod_eq_zero hb.2)).symm
    have hidx : o / p.elementSize < p.capacity :=
      Nat.div_lt_of_lt_mul (by rw [Nat.mul_comm] at hb; exact hb.1)
    by_cases hstate : p.objectStates.getD (o / p.elementSize) false = false
    · left
      simp [object_pool_free, howns, object_pool_get_object_index, hstate]
    · right
      have hstate' : p.objectStates.getD (o / p.elementSize) false = true := by
        cases h : p.objectStates.getD (o / p.elementSize) false
        · exact absurd h hstate
        · rfl
      obtain ⟨q, heq, h1, h2, h3, h4, h5, h6⟩ :=
        free_success_fields p hwf (o / p.elementSize) hidx hstate'
      rw [← ho] at heq
      exact ⟨q, by rw [heq], poolWF_free_aux p q hwf _ hidx hstate' h1 h2 h3 h4 h5 h6, h4⟩

theorem poolWF_step (p : ObjectPool) (hwf : PoolWF p) (op : PoolOp) :
    PoolWF (poolStep p op) ∧ (poolStep p op).capacity = p.capacity := by
  cases op with
  | allocOp =>
    by_cases hc : p.freeCount = 0
    · simp [poolStep, object_pool_alloc, hc, hwf]
    · obtain ⟨q, heq, h1, h2, h3, h4, h5, h6⟩ := alloc_fields p hc
      have : poolStep p .allocOp = q := by simp [poolStep, heq]
      rw [this]
      exact ⟨poolWF_alloc_aux p q hwf hc h1 h2 h3 h4 h5 h6, h4⟩
  | freeOp o =>
    rcases free_cases p hwf o with h | ⟨q, heq, hq, hcap⟩
    · simp [poolStep, h, hwf]
    · have : poolStep p (.freeOp o) = q := by simp [poolStep, heq]
      rw [this]
      exact ⟨hq, hcap⟩

theorem poolWF_runPool (p : ObjectPool) (hwf : PoolWF p) (ops : List PoolOp) :
    PoolWF (runPool p ops) ∧ (runPool p ops).capacity = p.capacity := by
  induction ops generalizing p with
  | nil => exact ⟨hwf, rfl⟩
  | cons op rest ih =>
    obtain ⟨h1, h2⟩ := poolWF_step p hwf op
    obtain ⟨h3, h4⟩ := ih (poolStep p op) h1
    exact ⟨h3, by rw [runPool] at h4 ⊢; simp only [List.foldl_cons]; rw [h4, h2]⟩

theorem poolStack_length (p : ObjectPool) (hwf : PoolWF p) :
    (poolStack p).length = p.freeCount := by
  rw [poolStack]
  simp only [List.length_drop, Array.length_toList, hwf.freeList_size]
  have := hwf.head_count
  omega

theorem getD_true_lt (a : Array Bool) (i : Nat) (h : a.getD i false = true) : i < a.size := by
  by_contra hn
  rw [agetD_def, dif_neg hn] at h
  cases h

/-- A concrete pool: the pool written by a successful init with element size 4
and capacity 3. -/
def poolExample : ObjectPool := ((object_pool_init true 4 3).1).getD default

/-- C1: for every pool successfully initialized with capacity `c`, and for every
finite sequence of `object_pool_alloc` / `object_pool_free` calls applied to it,
`object_pool_get_used_count + object_pool_get_free_count = c` holds after every
call (every prefix of a call sequence is itself a call sequence, so the
statement over all sequences covers every intermediate state), and the free-list
stack contains exactly `freeCount` distinct valid slot indices. -/
theorem pool_capacity_invariant (elementSize capacity : Nat) (pool0 : ObjectPool)
    (ops : List PoolOp)
    (hinit : (object_pool_init true elementSize capacity).1 = some pool0) :
    object_pool_get_used_count (some (runPool pool0 ops))
        + object_pool_get_free_count (some (runPool pool0 ops)) = capacity
    ∧ (poolStack (runPool pool0 ops)).length
        = object_pool_get_free_count (some (runPool pool0 ops))
    ∧ (poolStack (runPool pool0 ops)).Nodup
    ∧ ∀ i ∈ poolStack (runPool pool0 ops), i < capacity := by
  have hwf0 := poolWF_init _ _ _ hinit
  obtain ⟨hwf, hcap⟩ := poolWF_runPool pool0 hwf0 ops
  have hcap0 : pool0.capacity = capacity := by
    obtain ⟨_, _, hp⟩ := object_pool_init_characterized _ _ _ hinit
    rw [hp]
  rw [hcap0] at hcap
  refine ⟨?_, ?_, hwf.stack_nodup, ?_⟩
  · simp only [object_pool_get_used_count, object_pool_get_free_count]
    have h1 := hwf.head_count
    omega
  · rw [poolStack_length _ hwf]; rfl
  · intro i hi
    rw [← hcap]
    exact hwf.stack_valid i hi

/-- Witness for C1 at element size 4, capacity 3, and the call sequence
alloc, free of the just-allocated slot (index 2, offset 32), alloc. -/
theorem pool_capacity_invariant_witness :
    object_pool_get_used_count (some (runPool poolExample [.allocOp, .freeOp 32, .allocOp]))
        + object_pool_get_free_count
            (some (runPool poolExample [.allocOp, .freeOp 32, .allocOp])) = 3
    ∧ (poolStack (runPool poolExample [.allocOp, .freeOp 32, .allocOp])).length
        = object_pool_get_free_count
            (some (runPool poolExample [.allocOp, .freeOp 32, .allocOp]))
    ∧ (poolStack (runPool poolExample [.allocOp, .freeOp 32, .allocOp])).Nodup
    ∧ ∀ i ∈ poolStack (runPool poolExample [.allocOp, .freeOp 32, .allocOp]), i < 3 :=
  pool_capacity_invariant 4 3 poolExample [.allocOp, .freeOp 32, .allocOp] (by decide)

theorem runPool_replicate_alloc (es cap : Nat) (p0 : ObjectPool)
    (hinit : (object_pool_init true es cap).1 = some p0) (k : Nat) (hk : k ≤ cap) :
    (runPool p0 (List.replicate k .allocOp)).freeHead = k
    ∧ (runPool p0 (List.replicate k .allocOp)).freeCount = cap - k
    ∧ (runPool p0 (List.replicate k .allocOp)).freeList = p0.freeList
    ∧ (runPool p0 (List.replicate k .allocOp)).elementSize = ALIGN_SIZE es := by
  obtain ⟨hes, hcap0, hp⟩ := object_pool_init_characterized es cap p0 hinit
  induction k with
  | zero =>
    refine ⟨?_, ?_, rfl, ?_⟩ <;> rw [hp] <;> simp [runPool]
  | succ n ih =>
    have hn : n ≤ cap := Nat.le_of_succ_le hk
    obtain ⟨i1, i2, i3, i4⟩ := ih hn
    have hrep : List.replicate (n + 1) PoolOp.allocOp
        = List.replicate n PoolOp.allocOp ++ [PoolOp.allocOp] :=
      List.replicate_succ' _ _
    have hfc : ¬ (runPool p0 (List.replicate n .allocOp)).freeCount = 0 := by
      rw [i2]; omega
    obtain ⟨q, heq, h1, h2, h3, h4, h5, h6⟩ :=
      alloc_fields (runPool p0 (List.replicate n .allocOp)) hfc
    have hstep : runPool p0 (List.replicate (n + 1) .allocOp) = q := by
      rw [hrep, runPool, List.foldl_append]
      simp only [List.foldl_cons, List.foldl_nil]
      rw [show List.foldl poolStep p0 (List.replicate n PoolOp.allocOp)
            = runPool p0 (List.replicate n .allocOp) from rfl]
      simp [poolStep, heq]
    rw [hstep, h2, h3, h1, h5, i1, i2, i3, i4]
    refine ⟨rfl, by omega, rfl, rfl⟩

/-- C4 counterexample: on a pool freshly initialized with element size 4 and
capacity 2, the first `object_pool_alloc` returns the slot at byte offset
16 (slot index 1, the highest address), not the slot at the lowest address
(index 0, offset 0). -/
theorem pool_first_alloc_highest_cex :
    (object_pool_alloc ((object_pool_init true 4 2).1)).2 = some 16
    ∧ ((16 : Nat) = 0 → False) := by decide

/-- C4 (amended): the free list is initialized in reverse order but the stack
pops by advancing `freeHead` from position 0, so on a fresh pool of capacity
`cap` the `(k+1)`-th `object_pool_alloc` (no intervening frees) returns the slot
of index `cap - 1 - k`: the first allocation returns the highest-address slot
and successive allocations return slots in strictly decreasing address order. -/
theorem pool_alloc_descending (es cap : Nat) (p0 : ObjectPool)
    (hinit : (object_pool_init true es cap).1 = some p0) (k : Nat) (hk : k < cap) :
    (object_pool_alloc (some (runPool p0 (List.replicate k .allocOp)))).2
      = some ((cap - 1 - k) * ALIGN_SIZE es)
    ∧ ∀ j, j < k → (cap - 1 - k) * ALIGN_SIZE es < (cap - 1 - j) * ALIGN_SIZE es := by
  obtain ⟨hes, hcap0, hp⟩ := object_pool_init_characterized es cap p0 hinit
  obtain ⟨i1, i2, i3, i4⟩ := runPool_replicate_alloc es cap p0 hinit k (Nat.le_of_lt hk)
  have hfc : ¬ (runPool p0 (List.replicate k .allocOp)).freeCount = 0 := by
    rw [i2]; omega
  obtain ⟨q, heq, h1, h2, h3, h4, h5, h6⟩ :=
    alloc_fields (runPool p0 (List.replicate k .allocOp)) hfc
  constructor
  · rw [heq]
    have hgd : (runPool p0 (List.replicate k .allocOp)).freeList.getD
        (runPool p0 (List.replicate k .allocOp)).freeHead 0 = cap - 1 - k := by
      rw [i3, i1, hp]
      show (Array.ofFn (n := cap) fun i => cap - 1 - i.val).getD k 0 = cap - 1 - k
      rw [agetD_def]
      have hk' : k < (Array.ofFn (n := cap) fun i => cap - 1 - i.val).size := by
        simpa using hk
      rw [dif_pos hk']
      simp [Array.getElem_ofFn]
    rw [hgd, i4]
  · intro j hj
    have hpos := ALIGN_SIZE_pos es hes
    have hlt : cap - 1 - k < cap - 1 - j := by omega
    exact Nat.mul_lt_mul_of_lt_of_le hlt (Nat.le_refl _) hpos

/-- Witness for the amended C4: second allocation on the capacity-3 pool. -/
theorem pool_alloc_descending_witness :
    (object_pool_alloc (some (runPool poolExample (List.replicate 1 .allocOp)))).2
      = some ((3 - 1 - 1) * ALIGN_SIZE 4)
    ∧ ∀ j, j < 1 → (3 - 1 - 1) * ALIGN_SIZE 4 < (3 - 1 - j) * ALIGN_SIZE 4 :=
  pool_alloc_descending 4 3 poolExample (by decide) 1 (by decide)

theorem free_ok_fields (q r : ObjectPool) (x : Nat)
    (h : object_pool_free (some q) (some x) = (some r, .POOL_OK)) :
    object_pool_owns_object (some q) (some x) = true
    ∧ q.objectStates.getD (x / q.elementSize) false = true
    ∧ r = { q with
            objectStates := q.objectStates.setD (x / q.elementSize) false
            freeHead := q.freeHead - 1
            freeList := q.freeList.setD (q.freeHead - 1) (x / q.elementSize)
            freeCount := q.freeCount + 1
            totalDeallocations := (q.totalDeallocations + 1) % UINT32_MOD } := by
  by_cases howns : object_pool_owns_object (some q) (some x) = false
  · simp [object_pool_free, howns] at h
  · have howns2 : object_pool_owns_object (some q) (some x) = true := by
      revert howns; cases object_pool_owns_object (some q) (some x) <;> simp
    by_cases hst : q.objectStates.getD (x / q.elementSize) false = false
    · simp [object_pool_free, howns2, object_pool_get_object_index, hst] at h
    · have hst2 : q.objectStates.getD (x / q.elementSize) false = true := by
        revert hst; cases q.objectStates.getD (x / q.elementSize) false <;> simp
      by_cases hh : q.freeHead = 0
      · simp [object_pool_free, howns2, object_pool_get_object_index, hst2, hh] at h
      · refine ⟨howns2, hst2, ?_⟩
        simp only [object_pool_free, howns2, Bool.true_eq_false, if_false,
          object_pool_get_object_index, hst2, if_neg hh, Prod.mk.injEq,
          Option.some.injEq] at h
        exact h.1.symm

/-- C8: for every pool and every slot `i` whose state byte reads free,
`object_pool_free` of that slot returns the double-free error and leaves the
pool record (freeCount, freeHead, free list, all state bytes) exactly as it
was; and whenever a free succeeds, an immediate second free of the same object
returns double-free leaving the pool unchanged. -/
theorem pool_double_free_rejected (p : ObjectPool) (i : Nat)
    (hi : i < p.capacity) (hs : 0 < p.elementSize)
    (hfree : p.objectStates.getD i false = false) :
    object_pool_free (some p) (some (i * p.elementSize))
        = (some p, .POOL_ERROR_DOUBLE_FREE)
    ∧ ∀ (q r : ObjectPool) (x : Nat),
        object_pool_free (some q) (some x) = (some r, .POOL_OK) →
        object_pool_free (some r) (some x) = (some r, .POOL_ERROR_DOUBLE_FREE) := by
  constructor
  · have howns := pool_owns_slot p hs i hi
    have hdiv : i * p.elementSize / p.elementSize = i := Nat.mul_div_cancel i hs
    simp only [object_pool_free, howns, Bool.true_eq_false, if_false,
      object_pool_get_object_index, hdiv, hfree, if_pos]
  · intro q r x hfq
    obtain ⟨howns, hst, hr⟩ := free_ok_fields q r x hfq
    have hidxlt := getD_true_lt _ _ hst
    subst hr
    have howns2 : object_pool_owns_object
        (some { q with
                objectStates := q.objectStates.setD (x / q.elementSize) false
                freeHead := q.freeHead - 1
                freeList := q.freeList.setD (q.freeHead - 1) (x / q.elementSize)
                freeCount := q.freeCount + 1
                totalDeallocations := (q.totalDeallocations + 1) % UINT32_MOD })
        (some x) = true := by
      simpa [object_pool_owns_object] using howns
    have hgd : (q.objectStates.setD (x / q.elementSize) false).getD
        (x / q.elementSize) false = false :=
      agetD_setD_self _ _ _ _ hidxlt
    simp only [object_pool_free, howns2, Bool.true_eq_false, if_false,
      object_pool_get_object_index, hgd, if_pos]

/-- Witness for C8: free slot 0 of the fresh capacity-3 pool before any alloc;
its state byte reads free, so the call reports double-free and changes nothing.
The second conjunct is closed by the theorem as well. -/
theorem pool_double_free_rejected_witness :
    object_pool_free (some poolExample) (some (0 * poolExample.elementSize))
        = (some poolExample, .POOL_ERROR_DOUBLE_FREE)
    ∧ ∀ (q r : ObjectPool) (x : Nat),
        object_pool_free (some q) (some x) = (some r, .POOL_OK) →
        object_pool_free (some r) (some x) = (some r, .POOL_ERROR_DOUBLE_FREE) :=
  pool_double_free_rejected poolExample 0 (by decide) (by decide) (by decide)

/-! ### Spatial grid model (src/src/systems/spatial_grid.c / spatial_grid.h) -/

/-- TransformComponent, restricted to the position fields the grid reads
(transform_component.c stores `x`, `y` as floats). -/
structure TransformComponent where
  x : Rat
  y : Rat
deriving Repr, DecidableEq, Inhabited

/-- GAMEOBJECT_INVALID_ID from game_object.h. -/
def GAMEOBJECT_INVALID_ID : Nat := 0

/-- GameObject, restricted to the fields the grid reads: id, cached transform
pointer (null modelled as `none`), the `active` and `staticObject` byte flags. -/
structure GameObject where
  id : Nat
  transform : Option TransformComponent
  active : Bool
  staticObject : Bool
deriving Repr, DecidableEq, Inhabited

/-- Embeds game_object_get_id (game_object.c:305-307). -/
def game_object_get_id : Option GameObject → Nat
  | none => GAMEOBJECT_INVALID_ID
  | some g => g.id

/-- Embeds game_object_is_active (game_object.c:257-259). -/
def game_object_is_active : Option GameObject → Bool
  | none => false
  | some g => g.active

/-- Embeds game_object_is_static (game_object.c:267-269). -/
def game_object_is_static : Option GameObject → Bool
  | none => false
  | some g => g.staticObject

/-- Embeds transform_component_get_position (transform_component.c:131-140):
writes (0,0) when the transform is null, the stored position otherwise. -/
def transform_component_get_position : Option TransformComponent → Rat × Rat
  | none => (0, 0)
  | some t => (t.x, t.y)

/-- MAX_OBJECTS_PER_CELL from spatial_grid.h. -/
def MAX_OBJECTS_PER_CELL : Nat := 32

/-- GridObjectEntry from spatial_grid.h.  `next` is the next-entry pointer as an
index into the entry pool's backing array (`none` for NULL); `gameObject` is the
referenced entity (the grid only ever reads it). -/
structure GridObjectEntry where
  gameObject : GameObject
  next : Option Nat
  cellX : Nat
  cellY : Nat
  staticObject : Bool
deriving Repr, DecidableEq, Inhabited

/-- GridCell from spatial_grid.h.  `objects` is the head pointer of the cell's
singly-linked entry list, as an entry-arena index. -/
structure GridCell where
  objects : Option Nat
  objectCount : Nat
  maxObjects : Nat
  dirty : Bool
deriving Repr, DecidableEq, Inhabited

/-- SpatialGrid from spatial_grid.h.  `entries` is the entry pool's raw memory,
one slot per pool index: reads of slots that were never written return stale
data, like the C pool memory, so the array is total.  The float statistics field
`lastUpdateTime` is never touched by any embedded function and is omitted. -/
structure SpatialGrid where
  cells : Array GridCell
  cellSize : Nat
  gridWidth : Nat
  gridHeight : Nat
  worldWidth : Rat
  worldHeight : Rat
  offsetX : Rat
  offsetY : Rat
  entryPool : ObjectPool
  entries : Array GridObjectEntry
  objectLookup : Array (Option Nat)
  totalObjects : Nat
  maxObjects : Nat
  queriesPerFrame : Nat
  collisionChecksPerFrame : Nat
  cellsWithObjects : Nat
  enableStaticOptimization : Bool
  enableFrustumCulling : Bool
  maxObjectsPerCell : Nat
deriving Repr, DecidableEq, Inhabited

/-- Size in bytes of a GridObjectEntry record, the element size passed to
object_pool_init by spatial_grid_create (two 8-byte pointers, two uint32, one
bool, padded).  Only its positivity and its role in address arithmetic matter. -/
def GRID_ENTRY_SIZE : Nat := 24

/-- Embeds spatial_grid_create (spatial_grid.c:9-69). -/
def spatial_grid_create (cellSize gridWidth gridHeight : Nat)
    (worldOffsetX worldOffsetY : Rat) (maxObjects : Nat) : Option SpatialGrid :=
  if cellSize = 0 ∨ gridWidth = 0 ∨ gridHeight = 0 ∨ maxObjects = 0 then none
  else
    match (object_pool_init true GRID_ENTRY_SIZE maxObjects).1 with
    | none => none
    | some entryPool =>
      some
        { cells := Array.mkArray (gridWidth * gridHeight)
            { objects := none, objectCount := 0,
              maxObjects := MAX_OBJECTS_PER_CELL, dirty := false }
          cellSize := cellSize
          gridWidth := gridWidth
          gridHeight := gridHeight
          worldWidth := ((gridWidth * cellSize : Nat) : Rat)
          worldHeight := ((gridHeight * cellSize : Nat) : Rat)
          offsetX := worldOffsetX
          offsetY := worldOffsetY
          entryPool := entryPool
          entries := Array.mkArray maxObjects default
          objectLookup := Array.mkArray maxObjects none
          totalObjects := 0
          maxObjects := maxObjects
          queriesPerFrame := 0
          collisionChecksPerFrame := 0
          cellsWithObjects := 0
          enableStaticOptimization := true
          enableFrustumCulling := true
          maxObjectsPerCell := MAX_OBJECTS_PER_CELL }

/-- The inline helper spatial_grid_get_cell (spatial_grid.h:477-482) at a
non-null grid, as expanded at each of its call sites inside spatial_grid.c:
bounds check, then the cell's index `cellY * gridWidth + cellX` (the returned
`GridCell*`). -/
def spatial_grid_get_cell_idx (grid : SpatialGrid) (cellX cellY : Nat) : Option Nat :=
  if grid.gridWidth ≤ cellX ∨ grid.gridHeight ≤ cellY then none
  else some (cellY * grid.gridWidth + cellX)

/-- Embeds the inline helper spatial_grid_get_cell (spatial_grid.h:477-482).
Its body reads `grid->gridWidth` with no null check, so the null-grid case is
the undefined dereference, modelled as `Except.error ()`. -/
def spatial_grid_get_cell : Option SpatialGrid → Nat → Nat → Except Unit (Option Nat)
  | none, _, _ => Except.error ()
  | some grid, cellX, cellY => Except.ok (spatial_grid_get_cell_idx grid cellX cellY)

/-- Embeds the inline helper spatial_grid_is_valid_cell (spatial_grid.h:500-502).
Like spatial_grid_get_cell it dereferences the grid with no null check. -/
def spatial_grid_is_valid_cell : Option SpatialGrid → Nat → Nat → Except Unit Bool
  | none, _, _ => Except.error ()
  | some grid, cellX, cellY =>
    Except.ok (decide (cellX < grid.gridWidth) && decide (cellY < grid.gridHeight))

/-- Embeds spatial_grid_world_to_cell (spatial_grid.c:391-411).  The two
`uint32_t*` out-parameters (whose nullness also makes the C function return
false) are folded into the `Option` result: `none` is C's `false`.  The C cast
`(uint32_t)(adjusted / cellSize)` truncates a non-negative quotient, hence
`Rat.floor` followed by `Int.toNat`. -/
def spatial_grid_world_to_cell : Option SpatialGrid → Rat → Rat → Option (Nat × Nat)
  | none, _, _ => none
  | some grid, worldX, worldY =>
    let adjustedX := worldX - grid.offsetX
    let adjustedY := worldY - grid.offsetY
    if adjustedX < 0 ∨ adjustedY < 0 ∨
        grid.worldWidth ≤ adjustedX ∨ grid.worldHeight ≤ adjustedY then none
    else
      some ((adjustedX / (grid.cellSize : Rat)).floor.toNat,
            (adjustedY / (grid.cellSize : Rat)).floor.toNat)

/-- Embeds spatial_grid_cell_to_world (spatial_grid.c:413-420): an explicit stub
that writes nothing. -/
def spatial_grid_cell_to_world (grid : Option SpatialGrid) (cellX cellY : Nat) :
    Option (Rat × Rat) := none

/-- Embeds spatial_grid_add_object (spatial_grid.c:93-151).  Returns the updated
grid (the `SpatialGrid*` argument's object) and the C `bool` result. -/
def spatial_grid_add_object : Option SpatialGrid → Option GameObject →
    Option SpatialGrid × Bool
  | none, _ => (none, false)
  | some grid, none => (some grid, false)
  | some grid, some gameObject =>
    match gameObject.transform with
    | none => (some grid, false)
    | some transform =>
      let pos := transform_component_get_position (some transform)
      match spatial_grid_world_to_cell (some grid) pos.1 pos.2 with
      | none => (some grid, false)
      | some (cellX, cellY) =>
        let allocRes := object_pool_alloc (some grid.entryPool)
        match allocRes.2 with
        | none => (some { grid with entryPool := allocRes.1.getD grid.entryPool }, false)
        | some addr =>
          let grid1 := { grid with entryPool := allocRes.1.getD grid.entryPool }
          let entryIdx := addr / grid1.entryPool.elementSize
          let entry : GridObjectEntry :=
            { gameObject := gameObject
              next := none
              cellX := cellX
              cellY := cellY
              staticObject := game_object_is_static (some gameObject) }
          match spatial_grid_get_cell_idx grid1 cellX cellY with
          | none =>
            let freedPool :=
              (object_pool_free (some grid1.entryPool) (some addr)).1.getD grid1.entryPool
            (some { grid1 with entryPool := freedPool }, false)
          | some cellIdx =>
            let cell := grid1.cells.getD cellIdx default
            let entry1 := { entry with next := cell.objects }
            let grid2 := { grid1 with entries := grid1.entries.setD entryIdx entry1 }
            let cell1 := { cell with
                             objects := some entryIdx
                             objectCount := cell.objectCount + 1 }
            let grid3 := { grid2 with cells := grid2.cells.setD cellIdx cell1 }
            let grid4 := { grid3 with totalObjects := grid3.totalObjects + 1 }
            let grid5 :=
              if cell1.objectCount = 1 then
                { grid4 with cellsWithObjects := grid4.cellsWithObjects + 1 }
              else grid4
            let objectId := game_object_get_id (some gameObject)
            let grid6 :=
              if objectId < grid5.maxObjects then
                { grid5 with objectLookup := grid5.objectLookup.setD objectId (some entryIdx) }
              else grid5
            let grid7 :=
              if cell1.maxObjects < cell1.objectCount then
                { grid6 with cells := grid6.cells.setD cellIdx { cell1 with dirty := true } }
              else grid6
            (some grid7, true)

/-- The predecessor scan of spatial_grid_remove_object (spatial_grid.c:178-184):
`prev = cell->objects; while (prev && prev->next != entry) prev = prev->next;`.
The fuel bounds the walk; on every well-formed grid the chain is finite and
acyclic, so fuel `entries.size` (one per distinct entry) never runs out where
the C loop would terminate. -/
def findPrev (entries : Array GridObjectEntry) : Nat → Option Nat → Nat → Option Nat
  | 0, _, _ => none
  | _ + 1, none, _ => none
  | fuel + 1, some p, target =>
    let e := entries.getD p default
    if e.next = some target then some p else findPrev entries fuel e.next target

/-- Embeds spatial_grid_remove_object (spatial_grid.c:153-202). -/
def spatial_grid_remove_object : Option SpatialGrid → Option GameObject →
    Option SpatialGrid × Bool
  | none, _ => (none, false)
  | some grid, none => (some grid, false)
  | some grid, some gameObject =>
    let objectId := game_object_get_id (some gameObject)
    if grid.maxObjects ≤ objectId then (some grid, false)
    else match grid.objectLookup.getD objectId none with
    | none => (some grid, false)
    | some entryIdx =>
      let entry := grid.entries.getD entryIdx default
      match spatial_grid_get_cell_idx grid entry.cellX entry.cellY with
      | none => (some grid, false)
      | some cellIdx =>
        let cell := grid.cells.getD cellIdx default
        let unlink : GridCell × Array GridObjectEntry :=
          if cell.objects = some entryIdx then
            ({ cell with objects := entry.next }, grid.entries)
          else
            match findPrev grid.entries grid.entries.size cell.objects entryIdx with
            | some prevIdx =>
              let prev := grid.entries.getD prevIdx default
              (cell, grid.entries.setD prevIdx { prev with next := entry.next })
            | none => (cell, grid.entries)
        let cell1 := unlink.1
        let cell2 := { cell1 with objectCount := cell1.objectCount - 1 }
        let grid1 := { grid with entries := unlink.2 }
        let withCwo : GridCell × SpatialGrid :=
          if cell2.objectCount = 0 then
            ({ cell2 with dirty := false },
             { grid1 with cellsWithObjects := grid1.cellsWithObjects - 1 })
          else (cell2, grid1)
        let grid2 := withCwo.2
        let grid3 := { grid2 with
                         cells := grid2.cells.setD cellIdx withCwo.1
                         totalObjects := grid2.totalObjects - 1 }
        let grid4 := { grid3 with objectLookup := grid3.objectLookup.setD objectId none }
        let grid5 := { grid4 with entryPool :=
          (object_pool_free (some grid4.entryPool)
            (some (entryIdx * grid4.entryPool.elementSize))).1.getD grid4.entryPool }
        (some grid5, true)

/-- Embeds spatial_grid_update_object (spatial_grid.c:204-244). -/
def spatial_grid_update_object : Option SpatialGrid → Option GameObject →
    Option SpatialGrid × Bool
  | none, _ => (none, false)
  | some grid, none => (some grid, false)
  | some grid, some gameObject =>
    match gameObject.transform with
    | none => (some grid, false)
    | some transform =>
      if game_object_is_static (some gameObject) = true then (some grid, true)
      else
        let objectId := game_object_get_id (some gameObject)
        if grid.maxObjects ≤ objectId then (some grid, false)
        else match grid.objectLookup.getD objectId none with
        | none => spatial_grid_add_object (some grid) (some gameObject)
        | some entryIdx =>
          let pos := transform_component_get_position (some transform)
          match spatial_grid_world_to_cell (some grid) pos.1 pos.2 with
          | none => spatial_grid_remove_object (some grid) (some gameObject)
          | some (newCellX, newCellY) =>
            let entry := grid.entries.getD entryIdx default
            if newCellX = entry.cellX ∧ newCellY = entry.cellY then (some grid, true)
            else
              let afterRemove :=
                (spatial_grid_remove_object (some grid) (some gameObject)).1
              spatial_grid_add_object afterRemove (some gameObject)

/-- Embeds spatial_grid_mark_static (spatial_grid.c:246-250): the body casts all
three arguments to void and performs no reads or writes at all. -/
def spatial_grid_mark_static (grid : Option SpatialGrid)
    (gameObject : Option GameObject) (isStatic : Bool) : Option SpatialGrid :=
  grid

/-- SpatialQuery from spatial_grid.h.  The C result buffer is a fixed array of
`maxResults` object pointers of which the first `resultCount` are meaningful;
the model keeps exactly that meaningful prefix as a list ordered by append, so
`resultCount` is `results.length`. -/
structure SpatialQuery where
  results : List GameObject
  maxResults : Nat
  queryX : Rat
  queryY : Rat
  queryRadius : Rat
  queryWidth : Rat
  queryHeight : Rat
  includeStatic : Bool
deriving Repr, DecidableEq, Inhabited

/-- Embeds spatial_query_create (spatial_grid.c:253-277). -/
def spatial_query_create (maxResults : Nat) : Option SpatialQuery :=
  if maxResults = 0 then none
  else
    some { results := [], maxResults := maxResults, queryX := 0, queryY := 0,
           queryRadius := 0, queryWidth := 0, queryHeight := 0, includeStatic := true }

/-- The inner while loop of spatial_grid_query_circle (spatial_grid.c:318-349):
walks one cell's entry list while the result buffer has room, skipping inactive
entities, skipping static entries unless `includeStatic`, and appending entities
within the squared radius.  Fuel as in `findPrev`. -/
def queryCellScan (entries : Array GridObjectEntry) (centerX centerY radiusSquared : Rat) :
    Nat → Option Nat → SpatialQuery → SpatialQuery
  | 0, _, query => query
  | _ + 1, none, query => query
  | fuel + 1, some i, query =>
    if query.results.length < query.maxResults then
      let entry := entries.getD i default
      let obj := entry.gameObject
      if game_object_is_active (some obj) = false then
        queryCellScan entries centerX centerY radiusSquared fuel entry.next query
      else if query.includeStatic = false ∧ entry.staticObject = true then
        queryCellScan entries centerX centerY radiusSquared fuel entry.next query
      else
        let pos := transform_component_get_position obj.transform
        let dx := pos.1 - centerX
        let dy := pos.2 - centerY
        if dx * dx + dy * dy ≤ radiusSquared then
          queryCellScan entries centerX centerY radiusSquared fuel entry.next
            { query with results := query.results ++ [obj] }
        else
          queryCellScan entries centerX centerY radiusSquared fuel entry.next query
    else query

/-- The inclusive cell range `[lo, hi]` of the query's nested for loops. -/
def cellRange (lo hi : Nat) : List Nat := (List.range (hi + 1 - lo)).map (lo + ·)

/-- Embeds spatial_grid_query_circle (spatial_grid.c:286-355).  Returns the
updated grid, the updated query, and the C `uint32_t` return value.  Note that
the `radius <= 0` guard returns before clearing `query->resultCount`, so the
query object is returned untouched there, exactly as in the source. -/
def spatial_grid_query_circle : Option SpatialGrid → Rat → Rat → Rat →
    Option SpatialQuery → Option SpatialGrid × Option SpatialQuery × Nat
  | none, _, _, _, query => (none, query, 0)
  | some grid, _, _, _, none => (some grid, none, 0)
  | some grid, centerX, centerY, radius, some query =>
    if radius ≤ 0 then (some grid, some query, 0)
    else
      let query1 := { query with
                        results := []
                        queryX := centerX
                        queryY := centerY
                        queryRadius := radius }
      let minX := centerX - radius
      let minY := centerY - radius
      let maxX := centerX + radius
      let maxY := centerY + radius
      match spatial_grid_world_to_cell (some grid) minX minY,
            spatial_grid_world_to_cell (some grid) maxX maxY with
      | some (minCellX, minCellY), some (maxCellX, maxCellY) =>
        let radiusSquared := radius * radius
        let query2 := (cellRange minCellY maxCellY).foldl (fun qY cellY =>
          (cellRange minCellX maxCellX).foldl (fun q cellX =>
            match spatial_grid_get_cell_idx grid cellX cellY with
            | none => q
            | some cellIdx =>
              let cell := grid.cells.getD cellIdx default
              if cell.objectCount = 0 then q
              else queryCellScan grid.entries centerX centerY radiusSquared
                (grid.entries.size + 1) cell.objects q) qY) query1
        (some { grid with queriesPerFrame := (grid.queriesPerFrame + 1) % UINT32_MOD },
         some query2, query2.results.length)
      | _, _ => (some grid, some query1, 0)

/-- Embeds spatial_grid_query_rectangle (spatial_grid.c:357-366): an explicit
stub that casts its arguments to void and returns 0 results unconditionally. -/
def spatial_grid_query_rectangle (grid : Option SpatialGrid) (x y width height : Rat)
    (query : Option SpatialQuery) : Option SpatialGrid × Option SpatialQuery × Nat :=
  (grid, query, 0)

/-- Embeds spatial_grid_query_line (spatial_grid.c:368-377): an explicit stub. -/
def spatial_grid_query_line (grid : Option SpatialGrid) (x1 y1 x2 y2 : Rat)
    (query : Option SpatialQuery) : Option SpatialGrid × Option SpatialQuery × Nat :=
  (grid, query, 0)

/-! ### Claim theorems: worldToCell, null safety, mark_static -/

/-- The grid of the spec scenario: cellSize 64, 10 x 10 cells, offset (0,0),
maxObjects 100, built by spatial_grid_create. -/
def gridScenario : SpatialGrid := (spatial_grid_create 64 10 10 0 0 100).getD default

/-- C5: spatial_grid_world_to_cell subtracts the grid offset, fails exactly when
the adjusted point lies outside [0, worldWidth) x [0, worldHeight) (where
worldWidth = gridWidth * cellSize and worldHeight = gridHeight * cellSize, as
on every grid produced by spatial_grid_create), and otherwise returns the
integer division of the adjusted coordinates by cellSize; in particular on the
created cellSize-64 10 x 10 grid with offset (0,0), the point (0,0) maps to
cell (0,0) and the point (1000,1000) fails. -/
theorem world_to_cell_correct (grid : SpatialGrid) (x y : Rat)
    (hw : grid.worldWidth = ((grid.gridWidth * grid.cellSize : Nat) : Rat))
    (hh : grid.worldHeight = ((grid.gridHeight * grid.cellSize : Nat) : Rat)) :
    (spatial_grid_world_to_cell (some grid) x y = none ↔
      ¬ (0 ≤ x - grid.offsetX ∧ 0 ≤ y - grid.offsetY ∧
         x - grid.offsetX < ((grid.gridWidth * grid.cellSize : Nat) : Rat) ∧
         y - grid.offsetY < ((grid.gridHeight * grid.cellSize : Nat) : Rat)))
    ∧ (∀ cx cy, spatial_grid_world_to_cell (some grid) x y = some (cx, cy) →
        cx = ((x - grid.offsetX) / (grid.cellSize : Rat)).floor.toNat
        ∧ cy = ((y - grid.offsetY) / (grid.cellSize : Rat)).floor.toNat)
    ∧ spatial_grid_world_to_cell (some gridScenario) 0 0 = some (0, 0)
    ∧ spatial_grid_world_to_cell (some gridScenario) 1000 1000 = none := by
  have hiff : (x - grid.offsetX < 0 ∨ y - grid.offsetY < 0 ∨
      grid.worldWidth ≤ x - grid.offsetX ∨ grid.worldHeight ≤ y - grid.offsetY) ↔
      ¬ (0 ≤ x - grid.offsetX ∧ 0 ≤ y - grid.offsetY ∧
         x - grid.offsetX < ((grid.gridWidth * grid.cellSize : Nat) : Rat) ∧
         y - grid.offsetY < ((grid.gridHeight * grid.cellSize : Nat) : Rat)) := by
    rw [hw, hh]
    constructor
    · intro h hc
      obtain ⟨h1, h2, h3, h4⟩ := hc
      rcases h with h | h | h | h
      · exact absurd h1 (not_le.2 h)
      · exact absurd h2 (not_le.2 h)
      · exact absurd h3 (not_lt.2 h)
      · exact absurd h4 (not_lt.2 h)
    · intro hn
      by_contra hno
      push_neg at hno
      obtain ⟨f1, f2, f3, f4⟩ := hno
      exact hn ⟨f1, f2, f3, f4⟩
  refine ⟨?_, ?_, by with_unfolding_all decide, by with_unfolding_all decide⟩
  · by_cases hcond : (x - grid.offsetX < 0 ∨ y - grid.offsetY < 0 ∨
        grid.worldWidth ≤ x - grid.offsetX ∨ grid.worldHeight ≤ y - grid.offsetY)
    · rw [show spatial_grid_world_to_cell (some grid) x y = none from by
        simp only [spatial_grid_world_to_cell, if_pos hcond]]
      simp only [true_iff]
      exact hiff.1 hcond
    · rw [show spatial_grid_world_to_cell (some grid) x y
          = some (((x - grid.offsetX) / (grid.cellSize : Rat)).floor.toNat,
                  ((y - grid.offsetY) / (grid.cellSize : Rat)).floor.toNat) from by
        simp only [spatial_grid_world_to_cell, if_neg hcond]]
      have hin : (0 ≤ x - grid.offsetX ∧ 0 ≤ y - grid.offsetY ∧
          x - grid.offsetX < ((grid.gridWidth * grid.cellSize : Nat) : Rat) ∧
          y - grid.offsetY < ((grid.gridHeight * grid.cellSize : Nat) : Rat)) := by
        by_contra hni
        exact hcond (hiff.2 hni)
      push_cast at hin
      simp [hin]
  · intro cx cy h
    by_cases hcond : (x - grid.offsetX < 0 ∨ y - grid.offsetY < 0 ∨
        grid.worldWidth ≤ x - grid.offsetX ∨ grid.worldHeight ≤ y - grid.offsetY)
    · rw [show spatial_grid_world_to_cell (some grid) x y = none from by
        simp only [spatial_grid_world_to_cell, if_pos hcond]] at h
      cases h
    · rw [show spatial_grid_world_to_cell (some grid) x y
          = some (((x - grid.offsetX) / (grid.cellSize : Rat)).floor.toNat,
                  ((y - grid.offsetY) / (grid.cellSize : Rat)).floor.toNat) from by
        simp only [spatial_grid_world_to_cell, if_neg hcond]] at h
      simp only [Option.some.injEq, Prod.mk.injEq] at h
      exact ⟨h.1.symm, h.2.symm⟩

/-- Witness for C5 at the scenario grid and the point (0,0). -/
theorem world_to_cell_correct_witness :
    (spatial_grid_world_to_cell (some gridScenario) 0 0 = none ↔
      ¬ (0 ≤ (0:Rat) - gridScenario.offsetX ∧ 0 ≤ (0:Rat) - gridScenario.offsetY ∧
         (0:Rat) - gridScenario.offsetX
           < ((gridScenario.gridWidth * gridScenario.cellSize : Nat) : Rat) ∧
         (0:Rat) - gridScenario.offsetY
           < ((gridScenario.gridHeight * gridScenario.cellSize : Nat) : Rat)))
    ∧ (∀ cx cy, spatial_grid_world_to_cell (some gridScenario) 0 0 = some (cx, cy) →
        cx = (((0:Rat) - gridScenario.offsetX) / (gridScenario.cellSize : Rat)).floor.toNat
        ∧ cy = (((0:Rat) - gridScenario.offsetY) / (gridScenario.cellSize : Rat)).floor.toNat)
    ∧ spatial_grid_world_to_cell (some gridScenario) 0 0 = some (0, 0)
    ∧ spatial_grid_world_to_cell (some gridScenario) 1000 1000 = none :=
  world_to_cell_correct gridScenario 0 0 (by with_unfolding_all rfl)
    (by with_unfolding_all rfl)

/-- C9 counterexample: the public inline helper spatial_grid_get_cell of
spatial_grid.h, called with a null grid, reads grid->gridWidth and so
dereferences its null argument instead of returning a neutral value; in the
embedding its null case is the undefined-dereference marker.  The companion
helper spatial_grid_is_valid_cell behaves the same way. -/
theorem null_grid_get_cell_dereferences_cex :
    spatial_grid_get_cell none 0 0 = Except.error ()
    ∧ spatial_grid_is_valid_cell none 0 0 = Except.error () :=
  ⟨rfl, rfl⟩

/-- C9 (amended): every embedded public entry point of the pool and the grid
returns an immediate error or neutral value on a null pool / grid / object /
slot / query argument without touching any non-null state it received — except
the two inline helpers spatial_grid_get_cell and spatial_grid_is_valid_cell
declared in spatial_grid.h, which read grid->gridWidth without a null check and
therefore dereference a null grid. -/
theorem null_argument_safety :
    (∀ es cap, object_pool_init false es cap = (none, .POOL_ERROR_NULL_POINTER))
    ∧ object_pool_alloc none = (none, none)
    ∧ (∀ o, object_pool_free none o = (none, .POOL_ERROR_NULL_POINTER))
    ∧ (∀ p, object_pool_free (some p) none = (some p, .POOL_ERROR_NULL_POINTER))
    ∧ object_pool_get_used_count none = 0
    ∧ object_pool_get_free_count none = 0
    ∧ object_pool_get_usage_percent none = 0
    ∧ (∀ o, object_pool_owns_object none o = false)
    ∧ (∀ p, object_pool_owns_object (some p) none = false)
    ∧ (∀ o, object_pool_get_object_index none o = UINT32_MAX)
    ∧ (∀ p, object_pool_get_object_index (some p) none = UINT32_MAX)
    ∧ object_pool_destroy none = none
    ∧ (∀ g, spatial_grid_add_object none g = (none, false))
    ∧ (∀ gr, spatial_grid_add_object (some gr) none = (some gr, false))
    ∧ (∀ g, spatial_grid_remove_object none g = (none, false))
    ∧ (∀ gr, spatial_grid_remove_object (some gr) none = (some gr, false))
    ∧ (∀ g, spatial_grid_update_object none g = (none, false))
    ∧ (∀ gr, spatial_grid_update_object (some gr) none = (some gr, false))
    ∧ (∀ g b, spatial_grid_mark_static none g b = none)
    ∧ (∀ x y, spatial_grid_world_to_cell none x y = none)
    ∧ (∀ cx cy r q, spatial_grid_query_circle none cx cy r q = (none, q, 0))
    ∧ (∀ gr cx cy r, spatial_grid_query_circle (some gr) cx cy r none = (some gr, none, 0))
    ∧ (∀ x y w h q, spatial_grid_query_rectangle none x y w h q = (none, q, 0))
    ∧ (∀ x1 y1 x2 y2 q, spatial_grid_query_line none x1 y1 x2 y2 q = (none, q, 0))
    ∧ (∀ cx cy, spatial_grid_get_cell none cx cy = Except.error ())
    ∧ (∀ cx cy, spatial_grid_is_valid_cell none cx cy = Except.error ()) :=
  ⟨fun _ _ => rfl, rfl, fun _ => rfl, fun _ => rfl, rfl, rfl, rfl,
   fun o => by cases o <;> rfl, fun _ => rfl, fun o => by cases o <;> rfl, fun _ => rfl,
   rfl, fun _ => rfl, fun _ => rfl, fun _ => rfl, fun _ => rfl, fun _ => rfl,
   fun _ => rfl, fun _ _ => rfl, fun _ _ => rfl, fun _ _ _ _ => rfl,
   fun _ _ _ _ => rfl, fun _ _ _ _ _ => rfl, fun _ _ _ _ _ => rfl,
   fun _ _ => rfl, fun _ _ => rfl⟩

/-- C10: spatial_grid_mark_static reads and writes nothing at all — it returns
the grid state unchanged for all arguments, so later spatial_grid_update_object
and spatial_grid_query_circle calls behave exactly as if it had never been
called. -/
theorem mark_static_complete_noop (g : Option SpatialGrid) (o : Option GameObject)
    (b : Bool) (e : Option GameObject) :
    spatial_grid_mark_static g o b = g
    ∧ spatial_grid_update_object (spatial_grid_mark_static g o b) e
        = spatial_grid_update_object g e
    ∧ (∀ cx cy r q, spatial_grid_query_circle (spatial_grid_mark_static g o b) cx cy r q
        = spatial_grid_query_circle g cx cy r q) :=
  ⟨rfl, rfl, fun _ _ _ _ => rfl⟩

/-! ### Linked-list chains of the grid cells -/

/-- `Links entries head l`: the singly-linked entry list starting at `head`
consists exactly of the (index, entry) pairs of `l` in order, ending at NULL. -/
def Links (entries : Array GridObjectEntry) :
    Option Nat → List (Nat × GridObjectEntry) → Prop
  | none, [] => True
  | none, _ :: _ => False
  | some _, [] => False
  | some i, (j, e) :: rest =>
    i = j ∧ entries.getD i default = e ∧ Links entries e.next rest

/-- Computes the chain starting at `head` by following `next` pointers, spending
one unit of fuel per node; `none` on fuel exhaustion (only reachable on cyclic
or over-long chains, which no well-formed grid has). -/
def chaseFull (entries : Array GridObjectEntry) :
    Nat → Option Nat → Option (List (Nat × GridObjectEntry))
  | _, none => some []
  | 0, some _ => none
  | fuel + 1, some i =>
    let e := entries.getD i default
    (chaseFull entries fuel e.next).map (fun l => (i, e) :: l)

/-- The chain of cell `c` of the grid, computed with enough fuel for any
well-formed grid. -/
def gridChain (grid : SpatialGrid) (c : Nat) : List (Nat × GridObjectEntry) :=
  (chaseFull grid.entries (grid.entries.size + 1)
    (grid.cells.getD c default).objects).getD []

/-- How many entries across all cells of the grid reference an entity with the
given id. -/
def entriesWithId (grid : SpatialGrid) (id : Nat) : Nat :=
  (Finset.range grid.cells.size).sum fun c =>
    ((gridChain grid c).filter fun p => p.2.gameObject.id = id).length

/-- Well-formedness of one cell's chain. -/
structure ChainWF (grid : SpatialGrid) (c : Nat) (l : List (Nat × GridObjectEntry)) :
    Prop where
  links : Links grid.entries (grid.cells.getD c default).objects l
  nodup : (l.map Prod.fst).Nodup
  bounds : ∀ p ∈ l, p.1 < grid.entries.size
  alloc : ∀ p ∈ l, grid.entryPool.objectStates.getD p.1 false = true
  cellmatch : ∀ p ∈ l, spatial_grid_get_cell_idx grid p.2.cellX p.2.cellY = some c
  count : (grid.cells.getD c default).objectCount = l.length

/-- Structural well-formedness of a grid, established by spatial_grid_create and
preserved by add / remove / update. -/
structure GridWF (grid : SpatialGrid) : Prop where
  cells_size : grid.cells.size = grid.gridWidth * grid.gridHeight
  cell_pos : 0 < grid.cellSize
  world_w : grid.worldWidth = ((grid.gridWidth * grid.cellSize : Nat) : Rat)
  world_h : grid.worldHeight = ((grid.gridHeight * grid.cellSize : Nat) : Rat)
  entries_size : grid.entries.size = grid.maxObjects
  lookup_size : grid.objectLookup.size = grid.maxObjects
  pool_cap : grid.entryPool.capacity = grid.maxObjects
  poolwf : PoolWF grid.entryPool
  chains : ∀ c, c < grid.cells.size → ∃ l, ChainWF grid c l
  lookup : ∀ id i, grid.objectLookup.getD id none = some i →
    ∃ c l, c < grid.cells.size ∧ ChainWF grid c l
      ∧ (i, grid.entries.getD i default) ∈ l
      ∧ (grid.entries.getD i default).gameObject.id = id

theorem links_functional (entries : Array GridObjectEntry) :
    ∀ (l1 l2 : List (Nat × GridObjectEntry)) (h : Option Nat),
      Links entries h l1 → Links entries h l2 → l1 = l2 := by
  intro l1
  induction l1 with
  | nil =>
    intro l2 h h1 h2
    cases h with
    | none => cases l2 with
      | nil => rfl
      | cons b t => exact absurd h2 (by simp [Links])
    | some i => exact absurd h1 (by simp [Links])
  | cons a t ih =>
    intro l2 h h1 h2
    cases a with
    | mk aj ae =>
      cases h with
      | none => simp [Links] at h1
      | some i =>
        cases l2 with
        | nil => simp [Links] at h2
        | cons b t2 =>
          cases b with
          | mk bj be =>
            obtain ⟨ha1, ha2, ha3⟩ := h1
            obtain ⟨hb1, hb2, hb3⟩ := h2
            subst ha1
            subst hb1
            rw [ha2] at hb2
            subst hb2
            have ht := ih t2 ae.next ha3 hb3
            rw [ht]

theorem chaseFull_of_links (entries : Array GridObjectEntry) :
    ∀ (l : List (Nat × GridObjectEntry)) (fuel : Nat) (h : Option Nat),
      Links entries h l → l.length ≤ fuel → chaseFull entries fuel h = some l := by
  intro l
  induction l with
  | nil =>
    intro fuel h h1 _
    cases h with
    | none => cases fuel <;> rfl
    | some i => exact absurd h1 (by simp [Links])
  | cons a t ih =>
    intro fuel h h1 hlen
    cases h with
    | none => exact absurd h1 (by cases a; simp [Links])
    | some i =>
      cases a with
      | mk aj ae =>
        obtain ⟨ha1, ha2, ha3⟩ := h1
        cases fuel with
        | zero => simp at hlen
        | succ fuel =>
          subst ha1
          rw [chaseFull]
          simp only [ha2]
          rw [ih fuel ae.next ha3 (by simpa using Nat.le_of_succ_le_succ hlen)]
          rfl

theorem nodup_length_le (l : List (Nat × GridObjectEntry)) (n : Nat)
    (hn : (l.map Prod.fst).Nodup) (hb : ∀ p ∈ l, p.1 < n) : l.length ≤ n := by
  have h1 : (l.map Prod.fst).length = l.length := List.length_map l Prod.fst
  have h2 : (l.map Prod.fst).toFinset.card = (l.map Prod.fst).length :=
    List.toFinset_card_of_nodup hn
  have h3 : (l.map Prod.fst).toFinset ⊆ Finset.range n := by
    intro x hx
    simp only [List.mem_toFinset, List.mem_map] at hx
    obtain ⟨p, hp, hpx⟩ := hx
    simp only [Finset.mem_range]
    rw [← hpx]
    exact hb p hp
  have h4 := Finset.card_le_card h3
  simp only [Finset.card_range] at h4
  omega

theorem gridChain_eq (grid : SpatialGrid) (c : Nat) (l : List (Nat × GridObjectEntry))
    (hc : ChainWF grid c l) : gridChain grid c = l := by
  rw [gridChain, chaseFull_of_links _ _ _ _ hc.links
    (Nat.le_succ_of_le (nodup_length_le l _ hc.nodup hc.bounds))]
  rfl

theorem links_setD_ne (entries : Array GridObjectEntry) (j : Nat) (v : GridObjectEntry) :
    ∀ (l : List (Nat × GridObjectEntry)) (h : Option Nat),
      j ∉ l.map Prod.fst → Links entries h l → Links (entries.setD j v) h l := by
  intro l
  induction l with
  | nil =>
    intro h _ h1
    cases h with
    | none => trivial
    | some i => exact absurd h1 (by simp [Links])
  | cons a t ih =>
    intro h hj h1
    cases h with
    | none => exact absurd h1 (by cases a; simp [Links])
    | some i =>
      cases a with
      | mk aj ae =>
        obtain ⟨ha1, ha2, ha3⟩ := h1
        subst ha1
        simp only [List.map_cons, List.mem_cons, not_or] at hj
        refine ⟨rfl, ?_, ih ae.next hj.2 ha3⟩
        rw [agetD_setD_ne entries j i v default hj.1]
        exact ha2

theorem get_cell_idx_lt (grid : SpatialGrid) (cX cY c : Nat)
    (h : spatial_grid_get_cell_idx grid cX cY = some c)
    (hsz : grid.cells.size = grid.gridWidth * grid.gridHeight) :
    c < grid.cells.size ∧ cX < grid.gridWidth ∧ cY < grid.gridHeight
      ∧ c = cY * grid.gridWidth + cX := by
  rw [spatial_grid_get_cell_idx] at h
  by_cases hc : (grid.gridWidth ≤ cX ∨ grid.gridHeight ≤ cY)
  · rw [if_pos hc] at h; cases h
  · rw [if_neg hc] at h
    push_neg at hc
    simp only [Option.some.injEq] at h
    subst h
    refine ⟨?_, hc.1, hc.2, rfl⟩
    rw [hsz]
    calc cY * grid.gridWidth + cX
        < cY * grid.gridWidth + grid.gridWidth := by omega
      _ = (cY + 1) * grid.gridWidth := by ring
      _ ≤ grid.gridHeight * grid.gridWidth := Nat.mul_le_mul_right _ hc.2
      _ = grid.gridWidth * grid.gridHeight := Nat.mul_comm _ _

theorem ratFloor_eq_intFloor (q : Rat) : q.floor = ⌊q⌋ := by
  rw [Rat.floor_def', Rat.floor_def]

theorem world_to_cell_bounds (grid : SpatialGrid) (x y : Rat) (cx cy : Nat)
    (hcs : 0 < grid.cellSize)
    (hw : grid.worldWidth = ((grid.gridWidth * grid.cellSize : Nat) : Rat))
    (hh : grid.worldHeight = ((grid.gridHeight * grid.cellSize : Nat) : Rat))
    (h : spatial_grid_world_to_cell (some grid) x y = some (cx, cy)) :
    cx < grid.gridWidth ∧ cy < grid.gridHeight := by
  rw [spatial_grid_world_to_cell] at h
  by_cases hcond : (x - grid.offsetX < 0 ∨ y - grid.offsetY < 0 ∨
      grid.worldWidth ≤ x - grid.offsetX ∨ grid.worldHeight ≤ y - grid.offsetY)
  · rw [if_pos hcond] at h; cases h
  · rw [if_neg hcond] at h
    push_neg at hcond
    obtain ⟨f1, f2, f3, f4⟩ := hcond
    simp only [Option.some.injEq, Prod.mk.injEq] at h
    obtain ⟨hx, hy⟩ := h
    have hcsQ : (0 : Rat) < (grid.cellSize : Rat) := by exact_mod_cast hcs
    constructor
    · rw [← hx, ratFloor_eq_intFloor]
      have hdivlt : (x - grid.offsetX) / (grid.cellSize : Rat) < (grid.gridWidth : Rat) := by
        rw [div_lt_iff hcsQ]
        rw [hw] at f3
        push_cast at f3
        exact f3
      have hfl : ⌊(x - grid.offsetX) / (grid.cellSize : Rat)⌋ < (grid.gridWidth : Int) := by
        rw [Int.floor_lt]
        exact_mod_cast hdivlt
      have hnn : (0 : Int) ≤ ⌊(x - grid.offsetX) / (grid.cellSize : Rat)⌋ := by
        apply Int.floor_nonneg.2
        positivity
      omega
    · rw [← hy, ratFloor_eq_intFloor]
      have hdivlt : (y - grid.offsetY) / (grid.cellSize : Rat) < (grid.gridHeight : Rat) := by
        rw [div_lt_iff hcsQ]
        rw [hh] at f4
        push_cast at f4
        exact f4
      have hfl : ⌊(y - grid.offsetY) / (grid.cellSize : Rat)⌋ < (grid.gridHeight : Int) := by
        rw [Int.floor_lt]
        exact_mod_cast hdivlt
      have hnn : (0 : Int) ≤ ⌊(y - grid.offsetY) / (grid.cellSize : Rat)⌋ := by
        apply Int.floor_nonneg.2
        positivity
      omega

theorem setD_setD {α : Type _} (a : Array α) (i : Nat) (v w : α) :
    (a.setD i v).setD i w = a.setD i w := by
  have hdef : ∀ (b : Array α) (x : α),
      b.setD i x = if hb : i < b.size then b.set ⟨i, hb⟩ x else b := fun _ _ => rfl
  by_cases h : i < a.size
  · rw [hdef a v, dif_pos h, hdef _ w, dif_pos (by simpa using h), hdef a w, dif_pos h]
    exact Array.set_set a ⟨i, h⟩ v w
  · rw [hdef a v, dif_neg h]

/-- The pool index popped by the allocation inside spatial_grid_add_object. -/
def allocIdx (grid : SpatialGrid) : Nat :=
  grid.entryPool.freeList.getD grid.entryPool.freeHead 0

/-- The entry record written by a successful spatial_grid_add_object. -/
def addedEntry (grid : SpatialGrid) (e : GameObject) (cX cY cellIdx : Nat) :
    GridObjectEntry :=
  { gameObject := e, next := (grid.cells.getD cellIdx default).objects,
    cellX := cX, cellY := cY, staticObject := e.staticObject }

theorem add_success_characterized (grid : SpatialGrid) (e : GameObject)
    (t : TransformComponent) (ht : e.transform = some t) (cX cY cellIdx : Nat)
    (hwc : spatial_grid_world_to_cell (some grid) t.x t.y = some (cX, cY))
    (hcell : spatial_grid_get_cell_idx grid cX cY = some cellIdx)
    (hfc : ¬ grid.entryPool.freeCount = 0)
    (hs : 0 < grid.entryPool.elementSize) :
    ∃ g' pool1, spatial_grid_add_object (some grid) (some e) = (some g', true)
      ∧ (object_pool_alloc (some grid.entryPool)).1 = some pool1
      ∧ g'.entryPool = pool1
      ∧ g'.entries = grid.entries.setD (allocIdx grid) (addedEntry grid e cX cY cellIdx)
      ∧ (∃ dirtyFlag, g'.cells = grid.cells.setD cellIdx
           { objects := some (allocIdx grid)
             objectCount := (grid.cells.getD cellIdx default).objectCount + 1
             maxObjects := (grid.cells.getD cellIdx default).maxObjects
             dirty := dirtyFlag })
      ∧ g'.objectLookup = (if e.id < grid.maxObjects
          then grid.objectLookup.setD e.id (some (allocIdx grid))
          else grid.objectLookup)
      ∧ g'.totalObjects = grid.totalObjects + 1
      ∧ g'.cellSize = grid.cellSize ∧ g'.gridWidth = grid.gridWidth
      ∧ g'.gridHeight = grid.gridHeight ∧ g'.worldWidth = grid.worldWidth
      ∧ g'.worldHeight = grid.worldHeight ∧ g'.offsetX = grid.offsetX
      ∧ g'.offsetY = grid.offsetY ∧ g'.maxObjects = grid.maxObjects := by
  obtain ⟨pool1, halloc, a1, a2, a3, a4, a5, a6⟩ := alloc_fields grid.entryPool hfc
  have hdiv : grid.entryPool.freeList.getD grid.entryPool.freeHead 0
        * grid.entryPool.elementSize / grid.entryPool.elementSize = allocIdx grid := by
    rw [Nat.mul_div_cancel _ hs]
    rfl
  simp only [spatial_grid_add_object, ht, transform_component_get_position, hwc, halloc,
    Option.getD_some, a5, hdiv, game_object_get_id, game_object_is_static]
  rw [show spatial_grid_get_cell_idx { grid with entryPool := pool1 } cX cY
      = some cellIdx from hcell]
  simp only [apply_ite SpatialGrid.cells, apply_ite SpatialGrid.cellSize,
    apply_ite SpatialGrid.gridWidth, apply_ite SpatialGrid.gridHeight,
    apply_ite SpatialGrid.worldWidth, apply_ite SpatialGrid.worldHeight,
    apply_ite SpatialGrid.offsetX, apply_ite SpatialGrid.offsetY,
    apply_ite SpatialGrid.entryPool, apply_ite SpatialGrid.entries,
    apply_ite SpatialGrid.objectLookup, apply_ite SpatialGrid.totalObjects,
    apply_ite SpatialGrid.maxObjects, apply_ite SpatialGrid.queriesPerFrame,
    apply_ite SpatialGrid.collisionChecksPerFrame,
    apply_ite SpatialGrid.cellsWithObjects,
    apply_ite SpatialGrid.enableStaticOptimization,
    apply_ite SpatialGrid.enableFrustumCulling,
    apply_ite SpatialGrid.maxObjectsPerCell, ite_self]
  by_cases hc1 : (grid.cells.getD cellIdx default).objectCount + 1 = 1 <;>
    (first | simp only [if_pos hc1] | simp only [if_neg hc1]) <;>
  by_cases hc2 : e.id < grid.maxObjects <;>
    (first | simp only [if_pos hc2] | simp only [if_neg hc2]) <;>
  by_cases hc3 : (grid.cells.getD cellIdx default).maxObjects
      < (grid.cells.getD cellIdx default).objectCount + 1 <;>
    (first | simp only [if_pos hc3] | simp only [if_neg hc3]) <;>
  refine ⟨_, pool1, rfl, rfl, rfl, rfl, ?_, rfl, rfl, rfl, rfl, rfl,
    rfl, rfl, rfl, rfl, rfl⟩ <;>
  first
    | exact ⟨true, by rw [setD_setD]⟩
    | exact ⟨(grid.cells.getD cellIdx default).dirty, rfl⟩

theorem sum_update_point (n : Nat) (f fNew : Nat → Nat) (c0 : Nat) (hc0 : c0 < n) (k : Nat)
    (hsame : ∀ c, c < n → c ≠ c0 → fNew c = f c) (hdiff : fNew c0 = f c0 + k) :
    (Finset.range n).sum fNew = (Finset.range n).sum f + k := by
  have h1 : ∀ c ∈ Finset.range n, fNew c = f c + (if c = c0 then k else 0) := by
    intro c hcr
    rw [Finset.mem_range] at hcr
    by_cases hc : c = c0
    · subst hc; simp [hdiff]
    · simp [hc, hsame c hcr hc]
  rw [Finset.sum_congr rfl h1, Finset.sum_add_distrib]
  congr 1
  rw [Finset.sum_ite_eq' (Finset.range n) c0 (fun _ => k)]
  simp [hc0]

theorem get_cell_idx_congr (grid gNew : SpatialGrid)
    (hw : gNew.gridWidth = grid.gridWidth) (hh : gNew.gridHeight = grid.gridHeight)
    (x y : Nat) :
    spatial_grid_get_cell_idx gNew x y = spatial_grid_get_cell_idx grid x y := by
  simp [spatial_grid_get_cell_idx, hw, hh]

theorem allocIdx_facts (grid : SpatialGrid) (hwf : GridWF grid)
    (hfc : ¬ grid.entryPool.freeCount = 0) :
    allocIdx grid < grid.entries.size
      ∧ grid.entryPool.objectStates.getD (allocIdx grid) false = false := by
  have hmem : allocIdx grid ∈ poolStack grid.entryPool := by
    rw [poolStack_cons grid.entryPool hwf.poolwf hfc]
    exact List.mem_cons_self _ _
  have hlt : allocIdx grid < grid.entryPool.capacity := hwf.poolwf.stack_valid _ hmem
  refine ⟨?_, ?_⟩
  · rw [hwf.entries_size, ← hwf.pool_cap]; exact hlt
  · exact (hwf.poolwf.stack_free _ hlt).2 hmem

theorem not_in_chain_of_free (grid : SpatialGrid) (c : Nat) (l : List (Nat × GridObjectEntry))
    (hc : ChainWF grid c l) (i : Nat)
    (hstate : grid.entryPool.objectStates.getD i false = false) :
    i ∉ l.map Prod.fst := by
  intro hmem
  rw [List.mem_map] at hmem
  obtain ⟨p, hp, hpi⟩ := hmem
  have := hc.alloc p hp
  rw [hpi, hstate] at this
  cases this

theorem links_congr (entA entB : Array GridObjectEntry) :
    ∀ (l : List (Nat × GridObjectEntry)) (h : Option Nat),
      (∀ p ∈ l, entB.getD p.1 default = entA.getD p.1 default) →
      Links entA h l → Links entB h l := by
  intro l
  induction l with
  | nil =>
    intro h _ h1
    cases h with
    | none => trivial
    | some i => exact absurd h1 (by simp [Links])
  | cons a t ih =>
    intro h hsame h1
    cases a with
    | mk aj ae =>
      cases h with
      | none => simp [Links] at h1
      | some i =>
        obtain ⟨ha1, ha2, ha3⟩ := h1
        subst ha1
        refine ⟨rfl, ?_, ih ae.next (fun p hp => hsame p (List.mem_cons_of_mem _ hp)) ha3⟩
        rw [hsame (i, ae) (List.mem_cons_self _ _)]
        exact ha2

theorem add_preserved (grid : SpatialGrid) (hwf : GridWF grid) (e : GameObject) :
    ∃ g' b, spatial_grid_add_object (some grid) (some e) = (some g', b) ∧ GridWF g'
      ∧ (b = false → g' = grid)
      ∧ (∀ id, entriesWithId g' id
          = entriesWithId grid id + (if b = true ∧ id = e.id then 1 else 0))
      ∧ g'.maxObjects = grid.maxObjects
      ∧ (∀ id, id < grid.maxObjects → g'.objectLookup.getD id none = none →
          grid.objectLookup.getD id none = none ∧ ¬ (b = true ∧ id = e.id))
      ∧ (b = true → ∃ idx, g'.objectLookup
          = if e.id < grid.maxObjects
            then grid.objectLookup.setD e.id (some idx)
            else grid.objectLookup)
      ∧ (b = true → ∀ t2 cX2 cY2, e.transform = some t2 →
          spatial_grid_world_to_cell (some grid) t2.x t2.y = some (cX2, cY2) →
          ∃ l, ChainWF grid (cY2 * grid.gridWidth + cX2) l
            ∧ gridChain g' (cY2 * grid.gridWidth + cX2)
                = (allocIdx grid,
                    addedEntry grid e cX2 cY2 (cY2 * grid.gridWidth + cX2)) :: l
            ∧ ∀ c, c ≠ cY2 * grid.gridWidth + cX2 →
                gridChain g' c = gridChain grid c) := by
  cases ht : e.transform with
  | none =>
    refine ⟨grid, false, ?_, hwf, fun _ => rfl, ?_, rfl, ?_, ?_, ?_⟩
    · simp [spatial_grid_add_object, ht]
    · intro id; simp
    · intro id _ h; exact ⟨h, by simp⟩
    · intro h
      cases h
    · intro h
      cases h
  | some t =>
  cases hwc : spatial_grid_world_to_cell (some grid) t.x t.y with
  | none =>
    refine ⟨grid, false, ?_, hwf, fun _ => rfl, ?_, rfl, ?_, ?_, ?_⟩
    · simp [spatial_grid_add_object, ht, transform_component_get_position, hwc]
    · intro id; simp
    · intro id _ h; exact ⟨h, by simp⟩
    · intro h
      cases h
    · intro h
      cases h
  | some cc =>
  obtain ⟨cX, cY⟩ := cc
  by_cases hfc : grid.entryPool.freeCount = 0
  · refine ⟨grid, false, ?_, hwf, fun _ => rfl, ?_, rfl, ?_, ?_, ?_⟩
    · simp [spatial_grid_add_object, ht, transform_component_get_position, hwc,
        object_pool_alloc, hfc]
    · intro id; simp
    · intro id _ h; exact ⟨h, by simp⟩
    · intro h
      cases h
    · intro h
      cases h
  · obtain ⟨hb1, hb2⟩ := world_to_cell_bounds grid t.x t.y cX cY hwf.cell_pos
      hwf.world_w hwf.world_h hwc
    have hcell : spatial_grid_get_cell_idx grid cX cY
        = some (cY * grid.gridWidth + cX) := by
      rw [spatial_grid_get_cell_idx, if_neg (by push_neg; exact ⟨hb1, hb2⟩)]
    obtain ⟨g', pool1, hadd, halloc1, hP, hE, ⟨dflag, hC⟩, hL, hT,
      hd1, hd2, hd3, hd4, hd5, hd6, hd7, hd8⟩ :=
      add_success_characterized grid e t ht cX cY (cY * grid.gridWidth + cX)
        hwc hcell hfc hwf.poolwf.elem_pos
    obtain ⟨hcidx_lt, hcx_lt, hcy_lt, _⟩ :=
      get_cell_idx_lt grid cX cY (cY * grid.gridWidth + cX) hcell hwf.cells_size
    obtain ⟨hi_lt, hi_free⟩ := allocIdx_facts grid hwf hfc
    obtain ⟨pool1b, hallocb, a1, a2, a3, a4, a5, a6⟩ := alloc_fields grid.entryPool hfc
    have hpool1 : pool1 = pool1b := by
      rw [hallocb] at halloc1
      simp only [Option.some.injEq] at halloc1
      exact halloc1.symm
    subst hpool1
    have hpwf1 : PoolWF pool1 := poolWF_alloc_aux _ _ hwf.poolwf hfc a1 a2 a3 a4 a5 a6
    have hstates1 : pool1.objectStates
        = grid.entryPool.objectStates.setD (allocIdx grid) true := a6
    have hcells_size' : g'.cells.size = grid.cells.size := by rw [hC]; simp
    have hentries_size' : g'.entries.size = grid.entries.size := by rw [hE]; simp
    have hgetcell' : ∀ x y, spatial_grid_get_cell_idx g' x y
        = spatial_grid_get_cell_idx grid x y := get_cell_idx_congr grid g' hd2 hd3
    have hcell_other : ∀ c, c ≠ cY * grid.gridWidth + cX →
        g'.cells.getD c default = grid.cells.getD c default := by
      intro c hc
      rw [hC]
      exact agetD_setD_ne _ _ _ _ _ (fun h => hc h.symm)
    have hcell_at : g'.cells.getD (cY * grid.gridWidth + cX) default
        = { objects := some (allocIdx grid)
            objectCount := (grid.cells.getD (cY * grid.gridWidth + cX) default).objectCount + 1
            maxObjects := (grid.cells.getD (cY * grid.gridWidth + cX) default).maxObjects
            dirty := dflag } := by
      rw [hC]
      exact agetD_setD_self _ _ _ _ hcidx_lt
    have hentry_at : g'.entries.getD (allocIdx grid) default
        = addedEntry grid e cX cY (cY * grid.gridWidth + cX) := by
      rw [hE]
      exact agetD_setD_self _ _ _ _ hi_lt
    have hentry_other : ∀ j, j ≠ allocIdx grid →
        g'.entries.getD j default = grid.entries.getD j default := by
      intro j hj
      rw [hE]
      exact agetD_setD_ne _ _ _ _ _ (fun h => hj h.symm)
    have hstate_member : ∀ (l : List (Nat × GridObjectEntry)) (c : Nat), ChainWF grid c l →
        ∀ p ∈ l, p.1 ≠ allocIdx grid := by
      intro l c hl p hp h
      have := hl.alloc p hp
      rw [h, hi_free] at this
      cases this
    have htransfer : ∀ c l, c ≠ cY * grid.gridWidth + cX → ChainWF grid c l →
        ChainWF g' c l := by
      intro c l hc hl
      constructor
      · rw [hcell_other c hc]
        exact links_congr grid.entries g'.entries l _
          (fun p hp => hentry_other p.1 (hstate_member l c hl p hp)) hl.links
      · exact hl.nodup
      · intro p hp
        rw [hentries_size']
        exact hl.bounds p hp
      · intro p hp
        rw [hP, hstates1, agetD_setD_ne _ _ _ _ _
          (fun h => hstate_member l c hl p hp h.symm)]
        exact hl.alloc p hp
      · intro p hp
        rw [hgetcell']
        exact hl.cellmatch p hp
      · rw [hcell_other c hc]
        exact hl.count
    have hnewchain : ∀ l, ChainWF grid (cY * grid.gridWidth + cX) l →
        ChainWF g' (cY * grid.gridWidth + cX)
          ((allocIdx grid, addedEntry grid e cX cY (cY * grid.gridWidth + cX)) :: l) := by
      intro l hl
      have hni : ∀ p ∈ l, p.1 ≠ allocIdx grid := hstate_member l _ hl
      constructor
      · rw [hcell_at]
        refine ⟨rfl, hentry_at, ?_⟩
        show Links g'.entries (grid.cells.getD (cY * grid.gridWidth + cX) default).objects l
        exact links_congr grid.entries g'.entries l _
          (fun p hp => hentry_other p.1 (hni p hp)) hl.links
      · rw [List.map_cons]
        refine List.nodup_cons.2 ⟨?_, hl.nodup⟩
        intro hmem
        rw [List.mem_map] at hmem
        obtain ⟨p, hp, hpe⟩ := hmem
        exact hni p hp hpe
      · intro p hp
        rcases List.mem_cons.1 hp with h | h
        · rw [h, hentries_size']
          exact hi_lt
        · rw [hentries_size']
          exact hl.bounds p h
      · intro p hp
        rcases List.mem_cons.1 hp with h | h
        · rw [h, hP, hstates1]
          exact agetD_setD_self _ _ _ _
            (by rw [hwf.poolwf.states_size, hwf.pool_cap, ← hwf.entries_size]; exact hi_lt)
        · rw [hP, hstates1, agetD_setD_ne _ _ _ _ _ (fun hh => hni p h hh.symm)]
          exact hl.alloc p h
      · intro p hp
        rcases List.mem_cons.1 hp with h | h
        · rw [h]
          show spatial_grid_get_cell_idx g' cX cY = _
          rw [hgetcell']
          exact hcell
        · rw [hgetcell']
          exact hl.cellmatch p h
      · rw [hcell_at]
        simp only [List.length_cons]
        rw [hl.count]
    have hGwf : GridWF g' := by
      constructor
      · rw [hcells_size', hd2, hd3]
        exact hwf.cells_size
      · rw [hd1]; exact hwf.cell_pos
      · rw [hd4, hd2, hd1]; exact hwf.world_w
      · rw [hd5, hd3, hd1]; exact hwf.world_h
      · rw [hentries_size', hd8]; exact hwf.entries_size
      · rw [hL]
        split
        · rw [hd8]
          simpa using hwf.lookup_size
        · rw [hd8]; exact hwf.lookup_size
      · rw [hP, a4, hd8]; exact hwf.pool_cap
      · rw [hP]; exact hpwf1
      · intro c hc
        rw [hcells_size'] at hc
        obtain ⟨l, hl⟩ := hwf.chains c hc
        by_cases hcc : c = cY * grid.gridWidth + cX
        · subst hcc
          exact ⟨_, hnewchain l hl⟩
        · exact ⟨l, htransfer c l hcc hl⟩
      · intro id j hj
        rw [hL] at hj
        by_cases hide : e.id < grid.maxObjects
        · rw [if_pos hide] at hj
          by_cases hid : id = e.id
          · subst hid
            rw [agetD_setD_self _ _ _ _ (by rw [hwf.lookup_size]; exact hide)] at hj
            simp only [Option.some.injEq] at hj
            subst hj
            obtain ⟨l, hl⟩ := hwf.chains (cY * grid.gridWidth + cX) hcidx_lt
            refine ⟨cY * grid.gridWidth + cX, _, by rw [hcells_size']; exact hcidx_lt,
              hnewchain l hl, ?_, ?_⟩
            · rw [hentry_at]
              exact List.mem_cons_self _ _
            · rw [hentry_at]
              rfl
          · rw [agetD_setD_ne _ _ _ _ _ (fun h => hid h.symm)] at hj
            obtain ⟨c, l, hc, hl, hmem, hidf⟩ := hwf.lookup id j hj
            have hjne : j ≠ allocIdx grid := by
              have := hstate_member l c hl (j, grid.entries.getD j default) hmem
              exact this
            by_cases hcc : c = cY * grid.gridWidth + cX
            · subst hcc
              refine ⟨cY * grid.gridWidth + cX, _, by rw [hcells_size']; exact hcidx_lt,
                hnewchain l hl, ?_, ?_⟩
              · rw [hentry_other j hjne]
                exact List.mem_cons_of_mem _ hmem
              · rw [hentry_other j hjne]
                exact hidf
            · refine ⟨c, l, by rw [hcells_size']; exact hc, htransfer c l hcc hl, ?_, ?_⟩
              · rw [hentry_other j hjne]
                exact hmem
              · rw [hentry_other j hjne]
                exact hidf
        · rw [if_neg hide] at hj
          obtain ⟨c, l, hc, hl, hmem, hidf⟩ := hwf.lookup id j hj
          have hjne : j ≠ allocIdx grid :=
            hstate_member l c hl (j, grid.entries.getD j default) hmem
          by_cases hcc : c = cY * grid.gridWidth + cX
          · subst hcc
            obtain ⟨l2, hl2⟩ := hwf.chains (cY * grid.gridWidth + cX) hcidx_lt
            have hll : l2 = l := links_functional _ _ _ _ hl2.links hl.links
            subst hll
            refine ⟨cY * grid.gridWidth + cX, _, by rw [hcells_size']; exact hcidx_lt,
              hnewchain l2 hl2, ?_, ?_⟩
            · rw [hentry_other j hjne]
              exact List.mem_cons_of_mem _ hmem
            · rw [hentry_other j hjne]
              exact hidf
          · refine ⟨c, l, by rw [hcells_size']; exact hc, htransfer c l hcc hl, ?_, ?_⟩
            · rw [hentry_other j hjne]
              exact hmem
            · rw [hentry_other j hjne]
              exact hidf
    have hcnt : ∀ id, entriesWithId g' id = entriesWithId grid id
        + (if true = true ∧ id = e.id then 1 else 0) := by
      intro id
      simp only [true_and]
      rw [entriesWithId, entriesWithId, hcells_size']
      apply sum_update_point grid.cells.size _ _ (cY * grid.gridWidth + cX) hcidx_lt
      · intro c hcn hc
        obtain ⟨l, hl⟩ := hwf.chains c hcn
        rw [gridChain_eq g' c l (htransfer c l hc hl), gridChain_eq grid c l hl]
      · obtain ⟨l, hl⟩ := hwf.chains (cY * grid.gridWidth + cX) hcidx_lt
        rw [gridChain_eq g' _ _ (hnewchain l hl), gridChain_eq grid _ l hl]
        simp only [List.filter_cons]
        split
        · rename_i hmatch
          simp only [List.length_cons]
          simp only [addedEntry] at hmatch
          have : id = e.id := by
            simpa using (of_decide_eq_true hmatch).symm
          rw [if_pos this]
        · rename_i hmatch
          simp only [addedEntry] at hmatch
          have : ¬ id = e.id := by
            intro h
            exact hmatch (by simp [h])
          rw [if_neg this]
          omega
    have hlkp : ∀ id, id < grid.maxObjects → g'.objectLookup.getD id none = none →
        grid.objectLookup.getD id none = none ∧ ¬ (true = true ∧ id = e.id) := by
      intro id hidlt hnone
      rw [hL] at hnone
      by_cases hide : e.id < grid.maxObjects
      · rw [if_pos hide] at hnone
        by_cases hid : id = e.id
        · subst hid
          rw [agetD_setD_self _ _ _ _ (by rw [hwf.lookup_size]; exact hide)] at hnone
          cases hnone
        · rw [agetD_setD_ne _ _ _ _ _ (fun h => hid h.symm)] at hnone
          exact ⟨hnone, by simp [hid]⟩
      · rw [if_neg hide] at hnone
        refine ⟨hnone, ?_⟩
        intro hcon
        exact hide (hcon.2 ▸ hidlt)
    have himp : (true = false → g' = grid) := fun h => by cases h
    have hchain : ∀ t2 cX2 cY2, some t = some t2 →
        spatial_grid_world_to_cell (some grid) t2.x t2.y = some (cX2, cY2) →
        ∃ l, ChainWF grid (cY2 * grid.gridWidth + cX2) l
          ∧ gridChain g' (cY2 * grid.gridWidth + cX2)
              = (allocIdx grid,
                  addedEntry grid e cX2 cY2 (cY2 * grid.gridWidth + cX2)) :: l
          ∧ ∀ c, c ≠ cY2 * grid.gridWidth + cX2 →
              gridChain g' c = gridChain grid c := by
      intro t2 cX2 cY2 ht2 hwc2
      injection ht2 with ht2
      subst ht2
      rw [hwc] at hwc2
      injection hwc2 with hwc2
      rw [Prod.mk.injEq] at hwc2
      obtain ⟨hx2, hy2⟩ := hwc2
      subst hx2
      subst hy2
      obtain ⟨l, hl⟩ := hwf.chains (cY * grid.gridWidth + cX) hcidx_lt
      refine ⟨l, hl, ?_, ?_⟩
      · rw [gridChain_eq g' _ _ (hnewchain l hl)]
      · intro c hc
        by_cases hcs2 : c < grid.cells.size
        · obtain ⟨l2, hl2⟩ := hwf.chains c hcs2
          rw [gridChain_eq g' c l2 (htransfer c l2 hc hl2),
            gridChain_eq grid c l2 hl2]
        · have hg1 : grid.cells.getD c default = default := by
            rw [agetD_def, dif_neg hcs2]
          have hg2 : g'.cells.getD c default = default := by
            rw [agetD_def, dif_neg (by rw [hcells_size']; exact hcs2)]
          rw [gridChain, gridChain, hg1, hg2, hentries_size']
          rfl
    exact ⟨g', true, hadd, hGwf, himp, hcnt, hd8, hlkp,
      fun _ => ⟨allocIdx grid, hL⟩, fun _ => hchain⟩

theorem findPrev_spec (entries : Array GridObjectEntry) :
    ∀ (l1 : List (Nat × GridObjectEntry)) (h : Option Nat) (t : Nat)
      (te : GridObjectEntry) (l2 : List (Nat × GridObjectEntry)) (fuel : Nat),
      Links entries h (l1 ++ (t, te) :: l2) →
      ((l1 ++ (t, te) :: l2).map Prod.fst).Nodup →
      l1 ≠ [] →
      l1.length ≤ fuel →
      ∃ p pe l1p, l1 = l1p ++ [(p, pe)] ∧ pe.next = some t
        ∧ entries.getD p default = pe
        ∧ findPrev entries fuel h t = some p := by
  intro l1
  induction l1 with
  | nil => intro h t te l2 fuel _ _ hne _; exact absurd rfl hne
  | cons a rest ih =>
    intro h t te l2 fuel hlinks hnodup _ hfuel
    cases a with
    | mk aj ae =>
      cases h with
      | none => simp [Links] at hlinks
      | some i =>
        obtain ⟨ha1, ha2, ha3⟩ := hlinks
        subst ha1
        cases fuel with
        | zero => simp at hfuel
        | succ fuel =>
          cases rest with
          | nil =>
            have hnext : ae.next = some t := by
              cases hn : ae.next with
              | none => rw [hn] at ha3; simp [Links] at ha3
              | some j =>
                rw [hn] at ha3
                obtain ⟨hj, _, _⟩ := ha3
                rw [hj]
            refine ⟨i, ae, [], by simp, hnext, ha2, ?_⟩
            simp only [findPrev, ha2, hnext, if_pos]
          | cons b rest2 =>
            have hbne : ae.next = some b.1 := by
              cases hn : ae.next with
              | none =>
                rw [hn] at ha3
                exact absurd ha3 (by cases b; simp [Links])
              | some j =>
                rw [hn] at ha3
                cases b with
                | mk bj be =>
                  obtain ⟨hj, _, _⟩ := ha3
                  rw [hj]
            have hbt : b.1 ≠ t := by
              simp only [List.cons_append, List.map_cons] at hnodup
              intro hcon
              have h1 := (List.nodup_cons.1 hnodup).2
              have h2 := (List.nodup_cons.1 h1).1
              apply h2
              rw [List.map_append, List.map_cons]
              apply List.mem_append.2
              right
              rw [hcon]
              exact List.mem_cons_self _ _
            have hnodup2 : (List.map Prod.fst ((b :: rest2) ++ (t, te) :: l2)).Nodup := by
              simp only [List.cons_append, List.map_cons] at hnodup ⊢
              exact (List.nodup_cons.1 hnodup).2
            have hfuel2 : (b :: rest2).length ≤ fuel := by
              simp only [List.length_cons] at hfuel ⊢
              omega
            obtain ⟨p, pe, l1p, hsplit, hnext, hgd, hfind⟩ :=
              ih ae.next t te l2 fuel ha3 hnodup2 (by simp) hfuel2
            refine ⟨p, pe, (i, ae) :: l1p, by rw [hsplit]; rfl, hnext, hgd, ?_⟩
            simp only [findPrev, ha2]
            rw [if_neg (by rw [hbne]; intro hcon; exact hbt (by injection hcon))]
            exact hfind

theorem unlink_links (entries : Array GridObjectEntry) (p : Nat) (pe te : GridObjectEntry)
    (t : Nat) (hp : p < entries.size) :
    ∀ (l1p l2 : List (Nat × GridObjectEntry)) (h : Option Nat),
      Links entries h (l1p ++ (p, pe) :: (t, te) :: l2) →
      ((l1p ++ (p, pe) :: (t, te) :: l2).map Prod.fst).Nodup →
      Links (entries.setD p { pe with next := te.next }) h
        (l1p ++ (p, { pe with next := te.next }) :: l2) := by
  intro l1p
  induction l1p with
  | nil =>
    intro l2 h hlinks hnodup
    cases h with
    | none => simp [Links] at hlinks
    | some i =>
      obtain ⟨hi, hgd, hrest⟩ := hlinks
      subst hi
      have hpnext : pe.next = some t := by
        cases hn : pe.next with
        | none => rw [hn] at hrest; simp [Links] at hrest
        | some j =>
          rw [hn] at hrest
          obtain ⟨hj, _, _⟩ := hrest
          rw [hj]
      rw [hpnext] at hrest
      obtain ⟨_, hgdt, hl2⟩ := hrest
      refine ⟨rfl, agetD_setD_self _ _ _ _ hp, ?_⟩
      show Links (entries.setD i { pe with next := te.next }) te.next l2
      apply links_congr entries _ l2 te.next ?_ hl2
      intro q hq
      apply agetD_setD_ne
      intro hcon
      simp only [List.nil_append, List.map_cons] at hnodup
      apply (List.nodup_cons.1 hnodup).1
      apply List.mem_cons_of_mem
      rw [hcon]
      exact List.mem_map_of_mem Prod.fst hq
  | cons a restp ih =>
    intro l2 h hlinks hnodup
    cases a with
    | mk aj ae =>
      cases h with
      | none => simp [Links] at hlinks
      | some i =>
        obtain ⟨hi, hgd, hrest⟩ := hlinks
        subst hi
        have hane : i ≠ p := by
          intro hcon
          simp only [List.cons_append, List.map_cons] at hnodup
          apply (List.nodup_cons.1 hnodup).1
          rw [List.map_append, List.map_cons]
          apply List.mem_append.2
          right
          rw [← hcon]
          exact List.mem_cons_self _ _
        have hnodup2 : ((restp ++ (p, pe) :: (t, te) :: l2).map Prod.fst).Nodup := by
          simp only [List.cons_append, List.map_cons] at hnodup
          exact (List.nodup_cons.1 hnodup).2
        refine ⟨rfl, ?_, ?_⟩
        · rw [agetD_setD_ne entries p i _ default (fun hh => hane hh.symm)]
          exact hgd
        · show Links (entries.setD p { pe with next := te.next }) ae.next
            (restp ++ (p, { pe with next := te.next }) :: l2)
          exact ih l2 ae.next hrest hnodup2

theorem links_member_snd (entries : Array GridObjectEntry) :
    ∀ (l : List (Nat × GridObjectEntry)) (h : Option Nat),
      Links entries h l → ∀ p ∈ l, entries.getD p.1 default = p.2 := by
  intro l
  induction l with
  | nil => intro h _ p hp; cases hp
  | cons a t ih =>
    intro h hlinks p hp
    cases a with
    | mk aj ae =>
      cases h with
      | none => simp [Links] at hlinks
      | some i =>
        obtain ⟨hi, hgd, hrest⟩ := hlinks
        subst hi
        rcases List.mem_cons.1 hp with h | h
        · rw [h]; exact hgd
        · exact ih ae.next hrest p h

theorem chainWF_unique (grid : SpatialGrid) (c : Nat) (l1 l2 : List (Nat × GridObjectEntry))
    (h1 : ChainWF grid c l1) (h2 : ChainWF grid c l2) : l1 = l2 :=
  links_functional _ _ _ _ h1.links h2.links

/-- The unlink step of spatial_grid_remove_object: the new head pointer of the
cell's list and the (possibly) updated entry arena. -/
def unlinkResult (grid : SpatialGrid) (entryIdx c : Nat) :
    Option Nat × Array GridObjectEntry :=
  let entry := grid.entries.getD entryIdx default
  let cell := grid.cells.getD c default
  if cell.objects = some entryIdx then (entry.next, grid.entries)
  else
    match findPrev grid.entries grid.entries.size cell.objects entryIdx with
    | some prevIdx =>
      let prev := grid.entries.getD prevIdx default
      (cell.objects, grid.entries.setD prevIdx { prev with next := entry.next })
    | none => (cell.objects, grid.entries)

theorem remove_success_characterized (grid : SpatialGrid) (e : GameObject)
    (entryIdx c : Nat)
    (hmax : ¬ grid.maxObjects ≤ e.id)
    (hlk : grid.objectLookup.getD e.id none = some entryIdx)
    (hcellm : spatial_grid_get_cell_idx grid
      (grid.entries.getD entryIdx default).cellX
      (grid.entries.getD entryIdx default).cellY = some c) :
    ∃ g', spatial_grid_remove_object (some grid) (some e) = (some g', true)
      ∧ g'.entries = (unlinkResult grid entryIdx c).2
      ∧ (∃ dirtyFlag, g'.cells = grid.cells.setD c
          { objects := (unlinkResult grid entryIdx c).1
            objectCount := (grid.cells.getD c default).objectCount - 1
            maxObjects := (grid.cells.getD c default).maxObjects
            dirty := dirtyFlag })
      ∧ g'.objectLookup = grid.objectLookup.setD e.id none
      ∧ g'.entryPool = (object_pool_free (some grid.entryPool)
          (some (entryIdx * grid.entryPool.elementSize))).1.getD grid.entryPool
      ∧ g'.totalObjects = grid.totalObjects - 1
      ∧ g'.cellSize = grid.cellSize ∧ g'.gridWidth = grid.gridWidth
      ∧ g'.gridHeight = grid.gridHeight ∧ g'.worldWidth = grid.worldWidth
      ∧ g'.worldHeight = grid.worldHeight ∧ g'.offsetX = grid.offsetX
      ∧ g'.offsetY = grid.offsetY ∧ g'.maxObjects = grid.maxObjects := by
  simp only [spatial_grid_remove_object, game_object_get_id, if_neg hmax, hlk, hcellm]
  simp only [apply_ite Prod.fst, apply_ite Prod.snd, apply_ite SpatialGrid.cells,
    apply_ite SpatialGrid.cellsWithObjects, apply_ite SpatialGrid.entries,
    apply_ite SpatialGrid.entryPool, apply_ite SpatialGrid.objectLookup,
    apply_ite SpatialGrid.totalObjects, apply_ite SpatialGrid.cellSize,
    apply_ite SpatialGrid.gridWidth, apply_ite SpatialGrid.gridHeight,
    apply_ite SpatialGrid.worldWidth, apply_ite SpatialGrid.worldHeight,
    apply_ite SpatialGrid.offsetX, apply_ite SpatialGrid.offsetY,
    apply_ite SpatialGrid.maxObjects, apply_ite SpatialGrid.queriesPerFrame,
    apply_ite SpatialGrid.collisionChecksPerFrame,
    apply_ite SpatialGrid.enableStaticOptimization,
    apply_ite SpatialGrid.enableFrustumCulling,
    apply_ite SpatialGrid.maxObjectsPerCell,
    apply_ite GridCell.objects, apply_ite GridCell.objectCount,
    apply_ite GridCell.maxObjects, apply_ite GridCell.dirty, ite_self]
  by_cases hhead : (grid.cells.getD c default).objects = some entryIdx
  · simp only [if_pos hhead]
    have hur1 : (unlinkResult grid entryIdx c).1
        = (grid.entries.getD entryIdx default).next := by
      simp only [unlinkResult]
      rw [if_pos hhead]
    have hur2 : (unlinkResult grid entryIdx c).2 = grid.entries := by
      simp only [unlinkResult]
      rw [if_pos hhead]
    by_cases hz : (grid.cells.getD c default).objectCount - 1 = 0 <;>
      (first | simp only [if_pos hz] | simp only [if_neg hz]) <;>
      exact ⟨_, rfl, by rw [hur2], ⟨_, by rw [hur1]⟩, rfl, rfl, rfl, rfl, rfl, rfl,
        rfl, rfl, rfl, rfl, rfl⟩
  · simp only [if_neg hhead]
    cases hfp : findPrev grid.entries grid.entries.size
        (grid.cells.getD c default).objects entryIdx with
    | some prevIdx =>
      simp only [hfp]
      have hur1 : (unlinkResult grid entryIdx c).1
          = (grid.cells.getD c default).objects := by
        simp only [unlinkResult]
        rw [if_neg hhead, hfp]
      have hur2 : (unlinkResult grid entryIdx c).2
          = grid.entries.setD prevIdx
              { grid.entries.getD prevIdx default with
                next := (grid.entries.getD entryIdx default).next } := by
        simp only [unlinkResult]
        rw [if_neg hhead, hfp]
      by_cases hz : (grid.cells.getD c default).objectCount - 1 = 0 <;>
        (first | simp only [if_pos hz] | simp only [if_neg hz]) <;>
        exact ⟨_, rfl, by rw [hur2], ⟨_, by rw [hur1]⟩, rfl, rfl, rfl, rfl, rfl, rfl,
          rfl, rfl, rfl, rfl, rfl⟩
    | none =>
      simp only [hfp]
      have hur1 : (unlinkResult grid entryIdx c).1
          = (grid.cells.getD c default).objects := by
        simp only [unlinkResult]
        rw [if_neg hhead, hfp]
      have hur2 : (unlinkResult grid entryIdx c).2 = grid.entries := by
        simp only [unlinkResult]
        rw [if_neg hhead, hfp]
      by_cases hz : (grid.cells.getD c default).objectCount - 1 = 0 <;>
        (first | simp only [if_pos hz] | simp only [if_neg hz]) <;>
        exact ⟨_, rfl, by rw [hur2], ⟨_, by rw [hur1]⟩, rfl, rfl, rfl, rfl, rfl, rfl,
          rfl, rfl, rfl, rfl, rfl⟩

theorem chainWF_transfer (grid gNew : SpatialGrid) (c2 : Nat)
    (l2 : List (Nat × GridObjectEntry)) (h2 : ChainWF grid c2 l2)
    (hcell : gNew.cells.getD c2 default = grid.cells.getD c2 default)
    (hent : ∀ q ∈ l2, gNew.entries.getD q.1 default = grid.entries.getD q.1 default)
    (hst : ∀ q ∈ l2, gNew.entryPool.objectStates.getD q.1 false = true)
    (hes : gNew.entries.size = grid.entries.size)
    (hw : gNew.gridWidth = grid.gridWidth) (hh : gNew.gridHeight = grid.gridHeight) :
    ChainWF gNew c2 l2 := by
  constructor
  · rw [hcell]
    exact links_congr grid.entries gNew.entries l2 _ hent h2.links
  · exact h2.nodup
  · intro p hp
    rw [hes]
    exact h2.bounds p hp
  · exact hst
  · intro p hp
    rw [get_cell_idx_congr grid gNew hw hh]
    exact h2.cellmatch p hp
  · rw [hcell]
    exact h2.count

theorem chainWF_remove_head (grid gNew : SpatialGrid) (c t : Nat)
    (l2 : List (Nat × GridObjectEntry))
    (hl : ChainWF grid c ((t, grid.entries.getD t default) :: l2))
    (hcell_obj : (gNew.cells.getD c default).objects
        = (grid.entries.getD t default).next)
    (hcount : (gNew.cells.getD c default).objectCount
        = (grid.cells.getD c default).objectCount - 1)
    (hent : ∀ q ∈ l2, gNew.entries.getD q.1 default = grid.entries.getD q.1 default)
    (hst : ∀ q ∈ l2, gNew.entryPool.objectStates.getD q.1 false = true)
    (hes : gNew.entries.size = grid.entries.size)
    (hw : gNew.gridWidth = grid.gridWidth) (hh : gNew.gridHeight = grid.gridHeight) :
    ChainWF gNew c l2 := by
  have hlinks := hl.links
  have hrest : Links grid.entries (grid.entries.getD t default).next l2 := by
    cases hh2 : (grid.cells.getD c default).objects with
    | none => rw [hh2] at hlinks; simp [Links] at hlinks
    | some j =>
      rw [hh2] at hlinks
      obtain ⟨_, _, hr⟩ := hlinks
      exact hr
  constructor
  · rw [hcell_obj]
    exact links_congr grid.entries gNew.entries l2 _ hent hrest
  · exact (List.nodup_cons.1 (by simpa using hl.nodup)).2
  · intro p hp
    rw [hes]
    exact hl.bounds p (List.mem_cons_of_mem _ hp)
  · exact hst
  · intro p hp
    rw [get_cell_idx_congr grid gNew hw hh]
    exact hl.cellmatch p (List.mem_cons_of_mem _ hp)
  · rw [hcount, hl.count]
    simp

theorem chainWF_remove_mid (grid gNew : SpatialGrid) (c t p : Nat)
    (pe : GridObjectEntry) (l1p l2 : List (Nat × GridObjectEntry))
    (hl : ChainWF grid c ((l1p ++ [(p, pe)]) ++ (t, grid.entries.getD t default) :: l2))
    (hp_lt : p < grid.entries.size)
    (hcell_obj : (gNew.cells.getD c default).objects
        = (grid.cells.getD c default).objects)
    (hcount : (gNew.cells.getD c default).objectCount
        = (grid.cells.getD c default).objectCount - 1)
    (hE : gNew.entries = grid.entries.setD p
        { pe with next := (grid.entries.getD t default).next })
    (hst : ∀ j, j ≠ t →
        gNew.entryPool.objectStates.getD j false
          = grid.entryPool.objectStates.getD j false)
    (hstT : ∀ q, q ∈ (l1p ++ [(p, pe)]) ++ (t, grid.entries.getD t default) :: l2 →
        grid.entryPool.objectStates.getD q.1 false = true)
    (hw : gNew.gridWidth = grid.gridWidth) (hh : gNew.gridHeight = grid.gridHeight) :
    ChainWF gNew c
      (l1p ++ (p, { pe with next := (grid.entries.getD t default).next }) :: l2) := by
  have hassoc : (l1p ++ [(p, pe)]) ++ (t, grid.entries.getD t default) :: l2
      = l1p ++ (p, pe) :: (t, grid.entries.getD t default) :: l2 := by
    simp
  have hlinks' := hl.links
  rw [hassoc] at hlinks'
  have hnodupL := hl.nodup
  rw [hassoc] at hnodupL
  have hes : gNew.entries.size = grid.entries.size := by
    rw [hE]
    simp
  have hmemold : ∀ q : Nat × GridObjectEntry, q ∈ l1p ∨ q ∈ l2 →
      q ∈ (l1p ++ [(p, pe)]) ++ (t, grid.entries.getD t default) :: l2 := by
    intro q hq
    simp only [List.mem_append, List.mem_cons, List.mem_singleton]
    tauto
  have hpmem : (p, pe) ∈ (l1p ++ [(p, pe)]) ++ (t, grid.entries.getD t default) :: l2 := by
    simp
  have hnodup' : (l1p.map Prod.fst ++ p :: t :: l2.map Prod.fst).Nodup := by
    simpa [List.map_append, List.map_cons] using hnodupL
  obtain ⟨hn1, hn2, hdisj2⟩ := List.nodup_append.1 hnodup'
  have ht_not_l2 : t ∉ l2.map Prod.fst := (List.nodup_cons.1 (List.nodup_cons.1 hn2).2).1
  have hp_ne_t : p ≠ t := by
    have hx := (List.nodup_cons.1 hn2).1
    intro hcon
    exact hx (hcon ▸ List.mem_cons_self _ _)
  have ht_not_l1 : t ∉ l1p.map Prod.fst := by
    intro hcon
    exact hdisj2 hcon (List.mem_cons_of_mem _ (List.mem_cons_self _ _))
  have hne_t : ∀ q : Nat × GridObjectEntry, q ∈ l1p ∨ q ∈ l2 → q.1 ≠ t := by
    intro q hq hqt
    rcases hq with hmm | hmm
    · apply ht_not_l1
      rw [← hqt]
      exact List.mem_map_of_mem Prod.fst hmm
    · apply ht_not_l2
      rw [← hqt]
      exact List.mem_map_of_mem Prod.fst hmm
  constructor
  · rw [hcell_obj, hE]
    exact unlink_links grid.entries p pe (grid.entries.getD t default) t hp_lt
      l1p l2 _ hlinks' hnodupL
  · have hsub1 : (l2.map Prod.fst).Sublist (t :: l2.map Prod.fst) :=
      List.Sublist.cons t (List.Sublist.refl _)
    have hsub2 : (p :: l2.map Prod.fst).Sublist (p :: t :: l2.map Prod.fst) :=
      hsub1.cons₂ p
    have hsub3 := hsub2.append_left (l1p.map Prod.fst)
    have hgoal : (l1p.map Prod.fst ++ p :: l2.map Prod.fst).Nodup :=
      List.Nodup.sublist hsub3 hnodup'
    simpa [List.map_append, List.map_cons] using hgoal
  · intro q hq
    rw [hes]
    rcases List.mem_append.1 hq with hmm | hmm
    · exact hl.bounds q (hmemold q (Or.inl hmm))
    · rcases List.mem_cons.1 hmm with hq' | hq'
      · rw [hq']
        exact hp_lt
      · exact hl.bounds q (hmemold q (Or.inr hq'))
  · intro q hq
    rcases List.mem_append.1 hq with hmm | hmm
    · rw [hst q.1 (hne_t q (Or.inl hmm))]
      exact hstT q (hmemold q (Or.inl hmm))
    · rcases List.mem_cons.1 hmm with hq' | hq'
      · have hpp : gNew.entryPool.objectStates.getD p false = true := by
          rw [hst p hp_ne_t]
          exact hstT (p, pe) hpmem
        rw [hq']
        exact hpp
      · rw [hst q.1 (hne_t q (Or.inr hq'))]
        exact hstT q (hmemold q (Or.inr hq'))
  · intro q hq
    rw [get_cell_idx_congr grid gNew hw hh]
    rcases List.mem_append.1 hq with hmm | hmm
    · exact hl.cellmatch q (hmemold q (Or.inl hmm))
    · rcases List.mem_cons.1 hmm with hq' | hq'
      · rw [hq']
        exact hl.cellmatch (p, pe) hpmem
      · exact hl.cellmatch q (hmemold q (Or.inr hq'))
  · rw [hcount, hl.count]
    simp only [List.length_append, List.length_cons, List.length_nil]
    omega

theorem length_filter_cons {α : Type} (P : α → Bool) (a : α) (l : List α) :
    ((a :: l).filter P).length = (l.filter P).length + (if P a = true then 1 else 0) := by
  rw [List.filter_cons]
  by_cases hx : P a = true
  · rw [if_pos hx, if_pos hx]
    simp
  · rw [if_neg hx, if_neg hx]
    omega

/-- Rebuild lemma for the removal path: given the surgically updated chain of
the affected cell and transfer facts for the untouched cells, the new grid is
well-formed and the per-id entry counts drop by exactly one at the removed id. -/
theorem gridWF_remove_rebuild (grid g' : SpatialGrid) (hwf : GridWF grid) (e : GameObject)
    (t c : Nat) (l newChain : List (Nat × GridObjectEntry))
    (hc : c < grid.cells.size)
    (hl : ChainWF grid c l)
    (hidf : (grid.entries.getD t default).gameObject.id = e.id)
    (hemax : e.id < grid.maxObjects)
    (hnew : ChainWF g' c newChain)
    (htransfer : ∀ c2 l₂, c2 ≠ c → ChainWF grid c2 l₂ → ChainWF g' c2 l₂)
    (hmemnew : ∀ j, j ≠ t → (j, grid.entries.getD j default) ∈ l →
        (j, g'.entries.getD j default) ∈ newChain
          ∧ (g'.entries.getD j default).gameObject.id
            = (grid.entries.getD j default).gameObject.id)
    (hfilter : ∀ id, (l.filter fun q => q.2.gameObject.id = id).length
        = (newChain.filter fun q => q.2.gameObject.id = id).length
          + (if id = e.id then 1 else 0))
    (hcells_size' : g'.cells.size = grid.cells.size)
    (hentries_size' : g'.entries.size = grid.entries.size)
    (hL : g'.objectLookup = grid.objectLookup.setD e.id none)
    (hpool_cap' : g'.entryPool.capacity = grid.maxObjects)
    (hpoolWF' : PoolWF g'.entryPool)
    (hd1 : g'.cellSize = grid.cellSize) (hd2 : g'.gridWidth = grid.gridWidth)
    (hd3 : g'.gridHeight = grid.gridHeight) (hd4 : g'.worldWidth = grid.worldWidth)
    (hd5 : g'.worldHeight = grid.worldHeight) (hd8 : g'.maxObjects = grid.maxObjects) :
    GridWF g'
      ∧ (∀ id, entriesWithId grid id
          = entriesWithId g' id + (if id = e.id then 1 else 0)) := by
  constructor
  · constructor
    · rw [hcells_size', hd2, hd3]
      exact hwf.cells_size
    · rw [hd1]; exact hwf.cell_pos
    · rw [hd4, hd2, hd1]; exact hwf.world_w
    · rw [hd5, hd3, hd1]; exact hwf.world_h
    · rw [hentries_size', hd8]; exact hwf.entries_size
    · rw [hL, hd8]
      simpa using hwf.lookup_size
    · rw [hd8]; exact hpool_cap'
    · exact hpoolWF'
    · intro c2 hc2
      rw [hcells_size'] at hc2
      by_cases hcc : c2 = c
      · subst hcc
        exact ⟨newChain, hnew⟩
      · obtain ⟨l₂, h2⟩ := hwf.chains c2 hc2
        exact ⟨l₂, htransfer c2 l₂ hcc h2⟩
    · intro id j hj
      rw [hL] at hj
      by_cases hid : id = e.id
      · subst hid
        rw [agetD_setD_self _ _ _ _ (by rw [hwf.lookup_size]; exact hemax)] at hj
        cases hj
      · rw [agetD_setD_ne _ _ _ _ _ (fun hx => hid hx.symm)] at hj
        obtain ⟨c2, l₂, hc2, h2, hmem2, hidf2⟩ := hwf.lookup id j hj
        have hjt : j ≠ t := by
          intro hx
          apply hid
          rw [← hidf2, hx]
          exact hidf
        by_cases hcc : c2 = c
        · subst hcc
          have hleq : l₂ = l := chainWF_unique grid c2 l₂ l h2 hl
          rw [hleq] at hmem2
          obtain ⟨hmemN, hidN⟩ := hmemnew j hjt hmem2
          refine ⟨c2, newChain, by rw [hcells_size']; exact hc, hnew, hmemN, ?_⟩
          rw [hidN]
          exact hidf2
        · have hwf2 := htransfer c2 l₂ hcc h2
          have hent2 : g'.entries.getD j default = grid.entries.getD j default :=
            links_member_snd g'.entries l₂ _ hwf2.links (j, grid.entries.getD j default)
              hmem2
          refine ⟨c2, l₂, by rw [hcells_size']; exact hc2, hwf2, ?_, ?_⟩
          · rw [hent2]; exact hmem2
          · rw [hent2]; exact hidf2
  · intro id
    have hsame : ∀ c2, c2 < grid.cells.size → c2 ≠ c →
        ((gridChain grid c2).filter fun q => q.2.gameObject.id = id).length
          = ((gridChain g' c2).filter fun q => q.2.gameObject.id = id).length := by
      intro c2 hc2 hcc
      obtain ⟨l₂, h2⟩ := hwf.chains c2 hc2
      rw [gridChain_eq grid c2 l₂ h2, gridChain_eq g' c2 l₂ (htransfer c2 l₂ hcc h2)]
    have hdiff : ((gridChain grid c).filter fun q => q.2.gameObject.id = id).length
        = ((gridChain g' c).filter fun q => q.2.gameObject.id = id).length
          + (if id = e.id then 1 else 0) := by
      rw [gridChain_eq grid c l hl, gridChain_eq g' c newChain hnew]
      exact hfilter id
    rw [entriesWithId, entriesWithId, hcells_size']
    exact sum_update_point grid.cells.size _ _ c hc _ hsame hdiff

theorem remove_preserved (grid : SpatialGrid) (hwf : GridWF grid) (e : GameObject) :
    ∃ g' b, spatial_grid_remove_object (some grid) (some e) = (some g', b) ∧ GridWF g'
      ∧ (b = false → g' = grid)
      ∧ (b = true →
          1 ≤ entriesWithId grid e.id
          ∧ entriesWithId g' e.id = entriesWithId grid e.id - 1
          ∧ (∀ id, id ≠ e.id → entriesWithId g' id = entriesWithId grid id)
          ∧ g'.objectLookup = grid.objectLookup.setD e.id none)
      ∧ g'.maxObjects = grid.maxObjects
      ∧ (b = true ↔ e.id < grid.maxObjects
          ∧ ¬ grid.objectLookup.getD e.id none = none) := by
  by_cases hmax : grid.maxObjects ≤ e.id
  · refine ⟨grid, false, ?_, hwf, fun _ => rfl, ?_, rfl, ?_⟩
    · simp [spatial_grid_remove_object, game_object_get_id, hmax]
    · intro h
      cases h
    · constructor
      · intro h
        cases h
      · intro hx
        exact absurd hx.1 (by omega)
  · cases hlk : grid.objectLookup.getD e.id none with
    | none =>
      refine ⟨grid, false, ?_, hwf, fun _ => rfl, ?_, rfl, ?_⟩
      · simp only [spatial_grid_remove_object, game_object_get_id, if_neg hmax, hlk]
      · intro h
        cases h
      · constructor
        · intro h
          cases h
        · intro hx
          exact absurd rfl hx.2
    | some t =>
      obtain ⟨c, l, hc, hl, hmem, hidf⟩ := hwf.lookup e.id t hlk
      have hcellm : spatial_grid_get_cell_idx grid
          (grid.entries.getD t default).cellX
          (grid.entries.getD t default).cellY = some c := hl.cellmatch _ hmem
      obtain ⟨g', hrm, hE, ⟨dflag, hC⟩, hL, hP, hT,
        hd1, hd2, hd3, hd4, hd5, hd6, hd7, hd8⟩ :=
        remove_success_characterized grid e t c hmax hlk hcellm
      obtain ⟨l1, l2, hsplit⟩ := List.append_of_mem hmem
      have ht_lt : t < grid.entries.size := hl.bounds _ hmem
      have ht_cap : t < grid.entryPool.capacity := by
        rw [hwf.pool_cap, ← hwf.entries_size]
        exact ht_lt
      have ht_state : grid.entryPool.objectStates.getD t false = true := hl.alloc _ hmem
      obtain ⟨poolF, hfree, f1, f2, f3, f4, f5, f6⟩ :=
        free_success_fields grid.entryPool hwf.poolwf t ht_cap ht_state
      have hPF : g'.entryPool = poolF := by
        rw [hP, hfree]
        rfl
      have hpwfF : PoolWF poolF :=
        poolWF_free_aux grid.entryPool poolF hwf.poolwf t ht_cap ht_state f1 f2 f3 f4 f5 f6
      have hst_ne : ∀ j, j ≠ t → g'.entryPool.objectStates.getD j false
          = grid.entryPool.objectStates.getD j false := by
        intro j hj
        rw [hPF, f6]
        exact agetD_setD_ne _ _ _ _ _ (fun hx => hj hx.symm)
      have hcells_size' : g'.cells.size = grid.cells.size := by
        rw [hC]
        simp
      have hur_size : (unlinkResult grid t c).2.size = grid.entries.size := by
        simp only [unlinkResult]
        by_cases hx : (grid.cells.getD c default).objects = some t
        · rw [if_pos hx]
        · rw [if_neg hx]
          cases hfp : findPrev grid.entries grid.entries.size
              (grid.cells.getD c default).objects t with
          | some prevIdx => simp
          | none => rfl
      have hentries_size' : g'.entries.size = grid.entries.size := by
        rw [hE]
        exact hur_size
      have hcell_at : g'.cells.getD c default
          = { objects := (unlinkResult grid t c).1
              objectCount := (grid.cells.getD c default).objectCount - 1
              maxObjects := (grid.cells.getD c default).maxObjects
              dirty := dflag } := by
        rw [hC]
        exact agetD_setD_self _ _ _ _ hc
      have hcell_other : ∀ c2, c2 ≠ c →
          g'.cells.getD c2 default = grid.cells.getD c2 default := by
        intro c2 hcc
        rw [hC]
        exact agetD_setD_ne _ _ _ _ _ (fun hx => hcc hx.symm)
      have hcount' : (g'.cells.getD c default).objectCount
          = (grid.cells.getD c default).objectCount - 1 := by
        rw [hcell_at]
      have hcobj : (g'.cells.getD c default).objects = (unlinkResult grid t c).1 := by
        rw [hcell_at]
      have hdisj_t : ∀ c2 l₂, ChainWF grid c2 l₂ → ∀ q ∈ l₂, q.1 = t → c2 = c := by
        intro c2 l₂ h2 q hq hqt
        have hq2 := links_member_snd grid.entries l₂ _ h2.links q hq
        have h1 := h2.cellmatch q hq
        rw [← hq2, hqt] at h1
        rw [hcellm] at h1
        injection h1 with h1
        exact h1.symm
      have hemax : e.id < grid.maxObjects := by omega
      by_cases hhead : (grid.cells.getD c default).objects = some t
      · have hur1 : (unlinkResult grid t c).1 = (grid.entries.getD t default).next := by
          simp only [unlinkResult]
          rw [if_pos hhead]
        have hur2 : (unlinkResult grid t c).2 = grid.entries := by
          simp only [unlinkResult]
          rw [if_pos hhead]
        have hE' : g'.entries = grid.entries := by
          rw [hE, hur2]
        have hl1nil : l1 = [] := by
          cases hq1 : l1 with
          | nil => rfl
          | cons a rest =>
            exfalso
            obtain ⟨aj, ae⟩ := a
            have hlk2 := hl.links
            rw [hsplit, hq1, hhead] at hlk2
            obtain ⟨hta, _, _⟩ := hlk2
            have hnd := hl.nodup
            rw [hsplit, hq1] at hnd
            simp only [List.cons_append, List.map_cons, List.map_append] at hnd
            have hni := (List.nodup_cons.1 hnd).1
            apply hni
            rw [← hta]
            exact List.mem_append.2 (Or.inr (List.mem_cons_self _ _))
        have hlA : ChainWF grid c ((t, grid.entries.getD t default) :: l2) := by
          have hx := hl
          rw [hsplit, hl1nil, List.nil_append] at hx
          exact hx
        have ht_not_l2 : t ∉ l2.map Prod.fst := by
          have hnd := hlA.nodup
          simp only [List.map_cons] at hnd
          exact (List.nodup_cons.1 hnd).1
        have hnewA : ChainWF g' c l2 :=
          chainWF_remove_head grid g' c t l2 hlA
            (by rw [hcobj, hur1]) hcount'
            (fun q hq => by rw [hE'])
            (fun q hq => by
              have hqt : q.1 ≠ t := fun hx =>
                ht_not_l2 (hx ▸ List.mem_map_of_mem Prod.fst hq)
              rw [hst_ne q.1 hqt]
              exact hlA.alloc q (List.mem_cons_of_mem _ hq))
            hentries_size' hd2 hd3
        have htransferA : ∀ c2 l₂, c2 ≠ c → ChainWF grid c2 l₂ → ChainWF g' c2 l₂ := by
          intro c2 l₂ hcc h2
          refine chainWF_transfer grid g' c2 l₂ h2 (hcell_other c2 hcc)
            (fun q hq => by rw [hE']) ?_ hentries_size' hd2 hd3
          intro q hq
          have hqt : q.1 ≠ t := fun hx => hcc (hdisj_t c2 l₂ h2 q hq hx)
          rw [hst_ne q.1 hqt]
          exact h2.alloc q hq
        have hmemnewA : ∀ j, j ≠ t → (j, grid.entries.getD j default) ∈ l →
            (j, g'.entries.getD j default) ∈ l2
              ∧ (g'.entries.getD j default).gameObject.id
                = (grid.entries.getD j default).gameObject.id := by
          intro j hjt hjmem
          rw [hsplit, hl1nil, List.nil_append] at hjmem
          rcases List.mem_cons.1 hjmem with hx | hx
          · exact absurd (congrArg Prod.fst hx) hjt
          · exact ⟨by rw [hE']; exact hx, by rw [hE']⟩
        have hfilterA : ∀ id, (l.filter fun q => q.2.gameObject.id = id).length
            = (l2.filter fun q => q.2.gameObject.id = id).length
              + (if id = e.id then 1 else 0) := by
          intro id
          rw [hsplit, hl1nil, List.nil_append]
          simp only [length_filter_cons]
          by_cases hid : id = e.id
          · have hPa : (grid.entries.getD t default).gameObject.id = id := by
              rw [hidf]
              exact hid.symm
            rw [if_pos hid, if_pos (decide_eq_true hPa)]
          · have hPa : ¬ (grid.entries.getD t default).gameObject.id = id := by
              rw [hidf]
              exact fun hy => hid hy.symm
            rw [if_neg hid, if_neg (fun hcc => hPa (of_decide_eq_true hcc))]
        obtain ⟨hGwf, hcnt⟩ := gridWF_remove_rebuild grid g' hwf e t c l l2 hc hl hidf
          hemax hnewA htransferA hmemnewA hfilterA
          hcells_size' hentries_size' hL (by rw [hPF, f4]; exact hwf.pool_cap)
          (by rw [hPF]; exact hpwfF) hd1 hd2 hd3 hd4 hd5 hd8
        refine ⟨g', true, hrm, hGwf, ?_, ?_, hd8,
          ⟨fun _ => ⟨hemax, by simp⟩, fun _ => rfl⟩⟩
        · intro h
          cases h
        · intro _
          refine ⟨?_, ?_, ?_, hL⟩
          · have hx := hcnt e.id
            rw [if_pos (rfl : e.id = e.id)] at hx
            omega
          · have hx := hcnt e.id
            rw [if_pos (rfl : e.id = e.id)] at hx
            omega
          · intro id hident
            have hx := hcnt id
            rw [if_neg hident] at hx
            omega
      · have hl1ne : l1 ≠ [] := by
          intro hnil
          apply hhead
          have hlk2 := hl.links
          rw [hsplit, hnil, List.nil_append] at hlk2
          cases hcase : (grid.cells.getD c default).objects with
          | none =>
            rw [hcase] at hlk2
            simp [Links] at hlk2
          | some j =>
            rw [hcase] at hlk2
            obtain ⟨hj, _, _⟩ := hlk2
            rw [hj]
        have hlinks2 : Links grid.entries (grid.cells.getD c default).objects
            (l1 ++ (t, grid.entries.getD t default) :: l2) := by
          have hx := hl.links
          rw [hsplit] at hx
          exact hx
        have hnodup2 : ((l1 ++ (t, grid.entries.getD t default) :: l2).map
            Prod.fst).Nodup := by
          have hx := hl.nodup
          rw [hsplit] at hx
          exact hx
        have hllen : l.length ≤ grid.entries.size :=
          nodup_length_le l _ hl.nodup hl.bounds
        have hl1len : l1.length ≤ grid.entries.size := by
          rw [hsplit] at hllen
          simp only [List.length_append, List.length_cons] at hllen
          omega
        obtain ⟨p, pe, l1p, hsplit1, hpnext, hgdp, hfind⟩ :=
          findPrev_spec grid.entries l1 _ t (grid.entries.getD t default) l2
            grid.entries.size hlinks2 hnodup2 hl1ne hl1len
        have hur1 : (unlinkResult grid t c).1 = (grid.cells.getD c default).objects := by
          simp only [unlinkResult]
          rw [if_neg hhead, hfind]
        have hur2 : (unlinkResult grid t c).2 = grid.entries.setD p
            { pe with next := (grid.entries.getD t default).next } := by
          simp only [unlinkResult]
          rw [if_neg hhead, hfind]
          show grid.entries.setD p
              { grid.entries.getD p default with
                next := (grid.entries.getD t default).next }
            = grid.entries.setD p { pe with next := (grid.entries.getD t default).next }
          rw [hgdp]
        have hE'' : g'.entries = grid.entries.setD p
            { pe with next := (grid.entries.getD t default).next } := by
          rw [hE, hur2]
        have hsplitB : l = (l1p ++ [(p, pe)]) ++ (t, grid.entries.getD t default) :: l2 := by
          rw [hsplit, hsplit1]
        have hpmem2 : (p, pe) ∈ l := by
          rw [hsplitB]
          simp
        have hp_lt : p < grid.entries.size := hl.bounds _ hpmem2
        have hlB : ChainWF grid c
            ((l1p ++ [(p, pe)]) ++ (t, grid.entries.getD t default) :: l2) := by
          rw [← hsplitB]
          exact hl
        have hdisj_p : ∀ c2 l₂, ChainWF grid c2 l₂ → ∀ q ∈ l₂, q.1 = p → c2 = c := by
          intro c2 l₂ h2 q hq hqp
          have hq2 := links_member_snd grid.entries l₂ _ h2.links q hq
          have h1 := h2.cellmatch q hq
          rw [← hq2, hqp, hgdp] at h1
          have h3 : spatial_grid_get_cell_idx grid pe.cellX pe.cellY = some c :=
            hl.cellmatch _ hpmem2
          rw [h3] at h1
          injection h1 with h1
          exact h1.symm
        have hnewB : ChainWF g' c
            (l1p ++ (p, { pe with next := (grid.entries.getD t default).next }) :: l2) :=
          chainWF_remove_mid grid g' c t p pe l1p l2 hlB hp_lt
            (by rw [hcobj, hur1]) hcount' hE'' hst_ne
            (fun q hq => hl.alloc q (by rw [hsplitB]; exact hq)) hd2 hd3
        have hentry_otherB : ∀ j, j ≠ p →
            g'.entries.getD j default = grid.entries.getD j default := by
          intro j hj
          rw [hE'']
          exact agetD_setD_ne _ _ _ _ _ (fun hx => hj hx.symm)
        have hentry_pB : g'.entries.getD p default
            = { pe with next := (grid.entries.getD t default).next } := by
          rw [hE'']
          exact agetD_setD_self _ _ _ _ hp_lt
        have htransferB : ∀ c2 l₂, c2 ≠ c → ChainWF grid c2 l₂ → ChainWF g' c2 l₂ := by
          intro c2 l₂ hcc h2
          refine chainWF_transfer grid g' c2 l₂ h2 (hcell_other c2 hcc) ?_ ?_
            hentries_size' hd2 hd3
          · intro q hq
            have hqp : q.1 ≠ p := fun hx => hcc (hdisj_p c2 l₂ h2 q hq hx)
            exact hentry_otherB q.1 hqp
          · intro q hq
            have hqt : q.1 ≠ t := fun hx => hcc (hdisj_t c2 l₂ h2 q hq hx)
            rw [hst_ne q.1 hqt]
            exact h2.alloc q hq
        have hmemnewB : ∀ j, j ≠ t → (j, grid.entries.getD j default) ∈ l →
            (j, g'.entries.getD j default) ∈ (l1p ++ (p, { pe with
              next := (grid.entries.getD t default).next }) :: l2)
              ∧ (g'.entries.getD j default).gameObject.id
                = (grid.entries.getD j default).gameObject.id := by
          intro j hjt hjmem
          by_cases hjp : j = p
          · subst hjp
            refine ⟨?_, ?_⟩
            · rw [hentry_pB]
              simp
            · rw [hentry_pB, hgdp]
          · rw [hsplitB] at hjmem
            rcases List.mem_append.1 hjmem with hmm | hmm
            · rcases List.mem_append.1 hmm with hmm2 | hmm2
              · refine ⟨?_, ?_⟩
                · rw [hentry_otherB j hjp]
                  exact List.mem_append.2 (Or.inl hmm2)
                · rw [hentry_otherB j hjp]
              · exfalso
                apply hjp
                have hx := List.mem_singleton.1 hmm2
                exact congrArg Prod.fst hx
            · rcases List.mem_cons.1 hmm with hmm2 | hmm2
              · exfalso
                apply hjt
                exact congrArg Prod.fst hmm2
              · refine ⟨?_, ?_⟩
                · rw [hentry_otherB j hjp]
                  exact List.mem_append.2 (Or.inr (List.mem_cons_of_mem _ hmm2))
                · rw [hentry_otherB j hjp]
        have hfilterB : ∀ id, (l.filter fun q => q.2.gameObject.id = id).length
            = ((l1p ++ (p, { pe with next := (grid.entries.getD t default).next })
                :: l2).filter fun q => q.2.gameObject.id = id).length
              + (if id = e.id then 1 else 0) := by
          intro id
          rw [hsplitB]
          have hpe2 : ({ pe with next := (grid.entries.getD t default).next }
              : GridObjectEntry).gameObject = pe.gameObject := rfl
          simp only [List.filter_append, List.length_append, length_filter_cons,
            List.filter_nil, List.length_nil, hpe2]
          by_cases hid : id = e.id
          · have hPa : (grid.entries.getD t default).gameObject.id = id := by
              rw [hidf]
              exact hid.symm
            rw [if_pos hid, if_pos (decide_eq_true hPa)]
            omega
          · have hPa : ¬ (grid.entries.getD t default).gameObject.id = id := by
              rw [hidf]
              exact fun hy => hid hy.symm
            rw [if_neg hid, if_neg (fun hcc => hPa (of_decide_eq_true hcc))]
            omega
        obtain ⟨hGwf, hcnt⟩ := gridWF_remove_rebuild grid g' hwf e t c l
          (l1p ++ (p, { pe with next := (grid.entries.getD t default).next }) :: l2)
          hc hl hidf hemax hnewB htransferB hmemnewB hfilterB
          hcells_size' hentries_size' hL (by rw [hPF, f4]; exact hwf.pool_cap)
          (by rw [hPF]; exact hpwfF) hd1 hd2 hd3 hd4 hd5 hd8
        refine ⟨g', true, hrm, hGwf, ?_, ?_, hd8,
          ⟨fun _ => ⟨hemax, by simp⟩, fun _ => rfl⟩⟩
        · intro h
          cases h
        · intro _
          refine ⟨?_, ?_, ?_, hL⟩
          · have hx := hcnt e.id
            rw [if_pos (rfl : e.id = e.id)] at hx
            omega
          · have hx := hcnt e.id
            rw [if_pos (rfl : e.id = e.id)] at hx
            omega
          · intro id hident
            have hx := hcnt id
            rw [if_neg hident] at hx
            omega

theorem agetD_mkArray {α : Type _} (n : Nat) (v d : α) (i : Nat) :
    (Array.mkArray n v).getD i d = if i < n then v else d := by
  rw [agetD_def]
  by_cases hi : i < n
  · rw [dif_pos (by simpa using hi), if_pos hi]
    simp [Array.getElem_mkArray]
  · rw [dif_neg (by simpa using hi), if_neg hi]

theorem create_fields (cs gw gh mo : Nat) (ox oy : Rat) (g0 : SpatialGrid)
    (h : spatial_grid_create cs gw gh ox oy mo = some g0) :
    0 < cs
      ∧ g0.cells = Array.mkArray (gw * gh)
          { objects := none, objectCount := 0,
            maxObjects := MAX_OBJECTS_PER_CELL, dirty := false }
      ∧ g0.cellSize = cs ∧ g0.gridWidth = gw ∧ g0.gridHeight = gh
      ∧ g0.worldWidth = ((gw * cs : Nat) : Rat)
      ∧ g0.worldHeight = ((gh * cs : Nat) : Rat)
      ∧ g0.entries = Array.mkArray mo default
      ∧ g0.objectLookup = Array.mkArray mo none
      ∧ g0.maxObjects = mo
      ∧ (object_pool_init true GRID_ENTRY_SIZE mo).1 = some g0.entryPool := by
  rw [spatial_grid_create] at h
  by_cases hz : cs = 0 ∨ gw = 0 ∨ gh = 0 ∨ mo = 0
  · rw [if_pos hz] at h
    cases h
  · rw [if_neg hz] at h
    cases hp : (object_pool_init true GRID_ENTRY_SIZE mo).1 with
    | none =>
      rw [hp] at h
      cases h
    | some p =>
      rw [hp] at h
      simp only [Option.some.injEq] at h
      subst h
      push_neg at hz
      exact ⟨by omega, rfl, rfl, rfl, rfl, rfl, rfl, rfl, rfl, rfl, rfl⟩

theorem create_chain_nil (cs gw gh mo : Nat) (ox oy : Rat) (g0 : SpatialGrid)
    (h : spatial_grid_create cs gw gh ox oy mo = some g0) :
    ∀ c, ChainWF g0 c [] := by
  obtain ⟨hcs, hcells, hd1, hd2, hd3, hw, hh, hent, hlkp, hmax, hpool⟩ :=
    create_fields cs gw gh mo ox oy g0 h
  intro c
  have hobj : (g0.cells.getD c default).objects = none := by
    rw [hcells, agetD_mkArray]
    split <;> rfl
  have hcnt : (g0.cells.getD c default).objectCount = 0 := by
    rw [hcells, agetD_mkArray]
    split <;> rfl
  constructor
  · rw [hobj]
    trivial
  · simp
  · intro p hp
    cases hp
  · intro p hp
    cases hp
  · intro p hp
    cases hp
  · rw [hcnt]
    rfl

theorem gridWF_create (cs gw gh mo : Nat) (ox oy : Rat) (g0 : SpatialGrid)
    (h : spatial_grid_create cs gw gh ox oy mo = some g0) : GridWF g0 := by
  obtain ⟨hcs, hcells, hd1, hd2, hd3, hw, hh, hent, hlkp, hmax, hpool⟩ :=
    create_fields cs gw gh mo ox oy g0 h
  have hpwf : PoolWF g0.entryPool := poolWF_init _ _ _ hpool
  have hpcap : g0.entryPool.capacity = mo := by
    obtain ⟨_, _, hp⟩ := object_pool_init_characterized _ _ _ hpool
    rw [hp]
  constructor
  · rw [hcells, hd2, hd3]
    simp
  · rw [hd1]
    omega
  · rw [hw, hd2, hd1]
  · rw [hh, hd3, hd1]
  · rw [hent, hmax]
    simp
  · rw [hlkp, hmax]
    simp
  · rw [hpcap, hmax]
  · exact hpwf
  · intro c _
    exact ⟨[], create_chain_nil cs gw gh mo ox oy g0 h c⟩
  · intro id i hj
    rw [hlkp, agetD_mkArray] at hj
    split at hj
    · cases hj
    · cases hj

theorem entriesWithId_create (cs gw gh mo : Nat) (ox oy : Rat) (g0 : SpatialGrid)
    (h : spatial_grid_create cs gw gh ox oy mo = some g0) :
    ∀ id, entriesWithId g0 id = 0 := by
  intro id
  rw [entriesWithId]
  apply Finset.sum_eq_zero
  intro c _
  rw [gridChain_eq g0 c [] (create_chain_nil cs gw gh mo ox oy g0 h c)]
  rfl

theorem lookup_create_none (cs gw gh mo : Nat) (ox oy : Rat) (g0 : SpatialGrid)
    (h : spatial_grid_create cs gw gh ox oy mo = some g0) :
    ∀ id, g0.objectLookup.getD id none = none := by
  obtain ⟨hcs, hcells, hd1, hd2, hd3, hw, hh, hent, hlkp, hmax, hpool⟩ :=
    create_fields cs gw gh mo ox oy g0 h
  intro id
  rw [hlkp, agetD_mkArray]
  split <;> rfl

/-- The per-id tracking discipline of the grid: the number of entries carrying
a given entity id agrees with the lookup table, hence is never more than one. -/
def TrackedOnce (g : SpatialGrid) : Prop :=
  ∀ id, entriesWithId g id = (if g.objectLookup.getD id none = none then 0 else 1)

theorem inv_add (g : SpatialGrid) (e : GameObject) (hwf : GridWF g)
    (hT : TrackedOnce g) (hlt : e.id < g.maxObjects)
    (hnone : g.objectLookup.getD e.id none = none) :
    ∃ g' b, spatial_grid_add_object (some g) (some e) = (some g', b)
      ∧ GridWF g' ∧ TrackedOnce g' := by
  obtain ⟨g', b, hadd, hwf', himp, hcnt, hmx, hlkp, hlkq, _⟩ := add_preserved g hwf e
  refine ⟨g', b, hadd, hwf', ?_⟩
  cases b with
  | false =>
    rw [himp rfl]
    exact hT
  | true =>
    obtain ⟨idx, hL⟩ := hlkq rfl
    rw [if_pos hlt] at hL
    intro id
    have hcn := hcnt id
    by_cases hid : id = e.id
    · subst hid
      rw [hcn]
      have h0 : entriesWithId g e.id = 0 := by
        rw [hT e.id, if_pos hnone]
      rw [h0, hL, agetD_setD_self _ _ _ _ (by rw [hwf.lookup_size]; exact hlt)]
      simp
    · rw [hcn, hT id, hL, agetD_setD_ne _ _ _ _ _ (fun hx => hid hx.symm)]
      simp [hid]

theorem inv_remove (g : SpatialGrid) (e : GameObject) (hwf : GridWF g)
    (hT : TrackedOnce g) :
    ∃ g' b, spatial_grid_remove_object (some g) (some e) = (some g', b)
      ∧ GridWF g' ∧ TrackedOnce g'
      ∧ (b = true ↔ e.id < g.maxObjects ∧ ¬ g.objectLookup.getD e.id none = none)
      ∧ (b = true → g'.objectLookup = g.objectLookup.setD e.id none)
      ∧ g'.maxObjects = g.maxObjects
      ∧ (b = false → g' = g) := by
  obtain ⟨g', b, hrm, hwf', himp, hsucc, hmx, hiff⟩ := remove_preserved g hwf e
  refine ⟨g', b, hrm, hwf', ?_, hiff, fun hb => ((hsucc hb).2.2.2), hmx, himp⟩
  cases b with
  | false =>
    rw [himp rfl]
    exact hT
  | true =>
    obtain ⟨hge1, hdec, hoth, hL⟩ := hsucc rfl
    obtain ⟨hemax, hnn⟩ := hiff.mp rfl
    intro id
    by_cases hid : id = e.id
    · subst hid
      rw [hdec, hT e.id, if_neg hnn, hL,
        agetD_setD_self _ _ _ _ (by rw [hwf.lookup_size]; exact hemax)]
      simp
    · rw [hoth id hid, hT id, hL, agetD_setD_ne _ _ _ _ _ (fun hx => hid hx.symm)]

theorem inv_update (g : SpatialGrid) (e : GameObject) (hwf : GridWF g)
    (hT : TrackedOnce g) :
    ∃ g' b, spatial_grid_update_object (some g) (some e) = (some g', b)
      ∧ GridWF g' ∧ TrackedOnce g' := by
  cases ht : e.transform with
  | none =>
    refine ⟨g, false, ?_, hwf, hT⟩
    simp [spatial_grid_update_object, ht]
  | some tr =>
  by_cases hstat : game_object_is_static (some e) = true
  · refine ⟨g, true, ?_, hwf, hT⟩
    simp [spatial_grid_update_object, ht, hstat]
  · by_cases hmax : g.maxObjects ≤ e.id
    · refine ⟨g, false, ?_, hwf, hT⟩
      simp [spatial_grid_update_object, ht, hstat, game_object_get_id, hmax]
    · cases hlk : g.objectLookup.getD e.id none with
      | none =>
        obtain ⟨g', b, hadd, hwf', hT'⟩ := inv_add g e hwf hT (by omega) hlk
        refine ⟨g', b, ?_, hwf', hT'⟩
        simp only [spatial_grid_update_object, ht, hstat, Bool.false_eq_true, if_false,
          game_object_get_id, if_neg hmax, hlk]
        exact hadd
      | some entryIdx =>
        cases hwc : spatial_grid_world_to_cell (some g)
            (transform_component_get_position (some tr)).1
            (transform_component_get_position (some tr)).2 with
        | none =>
          obtain ⟨g', b, hrm, hwf', hT', _, _, _, _⟩ := inv_remove g e hwf hT
          refine ⟨g', b, ?_, hwf', hT'⟩
          simp only [spatial_grid_update_object, ht, hstat, Bool.false_eq_true, if_false,
            game_object_get_id, if_neg hmax, hlk, hwc]
          exact hrm
        | some cc =>
          obtain ⟨ncX, ncY⟩ := cc
          by_cases hsame : ncX = (g.entries.getD entryIdx default).cellX
              ∧ ncY = (g.entries.getD entryIdx default).cellY
          · refine ⟨g, true, ?_, hwf, hT⟩
            simp only [spatial_grid_update_object, ht, hstat, Bool.false_eq_true, if_false,
              game_object_get_id, if_neg hmax, hlk, hwc]
            rw [if_pos hsame]
          · obtain ⟨gr, br, hrm, hwfr, hTr, hiffr, hLr, hmxr, himpr⟩ :=
              inv_remove g e hwf hT
            have hbr : br = true := hiffr.mpr ⟨by omega, by rw [hlk]; simp⟩
            subst hbr
            have hlkr : gr.objectLookup.getD e.id none = none := by
              rw [hLr rfl,
                agetD_setD_self _ _ _ _ (by rw [hwf.lookup_size]; omega)]
            have hltr : e.id < gr.maxObjects := by
              rw [hmxr]
              omega
            obtain ⟨g', b, hadd, hwf', hT'⟩ := inv_add gr e hwfr hTr hltr hlkr
            refine ⟨g', b, ?_, hwf', hT'⟩
            simp only [spatial_grid_update_object, ht, hstat, Bool.false_eq_true, if_false,
              game_object_get_id, if_neg hmax, hlk, hwc]
            rw [if_neg hsame, hrm]
            exact hadd

/-- One grid-mutating call of the C API, for stating sequence invariants. -/
inductive GridOp where
  | addOp (e : GameObject)
  | removeOp (e : GameObject)
  | updateOp (e : GameObject)
deriving Repr

/-- Applies one call to a live grid, keeping the previous state if the call
returned a null grid (which never happens for non-null inputs). -/
def gridStep (g : SpatialGrid) : GridOp → SpatialGrid
  | .addOp e => (spatial_grid_add_object (some g) (some e)).1.getD g
  | .removeOp e => (spatial_grid_remove_object (some g) (some e)).1.getD g
  | .updateOp e => (spatial_grid_update_object (some g) (some e)).1.getD g

def runGrid (g : SpatialGrid) : List GridOp → SpatialGrid
  | [] => g
  | op :: ops => runGrid (gridStep g op) ops

/-- The guard of the amended C2 invariant: a direct add call is made only for
an id inside the lookup-table range that is not currently tracked.  remove and
update calls are unrestricted. -/
def guardedOp (g : SpatialGrid) : GridOp → Bool
  | .addOp e => decide (e.id < g.maxObjects)
      && decide (g.objectLookup.getD e.id none = none)
  | .removeOp _ => true
  | .updateOp _ => true

def guardedRun : SpatialGrid → List GridOp → Bool
  | _, [] => true
  | g, op :: ops => guardedOp g op && guardedRun (gridStep g op) ops

theorem trackedOnce_runGrid (ops : List GridOp) :
    ∀ g : SpatialGrid, GridWF g → TrackedOnce g → guardedRun g ops = true →
      GridWF (runGrid g ops) ∧ TrackedOnce (runGrid g ops) := by
  induction ops with
  | nil => exact fun g hwf hT _ => ⟨hwf, hT⟩
  | cons op ops ih =>
    intro g hwf hT hguard
    rw [guardedRun, Bool.and_eq_true] at hguard
    obtain ⟨hop, hrest⟩ := hguard
    have hstep : GridWF (gridStep g op) ∧ TrackedOnce (gridStep g op) := by
      cases op with
      | addOp e =>
        rw [guardedOp, Bool.and_eq_true, decide_eq_true_eq, decide_eq_true_eq] at hop
        obtain ⟨g', b, hadd, hwf', hT'⟩ := inv_add g e hwf hT hop.1 hop.2
        rw [gridStep, hadd]
        exact ⟨hwf', hT'⟩
      | removeOp e =>
        obtain ⟨g', b, hrm, hwf', hT', _, _, _, _⟩ := inv_remove g e hwf hT
        rw [gridStep, hrm]
        exact ⟨hwf', hT'⟩
      | updateOp e =>
        obtain ⟨g', b, hupd, hwf', hT'⟩ := inv_update g e hwf hT
        rw [gridStep, hupd]
        exact ⟨hwf', hT'⟩
    rw [runGrid]
    exact ih (gridStep g op) hstep.1 hstep.2 hrest

def eDup : GameObject :=
  { id := 0, transform := some { x := 0, y := 0 }, active := true, staticObject := false }

/-- C2 counterexample: the claimed invariant fails for unrestricted call
sequences.  spatial_grid_add_object performs no duplicate check
(spatial_grid.c:93-151), so on a freshly created 1-cell grid two consecutive
add calls for the same entity leave two entries carrying its id — the entity
is linked twice into the same cell list. -/
theorem grid_duplicate_entry_cex :
    ∃ g0, spatial_grid_create 64 1 1 0 0 2 = some g0
      ∧ entriesWithId (runGrid g0 [GridOp.addOp eDup, GridOp.addOp eDup]) eDup.id
          = 2 := by
  refine ⟨(spatial_grid_create 64 1 1 0 0 2).getD default, ?_, ?_⟩
  · with_unfolding_all rfl
  · set_option maxRecDepth 40000 in with_unfolding_all decide

/-- C2 (amended): starting from any freshly created grid, after any sequence of
spatial_grid_add_object, spatial_grid_remove_object and spatial_grid_update_object
calls in which every direct add call is made for an id inside the lookup-table
range that is not currently tracked (remove and update calls are unrestricted),
every entity has at most one entry in the grid: at most one cell list contains
an entry with its id, at most once.  Without the guard on direct add calls the
property is false (grid_duplicate_entry_cex). -/
theorem grid_at_most_one_entry (cs gw gh mo : Nat) (ox oy : Rat) (g0 : SpatialGrid)
    (hcreate : spatial_grid_create cs gw gh ox oy mo = some g0)
    (ops : List GridOp) (hguard : guardedRun g0 ops = true) :
    ∀ id, entriesWithId (runGrid g0 ops) id ≤ 1 := by
  have h0 : TrackedOnce g0 := by
    intro id
    rw [entriesWithId_create cs gw gh mo ox oy g0 hcreate id,
      lookup_create_none cs gw gh mo ox oy g0 hcreate id]
    simp
  obtain ⟨_, hT⟩ := trackedOnce_runGrid ops g0
    (gridWF_create cs gw gh mo ox oy g0 hcreate) h0 hguard
  intro id
  rw [hT id]
  split <;> omega

/-- Witness for grid_at_most_one_entry: a concrete guarded add/remove sequence
on a freshly created grid, with both hypotheses evaluated. -/
theorem grid_at_most_one_entry_witness :
    spatial_grid_create 64 1 1 0 0 2
        = some ((spatial_grid_create 64 1 1 0 0 2).getD default)
      ∧ guardedRun ((spatial_grid_create 64 1 1 0 0 2).getD default)
          [GridOp.addOp eDup, GridOp.removeOp eDup] = true
      ∧ ∀ id, entriesWithId (runGrid ((spatial_grid_create 64 1 1 0 0 2).getD default)
          [GridOp.addOp eDup, GridOp.removeOp eDup]) id ≤ 1 :=
  ⟨by with_unfolding_all rfl,
   by set_option maxRecDepth 40000 in with_unfolding_all decide,
   grid_at_most_one_entry 64 1 1 2 0 0 _ (by with_unfolding_all rfl) _
     (by set_option maxRecDepth 40000 in with_unfolding_all decide)⟩

/-- C7: bounded-table policy.  Adding an in-bounds entity whose id is at least
maxObjects succeeds — the allocated entry becomes the head of the target cell's
list, the cell's objectCount and the grid's totalObjects are incremented, and
one more entry carrying the id exists — but the id lookup table is left
untouched (spatial_grid.c:128-131 writes it only for objectId < maxObjects);
a subsequent spatial_grid_remove_object, or spatial_grid_update_object on the
non-static entity, returns failure without modifying the resulting grid at all
(spatial_grid.c:153-166, 204-214 reject the id before any lookup). -/
theorem bounded_table_policy (grid : SpatialGrid) (hwf : GridWF grid) (e : GameObject)
    (t : TransformComponent) (ht : e.transform = some t)
    (hid : grid.maxObjects ≤ e.id) (cX cY : Nat)
    (hwc : spatial_grid_world_to_cell (some grid) t.x t.y = some (cX, cY))
    (hfc : ¬ grid.entryPool.freeCount = 0) :
    ∃ g', spatial_grid_add_object (some grid) (some e) = (some g', true)
      ∧ g'.objectLookup = grid.objectLookup
      ∧ (∃ cellIdx, spatial_grid_get_cell_idx grid cX cY = some cellIdx
          ∧ (g'.cells.getD cellIdx default).objects = some (allocIdx grid)
          ∧ (g'.cells.getD cellIdx default).objectCount
              = (grid.cells.getD cellIdx default).objectCount + 1)
      ∧ g'.totalObjects = grid.totalObjects + 1
      ∧ entriesWithId g' e.id = entriesWithId grid e.id + 1
      ∧ spatial_grid_remove_object (some g') (some e) = (some g', false)
      ∧ (e.staticObject = false →
          spatial_grid_update_object (some g') (some e) = (some g', false)) := by
  obtain ⟨hbx, hby⟩ := world_to_cell_bounds grid t.x t.y cX cY hwf.cell_pos
    hwf.world_w hwf.world_h hwc
  have hcell : spatial_grid_get_cell_idx grid cX cY
      = some (cY * grid.gridWidth + cX) := by
    rw [spatial_grid_get_cell_idx, if_neg (by push_neg; exact ⟨hbx, hby⟩)]
  obtain ⟨g', pool1, hadd, halloc1, hP, hE, ⟨dflag, hC⟩, hL, hT,
    hd1, hd2, hd3, hd4, hd5, hd6, hd7, hd8⟩ :=
    add_success_characterized grid e t ht cX cY (cY * grid.gridWidth + cX)
      hwc hcell hfc hwf.poolwf.elem_pos
  obtain ⟨g2, b2, hadd2, _, _, hcnt2, _, _, _, _⟩ := add_preserved grid hwf e
  rw [hadd, Prod.mk.injEq] at hadd2
  obtain ⟨hx2, hy2⟩ := hadd2
  injection hx2 with hx2
  subst hx2
  subst hy2
  have hcidx_lt : cY * grid.gridWidth + cX < grid.cells.size := by
    rw [hwf.cells_size]
    calc cY * grid.gridWidth + cX
        < cY * grid.gridWidth + grid.gridWidth := by omega
      _ = (cY + 1) * grid.gridWidth := by ring
      _ ≤ grid.gridHeight * grid.gridWidth := by
          exact Nat.mul_le_mul_right _ (by omega)
      _ = grid.gridWidth * grid.gridHeight := Nat.mul_comm _ _
  have hLid : g'.objectLookup = grid.objectLookup := by
    rw [hL, if_neg (by omega)]
  refine ⟨g', hadd, hLid, ⟨cY * grid.gridWidth + cX, hcell, ?_, ?_⟩, hT, ?_, ?_, ?_⟩
  · rw [hC, agetD_setD_self _ _ _ _ hcidx_lt]
  · rw [hC, agetD_setD_self _ _ _ _ hcidx_lt]
  · have hx := hcnt2 e.id
    rw [if_pos ⟨rfl, rfl⟩] at hx
    exact hx
  · have hmax' : g'.maxObjects ≤ e.id := by
      rw [hd8]
      exact hid
    simp only [spatial_grid_remove_object, game_object_get_id]
    rw [if_pos hmax']
  · intro hstat
    have hmax' : g'.maxObjects ≤ e.id := by
      rw [hd8]
      exact hid
    simp only [spatial_grid_update_object, ht, game_object_is_static, hstat,
      Bool.false_eq_true, if_false, game_object_get_id]
    rw [if_pos hmax']

def gridC7 : SpatialGrid := (spatial_grid_create 64 2 2 0 0 2).getD default

def eBig : GameObject :=
  { id := 5, transform := some { x := 0, y := 0 }, active := true, staticObject := false }

/-- Witness for bounded_table_policy: a freshly created 2 x 2 grid with
maxObjects 2 and an entity with id 5, all hypotheses evaluated. -/
theorem bounded_table_policy_witness :
    ∃ g', spatial_grid_add_object (some gridC7) (some eBig) = (some g', true)
      ∧ g'.objectLookup = gridC7.objectLookup
      ∧ (∃ cellIdx, spatial_grid_get_cell_idx gridC7 0 0 = some cellIdx
          ∧ (g'.cells.getD cellIdx default).objects = some (allocIdx gridC7)
          ∧ (g'.cells.getD cellIdx default).objectCount
              = (gridC7.cells.getD cellIdx default).objectCount + 1)
      ∧ g'.totalObjects = gridC7.totalObjects + 1
      ∧ entriesWithId g' eBig.id = entriesWithId gridC7 eBig.id + 1
      ∧ spatial_grid_remove_object (some g') (some eBig) = (some g', false)
      ∧ (eBig.staticObject = false →
          spatial_grid_update_object (some g') (some eBig) = (some g', false)) :=
  bounded_table_policy gridC7
    (gridWF_create 64 2 2 2 0 0 gridC7 (by with_unfolding_all rfl))
    eBig { x := 0, y := 0 } rfl (by with_unfolding_all decide) 0 0
    (by with_unfolding_all rfl) (by with_unfolding_all decide)

/-! ### C6: the result set of spatial_grid_query_circle -/

/-- Spec-side candidate filter, following the spec's words: the entity must be
active, must pass the static filter (a static-flagged entry is skipped unless
includeStatic is set), and its squared distance from the center must be at most
the squared radius. -/
def specQueryFilter (includeStatic : Bool) (centerX centerY radiusSquared : Rat)
    (entry : GridObjectEntry) : Bool :=
  game_object_is_active (some entry.gameObject)
    && (includeStatic || !entry.staticObject)
    && decide
      (((transform_component_get_position entry.gameObject.transform).1 - centerX)
          * ((transform_component_get_position entry.gameObject.transform).1 - centerX)
        + ((transform_component_get_position entry.gameObject.transform).2 - centerY)
          * ((transform_component_get_position entry.gameObject.transform).2 - centerY)
        ≤ radiusSquared)

/-- Spec-side contents of one cell: the entries of the cell's list, in list
order (empty for an out-of-range cell coordinate). -/
def specCellEntities (grid : SpatialGrid) (cellX cellY : Nat) : List GridObjectEntry :=
  match spatial_grid_get_cell_idx grid cellX cellY with
  | none => []
  | some cellIdx => (gridChain grid cellIdx).map Prod.snd

/-- Spec-side result set of a circle query, following the spec's words: the
entities in the cells of the covered rectangle that pass the filter, appended
in traversal order up to the query's capacity. -/
def specQueryCircleResults (grid : SpatialGrid) (includeStatic : Bool)
    (maxResults : Nat) (centerX centerY radius : Rat)
    (minCellX minCellY maxCellX maxCellY : Nat) : List GameObject :=
  ((((cellRange minCellY maxCellY).bind fun cellY =>
        (cellRange minCellX maxCellX).bind fun cellX =>
          specCellEntities grid cellX cellY).filter
      (specQueryFilter includeStatic centerX centerY (radius * radius))).map
    fun en => en.gameObject).take maxResults

/-- Appending matches to a query's result buffer, leaving every other field
unchanged. -/
def specScanAppend (q : SpatialQuery) (extra : List GameObject) : SpatialQuery :=
  { q with results := q.results ++ extra }

theorem specScanAppend_nil (q : SpatialQuery) : specScanAppend q [] = q := by
  rw [specScanAppend, List.append_nil]

theorem specScanAppend_append (q : SpatialQuery) (A B : List GameObject) :
    specScanAppend (specScanAppend q A) B = specScanAppend q (A ++ B) := by
  simp [specScanAppend, List.append_assoc]

theorem queryCellScan_spec (entries : Array GridObjectEntry)
    (centerX centerY radiusSquared : Rat) :
    ∀ (l : List (Nat × GridObjectEntry)) (head : Option Nat) (fuel : Nat)
      (q : SpatialQuery),
      Links entries head l → l.length ≤ fuel →
      queryCellScan entries centerX centerY radiusSquared fuel head q
        = specScanAppend q
            ((((l.map Prod.snd).filter
                (specQueryFilter q.includeStatic centerX centerY radiusSquared)).map
              fun en => en.gameObject).take (q.maxResults - q.results.length)) := by
  intro l
  induction l with
  | nil =>
    intro head fuel q hlinks _
    cases head with
    | none =>
      cases fuel with
      | zero =>
        rw [show ((([] : List (Nat × GridObjectEntry)).map Prod.snd).filter
            (specQueryFilter q.includeStatic centerX centerY radiusSquared)).map
            (fun en => en.gameObject) = [] from rfl, List.take_nil, specScanAppend_nil]
        rfl
      | succ f =>
        rw [show ((([] : List (Nat × GridObjectEntry)).map Prod.snd).filter
            (specQueryFilter q.includeStatic centerX centerY radiusSquared)).map
            (fun en => en.gameObject) = [] from rfl, List.take_nil, specScanAppend_nil]
        rfl
    | some i => exact absurd hlinks (by simp [Links])
  | cons a rest ih =>
    intro head fuel q hlinks hfuel
    obtain ⟨aj, ae⟩ := a
    cases head with
    | none => simp [Links] at hlinks
    | some i =>
      obtain ⟨hij, hgd, hrest⟩ := hlinks
      subst hij
      cases fuel with
      | zero => simp at hfuel
      | succ f =>
        have hflen : rest.length ≤ f := by simpa using Nat.le_of_succ_le_succ hfuel
        simp only [queryCellScan, hgd]
        by_cases hroom : q.results.length < q.maxResults
        · rw [if_pos hroom]
          by_cases hact : game_object_is_active (some ae.gameObject) = false
          · rw [if_pos hact, ih ae.next f q hrest hflen]
            have hflt : specQueryFilter q.includeStatic centerX centerY radiusSquared ae
                = false := by
              simp [specQueryFilter, hact]
            refine congrArg (specScanAppend q) ?_
            simp only [List.map_cons, List.filter_cons, hflt, Bool.false_eq_true,
              if_false]
          · rw [if_neg hact]
            by_cases hstat : q.includeStatic = false ∧ ae.staticObject = true
            · rw [if_pos hstat, ih ae.next f q hrest hflen]
              have hflt : specQueryFilter q.includeStatic centerX centerY radiusSquared ae
                  = false := by
                simp [specQueryFilter, hstat.1, hstat.2]
              refine congrArg (specScanAppend q) ?_
              simp only [List.map_cons, List.filter_cons, hflt, Bool.false_eq_true,
                if_false]
            · rw [if_neg hstat]
              have hpass : (q.includeStatic || !ae.staticObject) = true := by
                cases hq : q.includeStatic with
                | true => rfl
                | false =>
                  cases hs : ae.staticObject with
                  | true => exact absurd ⟨hq, hs⟩ hstat
                  | false => rfl
              have hact' : game_object_is_active (some ae.gameObject) = true := by
                cases hx : game_object_is_active (some ae.gameObject) with
                | true => rfl
                | false => exact absurd hx hact
              by_cases hdist :
                  ((transform_component_get_position ae.gameObject.transform).1
                      - centerX)
                    * ((transform_component_get_position ae.gameObject.transform).1
                      - centerX)
                  + ((transform_component_get_position ae.gameObject.transform).2
                      - centerY)
                    * ((transform_component_get_position ae.gameObject.transform).2
                      - centerY) ≤ radiusSquared
              · rw [if_pos hdist]
                have hq' : ({ q with results := q.results ++ [ae.gameObject] }
                    : SpatialQuery) = specScanAppend q [ae.gameObject] := rfl
                rw [hq', ih ae.next f (specScanAppend q [ae.gameObject]) hrest hflen]
                have hflt : specQueryFilter q.includeStatic centerX centerY radiusSquared ae
                    = true := by
                  simp only [specQueryFilter, hact', hpass, Bool.true_and,
                    decide_eq_true_eq]
                  exact hdist
                rw [show (specScanAppend q [ae.gameObject]).includeStatic
                    = q.includeStatic from rfl]
                rw [show (specScanAppend q [ae.gameObject]).maxResults
                    = q.maxResults from rfl]
                rw [show (specScanAppend q [ae.gameObject]).results
                    = q.results ++ [ae.gameObject] from rfl]
                rw [specScanAppend_append]
                refine congrArg (specScanAppend q) ?_
                simp only [List.map_cons, List.filter_cons, hflt, if_true,
                  List.length_append, List.length_cons, List.length_nil]
                have harith : q.maxResults - q.results.length
                    = (q.maxResults - (q.results.length + (0 + 1))) + 1 := by omega
                rw [harith, List.take_succ_cons]
                rfl
              · rw [if_neg hdist]
                rw [ih ae.next f q hrest hflen]
                have hflt : specQueryFilter q.includeStatic centerX centerY radiusSquared ae
                    = false := by
                  simp only [specQueryFilter, hact', hpass, Bool.true_and,
                    decide_eq_false_iff_not]
                  exact hdist
                refine congrArg (specScanAppend q) ?_
                simp only [List.map_cons, List.filter_cons, hflt, Bool.false_eq_true,
                  if_false]
        · rw [if_neg hroom]
          rw [Nat.sub_eq_zero_of_le (Nat.le_of_not_lt hroom), List.take_zero,
            specScanAppend_nil]

/-- One iteration of the query's nested cell loops (spatial_grid.c:311-351):
resolve the cell, skip it when empty, otherwise scan its list. -/
def queryCellStep (grid : SpatialGrid) (centerX centerY radiusSquared : Rat)
    (q : SpatialQuery) (cellX cellY : Nat) : SpatialQuery :=
  match spatial_grid_get_cell_idx grid cellX cellY with
  | none => q
  | some cellIdx =>
    let cell := grid.cells.getD cellIdx default
    if cell.objectCount = 0 then q
    else queryCellScan grid.entries centerX centerY radiusSquared
      (grid.entries.size + 1) cell.objects q

theorem queryCellStep_spec (grid : SpatialGrid) (hwf : GridWF grid)
    (centerX centerY radiusSquared : Rat) (q : SpatialQuery) (cellX cellY : Nat) :
    queryCellStep grid centerX centerY radiusSquared q cellX cellY
      = specScanAppend q
          ((((specCellEntities grid cellX cellY).filter
              (specQueryFilter q.includeStatic centerX centerY radiusSquared)).map
            fun en => en.gameObject).take (q.maxResults - q.results.length)) := by
  cases hci : spatial_grid_get_cell_idx grid cellX cellY with
  | none =>
    simp only [queryCellStep, specCellEntities, hci, List.filter_nil, List.map_nil,
      List.take_nil, specScanAppend_nil]
  | some cellIdx =>
    obtain ⟨hlt, _, _, _⟩ := get_cell_idx_lt grid cellX cellY cellIdx hci hwf.cells_size
    obtain ⟨l, hl⟩ := hwf.chains cellIdx hlt
    simp only [queryCellStep, specCellEntities, hci]
    by_cases hzero : (grid.cells.getD cellIdx default).objectCount = 0
    · rw [if_pos hzero]
      have hlnil : l = [] := List.eq_nil_of_length_eq_zero (by
        rw [← hl.count]
        exact hzero)
      rw [gridChain_eq grid cellIdx l hl, hlnil]
      simp only [List.map_nil, List.filter_nil, List.take_nil, specScanAppend_nil]
    · rw [if_neg hzero]
      rw [queryCellScan_spec grid.entries centerX centerY radiusSquared l _ _ q hl.links
        (Nat.le_succ_of_le (nodup_length_le l _ hl.nodup hl.bounds))]
      rw [gridChain_eq grid cellIdx l hl]

theorem bind_cons_eq {α β : Type} (x : α) (xs : List α) (f : α → List β) :
    (x :: xs).bind f = f x ++ xs.bind f := rfl

theorem foldl_cells_spec (grid : SpatialGrid) (hwf : GridWF grid)
    (centerX centerY radiusSquared : Rat) :
    ∀ (cellsList : List (Nat × Nat)) (q : SpatialQuery),
      cellsList.foldl (fun qq p =>
          queryCellStep grid centerX centerY radiusSquared qq p.1 p.2) q
        = specScanAppend q
            ((((cellsList.bind fun p => specCellEntities grid p.1 p.2).filter
                (specQueryFilter q.includeStatic centerX centerY radiusSquared)).map
              fun en => en.gameObject).take (q.maxResults - q.results.length)) := by
  intro cl
  induction cl with
  | nil =>
    intro q
    simp only [List.foldl_nil, List.nil_bind, List.filter_nil, List.map_nil,
      List.take_nil, specScanAppend_nil]
  | cons p ps ih =>
    intro q
    rw [List.foldl_cons, queryCellStep_spec grid hwf, ih]
    rw [show ∀ A, (specScanAppend q A).includeStatic = q.includeStatic from fun _ => rfl]
    rw [show ∀ A, (specScanAppend q A).maxResults = q.maxResults from fun _ => rfl]
    rw [show ∀ A, (specScanAppend q A).results = q.results ++ A from fun _ => rfl]
    rw [specScanAppend_append]
    refine congrArg (specScanAppend q) ?_
    rw [bind_cons_eq, List.filter_append, List.map_append,
      List.take_append_eq_append_take]
    have hlen : (((( specCellEntities grid p.1 p.2).filter
        (specQueryFilter q.includeStatic centerX centerY radiusSquared)).map
          fun en => en.gameObject).take (q.maxResults - q.results.length)).length
        = min (q.maxResults - q.results.length)
            (((specCellEntities grid p.1 p.2).filter
                (specQueryFilter q.includeStatic centerX centerY radiusSquared)).map
              fun en => en.gameObject).length := List.length_take _ _
    refine congrArg (fun k => _ ++ List.take k _) ?_
    rw [List.length_append, hlen]
    omega

theorem bind_append_eq {α β : Type} (l1 l2 : List α) (f : α → List β) :
    (l1 ++ l2).bind f = l1.bind f ++ l2.bind f := by
  induction l1 with
  | nil => rfl
  | cons x xs ih => simp only [List.cons_append, bind_cons_eq, ih, List.append_assoc]

theorem bind_pairs_eq {α : Type} (ys xs : List Nat) (S : Nat → Nat → List α) :
    (ys.bind fun cy => xs.map fun cx => (cx, cy)).bind (fun p => S p.1 p.2)
      = ys.bind fun cy => xs.bind fun cx => S cx cy := by
  induction ys with
  | nil => rfl
  | cons y ys ih =>
    rw [bind_cons_eq, bind_cons_eq, bind_append_eq, ih]
    have hx : ∀ xs2 : List Nat, (xs2.map fun cx => (cx, y)).bind (fun p => S p.1 p.2)
        = xs2.bind fun cx => S cx y := by
      intro xs2
      induction xs2 with
      | nil => rfl
      | cons x xs2 ihx =>
        rw [List.map_cons, bind_cons_eq, bind_cons_eq, ihx]
    rw [hx]

theorem foldl_nested_cells (grid : SpatialGrid) (centerX centerY radiusSquared : Rat) :
    ∀ (ys xs : List Nat) (q : SpatialQuery),
      ys.foldl (fun qY cellY => xs.foldl (fun qq cellX =>
          queryCellStep grid centerX centerY radiusSquared qq cellX cellY) qY) q
        = (ys.bind fun cellY => xs.map fun cellX => (cellX, cellY)).foldl
            (fun qq p => queryCellStep grid centerX centerY radiusSquared qq p.1 p.2)
            q := by
  intro ys
  induction ys with
  | nil =>
    intro xs q
    rfl
  | cons y ys ih =>
    intro xs q
    rw [List.foldl_cons, bind_cons_eq, List.foldl_append, ih, List.foldl_map]

/-- The successful path of spatial_grid_query_circle: the query object after
both nested cell loops, starting from the reset query. -/
def queryCircleFold (grid : SpatialGrid) (q : SpatialQuery)
    (centerX centerY radius : Rat) (minCellX minCellY maxCellX maxCellY : Nat) :
    SpatialQuery :=
  (cellRange minCellY maxCellY).foldl (fun qY cellY =>
    (cellRange minCellX maxCellX).foldl (fun qq cellX =>
      queryCellStep grid centerX centerY (radius * radius) qq cellX cellY) qY)
    { q with
        results := []
        queryX := centerX
        queryY := centerY
        queryRadius := radius }

theorem queryCircleFold_results (grid : SpatialGrid) (hwf : GridWF grid)
    (q : SpatialQuery) (centerX centerY radius : Rat)
    (minCellX minCellY maxCellX maxCellY : Nat) :
    (queryCircleFold grid q centerX centerY radius
        minCellX minCellY maxCellX maxCellY).results
      = specQueryCircleResults grid q.includeStatic q.maxResults
          centerX centerY radius minCellX minCellY maxCellX maxCellY
    ∧ (queryCircleFold grid q centerX centerY radius
        minCellX minCellY maxCellX maxCellY).maxResults = q.maxResults
    ∧ (queryCircleFold grid q centerX centerY radius
        minCellX minCellY maxCellX maxCellY).includeStatic = q.includeStatic := by
  rw [queryCircleFold, foldl_nested_cells, foldl_cells_spec grid hwf]
  rw [show ({ q with
      results := []
      queryX := centerX
      queryY := centerY
      queryRadius := radius } : SpatialQuery).includeStatic = q.includeStatic from rfl]
  rw [show ({ q with
      results := []
      queryX := centerX
      queryY := centerY
      queryRadius := radius } : SpatialQuery).maxResults = q.maxResults from rfl]
  rw [show ({ q with
      results := []
      queryX := centerX
      queryY := centerY
      queryRadius := radius } : SpatialQuery).results = [] from rfl]
  refine ⟨?_, rfl, rfl⟩
  rw [show ∀ A, (specScanAppend { q with
      results := []
      queryX := centerX
      queryY := centerY
      queryRadius := radius } A).results = [] ++ A from fun _ => rfl]
  rw [List.nil_append, List.length_nil, Nat.sub_zero]
  rw [specQueryCircleResults, bind_pairs_eq]

theorem query_circle_cases (grid : SpatialGrid) (hwf : GridWF grid)
    (q : SpatialQuery) (centerX centerY radius : Rat) :
    (radius ≤ 0 →
      spatial_grid_query_circle (some grid) centerX centerY radius (some q)
        = (some grid, some q, 0))
    ∧ (¬ radius ≤ 0 →
        ((spatial_grid_world_to_cell (some grid) (centerX - radius) (centerY - radius)
              = none
            ∨ spatial_grid_world_to_cell (some grid) (centerX + radius)
                (centerY + radius) = none) →
          ∃ q1, spatial_grid_query_circle (some grid) centerX centerY radius (some q)
              = (some grid, some q1, 0) ∧ q1.results = [])
        ∧ (∀ minCellX minCellY maxCellX maxCellY,
            spatial_grid_world_to_cell (some grid) (centerX - radius) (centerY - radius)
              = some (minCellX, minCellY) →
            spatial_grid_world_to_cell (some grid) (centerX + radius) (centerY + radius)
              = some (maxCellX, maxCellY) →
            ∃ q2, spatial_grid_query_circle (some grid) centerX centerY radius (some q)
                = (some { grid with queriesPerFrame :=
                      (grid.queriesPerFrame + 1) % UINT32_MOD },
                   some q2, q2.results.length)
              ∧ q2.results = specQueryCircleResults grid q.includeStatic q.maxResults
                  centerX centerY radius minCellX minCellY maxCellX maxCellY
              ∧ q2.maxResults = q.maxResults
              ∧ q2.includeStatic = q.includeStatic)) := by
  constructor
  · intro hr
    simp only [spatial_grid_query_circle]
    rw [if_pos hr]
  · intro hr
    constructor
    · intro hfail
      simp only [spatial_grid_query_circle]
      rw [if_neg hr]
      rcases hfail with hf | hf
      · rw [hf]
        cases h2 : spatial_grid_world_to_cell (some grid) (centerX + radius)
            (centerY + radius) with
        | none => exact ⟨_, rfl, rfl⟩
        | some cc =>
          obtain ⟨a, b⟩ := cc
          exact ⟨_, rfl, rfl⟩
      · cases h1 : spatial_grid_world_to_cell (some grid) (centerX - radius)
            (centerY - radius) with
        | none =>
          rw [hf]
          exact ⟨_, rfl, rfl⟩
        | some cc =>
          obtain ⟨a, b⟩ := cc
          rw [hf]
          exact ⟨_, rfl, rfl⟩
    · intro minCX minCY maxCX maxCY hmin hmax2
      have hred : spatial_grid_query_circle (some grid) centerX centerY radius (some q)
          = (some { grid with queriesPerFrame :=
                (grid.queriesPerFrame + 1) % UINT32_MOD },
             some (queryCircleFold grid q centerX centerY radius
                minCX minCY maxCX maxCY),
             (queryCircleFold grid q centerX centerY radius
                minCX minCY maxCX maxCY).results.length) := by
        simp only [spatial_grid_query_circle]
        rw [if_neg hr, hmin, hmax2]
        rfl
      obtain ⟨hres, hmaxr, hinc⟩ :=
        queryCircleFold_results grid hwf q centerX centerY radius minCX minCY maxCX maxCY
      exact ⟨_, hred, hres, hmaxr, hinc⟩

/-- C6: on a well-formed grid, spatial_grid_query_circle returns 0 results for
a non-positive radius; returns zero results when the world-to-cell conversion
of either bounding-box corner (center - radius, center + radius) fails; and
otherwise its result set is exactly the entities of the covered cell rectangle
that are active, pass the static filter (static entries skipped unless
includeStatic), and lie within squared distance radius² of the center, appended
in traversal order up to the query's maxResults capacity
(spatial_grid.c:286-355). -/
theorem query_circle_result_set (grid : SpatialGrid) (hwf : GridWF grid)
    (q : SpatialQuery) (centerX centerY radius : Rat) :
    (radius ≤ 0 →
      spatial_grid_query_circle (some grid) centerX centerY radius (some q)
        = (some grid, some q, 0))
    ∧ (¬ radius ≤ 0 →
        ((spatial_grid_world_to_cell (some grid) (centerX - radius) (centerY - radius)
              = none
            ∨ spatial_grid_world_to_cell (some grid) (centerX + radius)
                (centerY + radius) = none) →
          ∃ q1, spatial_grid_query_circle (some grid) centerX centerY radius (some q)
              = (some grid, some q1, 0) ∧ q1.results = [])
        ∧ (∀ minCellX minCellY maxCellX maxCellY,
            spatial_grid_world_to_cell (some grid) (centerX - radius) (centerY - radius)
              = some (minCellX, minCellY) →
            spatial_grid_world_to_cell (some grid) (centerX + radius) (centerY + radius)
              = some (maxCellX, maxCellY) →
            ∃ q2, spatial_grid_query_circle (some grid) centerX centerY radius (some q)
                = (some { grid with queriesPerFrame :=
                      (grid.queriesPerFrame + 1) % UINT32_MOD },
                   some q2, q2.results.length)
              ∧ q2.results = specQueryCircleResults grid q.includeStatic q.maxResults
                  centerX centerY radius minCellX minCellY maxCellX maxCellY
              ∧ q2.maxResults = q.maxResults
              ∧ q2.includeStatic = q.includeStatic)) :=
  query_circle_cases grid hwf q centerX centerY radius
/-- Witness for query_circle_result_set: instantiated on the created 10 x 10
grid of cell size 64, a query of capacity 8, center (100,100), radius 50. -/
theorem query_circle_result_set_witness :
    ((50:Rat) ≤ 0 →
      spatial_grid_query_circle (some gridScenario) 100 100 50
          (some ((spatial_query_create 8).getD default))
        = (some gridScenario, some ((spatial_query_create 8).getD default), 0))
    ∧ (¬ (50:Rat) ≤ 0 →
        ((spatial_grid_world_to_cell (some gridScenario) (100 - 50) (100 - 50) = none
            ∨ spatial_grid_world_to_cell (some gridScenario) (100 + 50) (100 + 50)
              = none) →
          ∃ q1, spatial_grid_query_circle (some gridScenario) 100 100 50
                (some ((spatial_query_create 8).getD default))
              = (some gridScenario, some q1, 0) ∧ q1.results = [])
        ∧ (∀ minCellX minCellY maxCellX maxCellY,
            spatial_grid_world_to_cell (some gridScenario) (100 - 50) (100 - 50)
              = some (minCellX, minCellY) →
            spatial_grid_world_to_cell (some gridScenario) (100 + 50) (100 + 50)
              = some (maxCellX, maxCellY) →
            ∃ q2, spatial_grid_query_circle (some gridScenario) 100 100 50
                  (some ((spatial_query_create 8).getD default))
                = (some { gridScenario with queriesPerFrame :=
                      (gridScenario.queriesPerFrame + 1) % UINT32_MOD },
                   some q2, q2.results.length)
              ∧ q2.results = specQueryCircleResults gridScenario
                  ((spatial_query_create 8).getD default).includeStatic
                  ((spatial_query_create 8).getD default).maxResults
                  100 100 50 minCellX minCellY maxCellX maxCellY
              ∧ q2.maxResults = ((spatial_query_create 8).getD default).maxResults
              ∧ q2.includeStatic
                  = ((spatial_query_create 8).getD default).includeStatic)) :=
  query_circle_result_set gridScenario
    (gridWF_create 64 10 10 100 0 0 gridScenario (by with_unfolding_all rfl))
    ((spatial_query_create 8).getD default) 100 100 50

theorem world_to_cell_congr (g1 g2 : SpatialGrid)
    (h1 : g1.offsetX = g2.offsetX) (h2 : g1.offsetY = g2.offsetY)
    (h3 : g1.worldWidth = g2.worldWidth) (h4 : g1.worldHeight = g2.worldHeight)
    (h5 : g1.cellSize = g2.cellSize) (x y : Rat) :
    spatial_grid_world_to_cell (some g1) x y
      = spatial_grid_world_to_cell (some g2) x y := by
  simp [spatial_grid_world_to_cell, h1, h2, h3, h4, h5]

theorem world_to_cell_mono (grid : SpatialGrid) (hcs : 0 < grid.cellSize)
    (x1 y1 x2 y2 : Rat) (hx : x1 ≤ x2) (hy : y1 ≤ y2)
    (c1x c1y c2x c2y : Nat)
    (hw1 : spatial_grid_world_to_cell (some grid) x1 y1 = some (c1x, c1y))
    (hw2 : spatial_grid_world_to_cell (some grid) x2 y2 = some (c2x, c2y)) :
    c1x ≤ c2x ∧ c1y ≤ c2y := by
  simp only [spatial_grid_world_to_cell] at hw1 hw2
  by_cases hc1 : x1 - grid.offsetX < 0 ∨ y1 - grid.offsetY < 0 ∨
      grid.worldWidth ≤ x1 - grid.offsetX ∨ grid.worldHeight ≤ y1 - grid.offsetY
  · rw [if_pos hc1] at hw1
    cases hw1
  · rw [if_neg hc1] at hw1
    by_cases hc2 : x2 - grid.offsetX < 0 ∨ y2 - grid.offsetY < 0 ∨
        grid.worldWidth ≤ x2 - grid.offsetX ∨ grid.worldHeight ≤ y2 - grid.offsetY
    · rw [if_pos hc2] at hw2
      cases hw2
    · rw [if_neg hc2] at hw2
      simp only [Option.some.injEq, Prod.mk.injEq] at hw1 hw2
      obtain ⟨he1x, he1y⟩ := hw1
      obtain ⟨he2x, he2y⟩ := hw2
      subst he1x
      subst he1y
      subst he2x
      subst he2y
      have hcsr : (0:Rat) < ((grid.cellSize : Nat) : Rat) := by
        exact_mod_cast hcs
      constructor
      · apply Int.toNat_le_toNat
        rw [ratFloor_eq_intFloor, ratFloor_eq_intFloor]
        apply Int.floor_le_floor
        apply div_le_div_of_nonneg_right ?_ hcsr.le
        · linarith
      · apply Int.toNat_le_toNat
        rw [ratFloor_eq_intFloor, ratFloor_eq_intFloor]
        apply Int.floor_le_floor
        apply div_le_div_of_nonneg_right ?_ hcsr.le
        · linarith

theorem mem_cellRange (lo hi n : Nat) : n ∈ cellRange lo hi ↔ lo ≤ n ∧ n ≤ hi := by
  rw [cellRange]
  simp only [List.mem_map, List.mem_range]
  constructor
  · rintro ⟨i, hi2, rfl⟩
    omega
  · intro hb
    exact ⟨n - lo, by omega, by omega⟩

theorem mem_take_or_full {α : Type} (l : List α) (n : Nat) (x : α) (hx : x ∈ l) :
    x ∈ l.take n ∨ (l.take n).length = n := by
  by_cases h : l.length ≤ n
  · left
    rw [List.take_of_length_le h]
    exact hx
  · right
    rw [List.length_take]
    omega

/-- Spec-side candidate list of a circle query before capacity truncation. -/
def specQueryCircleCandidates (grid : SpatialGrid) (includeStatic : Bool)
    (centerX centerY radius : Rat) (minCellX minCellY maxCellX maxCellY : Nat) :
    List GameObject :=
  (((cellRange minCellY maxCellY).bind fun cellY =>
      (cellRange minCellX maxCellX).bind fun cellX =>
        specCellEntities grid cellX cellY).filter
    (specQueryFilter includeStatic centerX centerY (radius * radius))).map
    fun en => en.gameObject

theorem specQueryCircleResults_eq_take (grid : SpatialGrid) (includeStatic : Bool)
    (maxResults : Nat) (centerX centerY radius : Rat)
    (minCellX minCellY maxCellX maxCellY : Nat) :
    specQueryCircleResults grid includeStatic maxResults centerX centerY radius
        minCellX minCellY maxCellX maxCellY
      = (specQueryCircleCandidates grid includeStatic centerX centerY radius
          minCellX minCellY maxCellX maxCellY).take maxResults := rfl

/-- C3 (amended): add followed immediately by query_circle at the entity's own
position finds the entity, provided both corner conversions of the query's
bounding box succeed (world_to_cell also rejects points left of or above the
world, so a query circle reaching past the world edge fails both-corner
conversion and returns zero results: grid_round_trip_cex).  If the result
buffer is exhausted the entity may be truncated away, hence the capacity
disjunct. -/
theorem grid_round_trip (grid : SpatialGrid) (hwf : GridWF grid) (e : GameObject)
    (t : TransformComponent) (ht : e.transform = some t) (hactive : e.active = true)
    (q : SpatialQuery) (hinc : q.includeStatic = true)
    (radius : Rat) (hr : 0 < radius)
    (hfc : ¬ grid.entryPool.freeCount = 0)
    (cX cY minCX minCY maxCX maxCY : Nat)
    (hwc : spatial_grid_world_to_cell (some grid) t.x t.y = some (cX, cY))
    (hmin : spatial_grid_world_to_cell (some grid) (t.x - radius) (t.y - radius)
      = some (minCX, minCY))
    (hmax2 : spatial_grid_world_to_cell (some grid) (t.x + radius) (t.y + radius)
      = some (maxCX, maxCY)) :
    ∃ g' q2, spatial_grid_add_object (some grid) (some e) = (some g', true)
      ∧ (spatial_grid_query_circle (some g') t.x t.y radius (some q)).2.1 = some q2
      ∧ (e ∈ q2.results ∨ q2.results.length = q.maxResults) := by
  obtain ⟨hbx, hby⟩ := world_to_cell_bounds grid t.x t.y cX cY hwf.cell_pos
    hwf.world_w hwf.world_h hwc
  have hcell : spatial_grid_get_cell_idx grid cX cY
      = some (cY * grid.gridWidth + cX) := by
    rw [spatial_grid_get_cell_idx, if_neg (by push_neg; exact ⟨hbx, hby⟩)]
  obtain ⟨gA, pool1, hadd, halloc1, hP, hE, ⟨dflag, hC⟩, hL, hT,
    hd1, hd2, hd3, hd4, hd5, hd6, hd7, hd8⟩ :=
    add_success_characterized grid e t ht cX cY (cY * grid.gridWidth + cX)
      hwc hcell hfc hwf.poolwf.elem_pos
  obtain ⟨g2, b2, hadd2, hwf', _, _, _, _, _, hchains⟩ := add_preserved grid hwf e
  rw [hadd, Prod.mk.injEq] at hadd2
  obtain ⟨hx2, hy2⟩ := hadd2
  injection hx2 with hx2
  subst hx2
  subst hy2
  obtain ⟨l, hlwf, hchead, hcother⟩ := hchains rfl t cX cY ht hwc
  have hwcongr : ∀ x y, spatial_grid_world_to_cell (some gA) x y
      = spatial_grid_world_to_cell (some grid) x y :=
    fun x y => world_to_cell_congr gA grid hd6 hd7 hd4 hd5 hd1 x y
  obtain ⟨hneg, hsucc⟩ := query_circle_cases gA hwf' q t.x t.y radius
  obtain ⟨_, hquery⟩ := hsucc (by linarith)
  obtain ⟨q2, hqeq, hres, hqm, hqinc⟩ := hquery minCX minCY maxCX maxCY
    (by rw [hwcongr]; exact hmin) (by rw [hwcongr]; exact hmax2)
  refine ⟨gA, q2, hadd, by rw [hqeq], ?_⟩
  have hcellm : minCX ≤ cX ∧ minCY ≤ cY := by
    have := world_to_cell_mono grid hwf.cell_pos (t.x - radius) (t.y - radius)
      t.x t.y (by linarith) (by linarith) minCX minCY cX cY hmin hwc
    exact this
  have hcellM : cX ≤ maxCX ∧ cY ≤ maxCY := by
    have := world_to_cell_mono grid hwf.cell_pos t.x t.y
      (t.x + radius) (t.y + radius) (by linarith) (by linarith) cX cY maxCX maxCY
      hwc hmax2
    exact this
  have hci2 : spatial_grid_get_cell_idx gA cX cY = some (cY * grid.gridWidth + cX) := by
    rw [get_cell_idx_congr grid gA hd2 hd3]
    exact hcell
  have hmem_cell : addedEntry grid e cX cY (cY * grid.gridWidth + cX)
      ∈ specCellEntities gA cX cY := by
    simp only [specCellEntities, hci2, hchead, List.map_cons]
    exact List.mem_cons_self _ _
  have hfilter : specQueryFilter q.includeStatic t.x t.y (radius * radius)
      (addedEntry grid e cX cY (cY * grid.gridWidth + cX)) = true := by
    simp only [specQueryFilter, addedEntry, game_object_is_active, hactive, hinc,
      Bool.true_and, Bool.true_or, Bool.true_and, ht,
      transform_component_get_position]
    rw [decide_eq_true_eq]
    have hz : t.x - t.x = 0 := by ring
    have hz2 : t.y - t.y = 0 := by ring
    rw [hz, hz2]
    have hrr : (0:Rat) ≤ radius * radius := mul_nonneg (le_of_lt hr) (le_of_lt hr)
    linarith [hrr]
  have hmem_cand : e ∈ specQueryCircleCandidates gA q.includeStatic t.x t.y radius
      minCX minCY maxCX maxCY := by
    rw [specQueryCircleCandidates]
    have hmem_cov : addedEntry grid e cX cY (cY * grid.gridWidth + cX)
        ∈ (cellRange minCY maxCY).bind fun cellY =>
            (cellRange minCX maxCX).bind fun cellX => specCellEntities gA cellX cellY := by
      apply List.mem_bind.mpr
      refine ⟨cY, (mem_cellRange _ _ _).mpr ⟨hcellm.2, hcellM.2⟩, ?_⟩
      apply List.mem_bind.mpr
      exact ⟨cX, (mem_cellRange _ _ _).mpr ⟨hcellm.1, hcellM.1⟩, hmem_cell⟩
    have hmem_flt := List.mem_filter.mpr ⟨hmem_cov, hfilter⟩
    exact List.mem_map_of_mem (fun en => en.gameObject) hmem_flt
  rw [hres, specQueryCircleResults_eq_take]
  exact mem_take_or_full _ _ _ hmem_cand

def gridC3 : SpatialGrid := (spatial_grid_create 64 4 4 0 0 4).getD default

def eC3 : GameObject :=
  { id := 1, transform := some { x := 0, y := 0 }, active := true, staticObject := false }

/-- C3 counterexample: the round-trip fails as claimed for an in-bounds entity.
On the created 4 x 4 grid of cell size 64 (world [0,256)²) the active entity at
(0,0) is added successfully, yet query_circle at (0,0) with radius 1 — positive
radius, includeStatic true, capacity 4 remaining — returns 0 results and an
empty result set: the bounding-box corner (-1,-1) fails world_to_cell
(spatial_grid.c:297-307), so the loops never run and the entity is not found. -/
theorem grid_round_trip_cex :
    (spatial_grid_add_object (some gridC3) (some eC3)).2 = true
    ∧ game_object_is_active (some eC3) = true
    ∧ ((0:Rat) ≤ 0 - gridC3.offsetX ∧ (0:Rat) ≤ 0 - gridC3.offsetY
        ∧ (0:Rat) - gridC3.offsetX < ((gridC3.gridWidth * gridC3.cellSize : Nat) : Rat)
        ∧ (0:Rat) - gridC3.offsetY
          < ((gridC3.gridHeight * gridC3.cellSize : Nat) : Rat))
    ∧ ((spatial_query_create 4).getD default).includeStatic = true
    ∧ (0:Rat) < 1
    ∧ (spatial_grid_query_circle
        (some ((spatial_grid_add_object (some gridC3) (some eC3)).1.getD default))
        0 0 1 (some ((spatial_query_create 4).getD default))).2.2 = 0
    ∧ ((spatial_grid_query_circle
        (some ((spatial_grid_add_object (some gridC3) (some eC3)).1.getD default))
        0 0 1 (some ((spatial_query_create 4).getD default))).2.1.getD
          default).results = [] := by
  refine ⟨?_, ?_, ?_, ?_, ?_, ?_, ?_⟩
  · with_unfolding_all decide
  · with_unfolding_all decide
  · with_unfolding_all decide
  · with_unfolding_all decide
  · with_unfolding_all decide
  · set_option maxRecDepth 40000 in with_unfolding_all decide
  · set_option maxRecDepth 40000 in with_unfolding_all decide

def eC3W : GameObject :=
  { id := 2, transform := some { x := 100, y := 100 }, active := true,
    staticObject := false }

/-- Witness for grid_round_trip: entity at (100,100) on the created 4 x 4 grid,
radius 50, both bounding-box corners inside the world. -/
theorem grid_round_trip_witness :
    ∃ g' q2, spatial_grid_add_object (some gridC3) (some eC3W) = (some g', true)
      ∧ (spatial_grid_query_circle (some g')
          ({ x := 100, y := 100 } : TransformComponent).x
          ({ x := 100, y := 100 } : TransformComponent).y 50
          (some ((spatial_query_create 4).getD default))).2.1 = some q2
      ∧ (eC3W ∈ q2.results
          ∨ q2.results.length = ((spatial_query_create 4).getD default).maxResults) :=
  grid_round_trip gridC3
    (gridWF_create 64 4 4 4 0 0 gridC3 (by with_unfolding_all rfl))
    eC3W { x := 100, y := 100 } rfl rfl
    ((spatial_query_create 4).getD default) (by with_unfolding_all rfl)
    50 (by with_unfolding_all decide) (by with_unfolding_all decide)
    1 1 0 0 2 2
    (by with_unfolding_all rfl) (by with_unfolding_all rfl)
    (by with_unfolding_all rfl)
